import Mathlib

/-!
HT1382 real-time-clock driver: register protocol layer.

Shallow embedding of `src/src/HT1382.c` and `src/src/include/HT1382.h`.

* `uint8_t` values are natural numbers, reduced `% 256` wherever the C code
  stores a computed value into an 8-bit object.
* `int8_t` return codes of the platform functions are integers.
* The platform functions (`Init`, `DeInit`, `Send`, `Receive`) are function
  pointers that may be null; they are `Option`-valued fields acting on an
  explicit world state `σ`.  A driver function returns `none` when the C code
  has no defined result: a null function pointer is called, or the chunking
  loop of `HT1382_WriteRegs` does not terminate.
* A pointer to a byte buffer is passed as the list of bytes it points to.
  `Send` only reads its buffer; `Receive` returns the buffer as it is after
  the call.  The `Data` list handed to `HT1382_WriteRegs` holds at least
  `BytesCount` bytes, as the C caller guarantees.
* `HT1382_SEND_BUFFER_SIZE` is a build option of the header; the functions
  that depend on it take it as the parameter `C`.
-/

namespace HT1382

/-! ## Data types (HT1382.h) -/

/-- Library functions result data type, `HT1382_Result_t`. -/
inductive HT1382_Result where
  | HT1382_OK
  | HT1382_FAIL
  | HT1382_INVALID_PARAM
  deriving DecidableEq, Repr

/-- Date and time data type, `HT1382_DateTime_t`; every field is a `uint8_t`. -/
structure HT1382_DateTime where
  Second : Nat
  Minute : Nat
  Hour : Nat
  WeekDay : Nat
  Day : Nat
  Month : Nat
  Year : Nat
  deriving DecidableEq, Repr

/-- Platform dependent layer, `HT1382_Platform_t`: four function pointers, each
possibly null.  `Send s Address Data Len` and `Receive s Address Data Len` get
the world state, the slave address, the bytes the `Data` pointer points to and
the length argument; they return the new world state and the `int8_t` return
code, `Receive` also the contents of the buffer after the call. -/
structure HT1382_Platform (σ : Type) where
  Init : Option (σ → σ × Int)
  DeInit : Option (σ → σ × Int)
  Send : Option (σ → Nat → List Nat → Nat → σ × Int)
  Receive : Option (σ → Nat → List Nat → Nat → σ × Int × List Nat)

/-- Handler, `HT1382_Handler_t`. -/
structure HT1382_Handler (σ : Type) where
  Platform : HT1382_Platform σ

/-- Largest wave output option, `HT1382_OUTWAVE_1_32HZ`. -/
def HT1382_OUTWAVE_1_32HZ : Nat := 15

/-- Default send buffer size, `HT1382_SEND_BUFFER_SIZE`. -/
def HT1382_SEND_BUFFER_SIZE : Nat := 9

/-! ## Private constants (HT1382.c) -/

/-- The HT1382 address on the I2C bus. -/
def HT1382_ADDRESS : Nat := 0x68

def HT1382_REG_ADDR_SECONDS : Nat := 0x00
def HT1382_REG_ADDR_MINUTES : Nat := 0x01
def HT1382_REG_ADDR_HOURS : Nat := 0x02
def HT1382_REG_ADDR_DATE : Nat := 0x03
def HT1382_REG_ADDR_MONTH : Nat := 0x04
def HT1382_REG_ADDR_DAY : Nat := 0x05
def HT1382_REG_ADDR_YEAR : Nat := 0x06
def HT1382_REG_ADDR_ST1 : Nat := 0x07
def HT1382_REG_ADDR_ST2 : Nat := 0x08
def HT1382_REG_ADDR_INT : Nat := 0x09

/-- Clock-halt bit of the seconds register. -/
def HT1382_SECONDS_CH : Nat := 7

/-- Write-protect bit of the ST1 register. -/
def HT1382_ST1_WP : Nat := 7

/-- First output-wave bit of the INT register. -/
def HT1382_INT_FO0 : Nat := 0

/-! ## Private functions (HT1382.c) -/

/-- Decimal to BCD, `HT1382_DECtoBCD`. -/
def HT1382_DECtoBCD (DEC : Nat) : Nat :=
  let Buff2 := (DEC % 10) % 256
  let Buff1 := ((DEC / 10) % 10) % 256
  ((Buff1 <<< 4) ||| Buff2) % 256

/-- BCD to decimal, `HT1382_BCDtoDEC`. -/
def HT1382_BCDtoDEC (BCD : Nat) : Nat :=
  let Buff1 := (BCD >>> 4) % 256
  let Buff2 := (BCD &&& 0x0f) % 256
  ((Buff1 * 10) + Buff2) % 256

/-- The C library call `memcpy(dst + off, src, n)` on byte lists. -/
def memcpy (dst : List Nat) (off : Nat) (src : List Nat) (n : Nat) : List Nat :=
  dst.take off ++ src.take n ++ dst.drop (off + n)

/-- The `while (BytesCount)` loop of `HT1382_WriteRegs`, for a send buffer of
`C` bytes (`sizeof(Buffer)`).  One unit of fuel is spent per evaluation of the
loop condition; `none` when the fuel runs out or `Send` is null. -/
def HT1382_WriteRegs_loop {σ : Type} (C : Nat) (H : HT1382_Handler σ) :
    Nat → σ → List Nat → List Nat → Nat → Option (σ × Int)
  | 0, _, _, _, _ => none
  | fuel + 1, s, Buffer, Data, BytesCount =>
    if BytesCount = 0 then some (s, 0)
    else
      let Len := (min BytesCount (C - 1)) % 256
      let Buffer1 := memcpy Buffer 1 Data Len
      match H.Platform.Send with
      | none => none
      | some Send =>
        let r := Send s HT1382_ADDRESS Buffer1 ((Len + 1) % 256)
        if r.2 < 0 then some (r.1, -1)
        else
          HT1382_WriteRegs_loop C H fuel r.1
            (Buffer1.set 0 ((Buffer1.getD 0 0 + Len) % 256))
            (Data.drop Len) ((BytesCount - Len) % 256)

/-- Register burst write, `HT1382_WriteRegs`, with `HT1382_SEND_BUFFER_SIZE`
taken as the parameter `C`.  The fuel `BytesCount + 1` is enough whenever every
iteration writes at least one byte. -/
def HT1382_WriteRegs {σ : Type} (C : Nat) (H : HT1382_Handler σ) (s : σ)
    (StartReg : Nat) (Data : List Nat) (BytesCount : Nat) : Option (σ × Int) :=
  let Buffer := (List.replicate C 0).set 0 StartReg
  HT1382_WriteRegs_loop C H (BytesCount + 1) s Buffer Data BytesCount

/-- Register burst read, `HT1382_ReadRegs`; the third component is the
buffer of the caller after the call. -/
def HT1382_ReadRegs {σ : Type} (H : HT1382_Handler σ) (s : σ)
    (StartReg : Nat) (Data : List Nat) (BytesCount : Nat) :
    Option (σ × Int × List Nat) :=
  match H.Platform.Send with
  | none => none
  | some Send =>
    let r := Send s HT1382_ADDRESS [StartReg] 1
    if r.2 < 0 then some (r.1, -1, Data)
    else
      match H.Platform.Receive with
      | none => none
      | some Receive =>
        let q := Receive r.1 HT1382_ADDRESS Data BytesCount
        if q.2.1 < 0 then some (q.1, -1, q.2.2)
        else some (q.1, 0, q.2.2)

/-- Write protection switch, `HT1382_WriteProtection`. -/
def HT1382_WriteProtection {σ : Type} (C : Nat) (H : HT1382_Handler σ) (s : σ)
    (Enable : Nat) : Option (σ × Int) :=
  let Enable1 := if Enable ≠ 0 then (1 <<< HT1382_ST1_WP) % 256 else Enable
  HT1382_WriteRegs C H s HT1382_REG_ADDR_ST1 [Enable1] 1

/-! ## Public functions (HT1382.c) -/

/-- Initialize, `HT1382_Init`. -/
def HT1382_Init {σ : Type} (H : HT1382_Handler σ) (s : σ) : σ × HT1382_Result :=
  if H.Platform.Send.isNone ∨ H.Platform.Receive.isNone then
    (s, .HT1382_INVALID_PARAM)
  else
    match H.Platform.Init with
    | some Init =>
      let r := Init s
      if r.2 < 0 then (r.1, .HT1382_FAIL) else (r.1, .HT1382_OK)
    | none => (s, .HT1382_OK)

/-- Uninitialize, `HT1382_DeInit`. -/
def HT1382_DeInit {σ : Type} (H : HT1382_Handler σ) (s : σ) : σ × HT1382_Result :=
  match H.Platform.DeInit with
  | some DeInit =>
    let r := DeInit s
    if r.2 < 0 then (r.1, .HT1382_FAIL) else (r.1, .HT1382_OK)
  | none => (s, .HT1382_OK)

/-- The seven statements of `HT1382_SetDateTime` that fill `Buffer[7]` with the
BCD value of each field (`// convert value of parameter to BCD`).  The C
expression `~(1 << HT1382_SECONDS_CH)` is applied to an 8-bit operand and is
written as the 8-bit complement. -/
def HT1382_SetDateTime_Buffer (DateTime : HT1382_DateTime) : List Nat :=
  let Buffer := List.replicate 7 0
  let Buffer := Buffer.set HT1382_REG_ADDR_SECONDS
    ((HT1382_DECtoBCD DateTime.Second &&& (0xFF ^^^ (1 <<< HT1382_SECONDS_CH))) % 256)
  let Buffer := Buffer.set HT1382_REG_ADDR_MINUTES (HT1382_DECtoBCD DateTime.Minute)
  let Buffer := Buffer.set HT1382_REG_ADDR_HOURS (HT1382_DECtoBCD DateTime.Hour)
  let Buffer := Buffer.set HT1382_REG_ADDR_DAY (HT1382_DECtoBCD DateTime.WeekDay)
  let Buffer := Buffer.set HT1382_REG_ADDR_DATE (HT1382_DECtoBCD DateTime.Day)
  let Buffer := Buffer.set HT1382_REG_ADDR_MONTH (HT1382_DECtoBCD DateTime.Month)
  let Buffer := Buffer.set HT1382_REG_ADDR_YEAR (HT1382_DECtoBCD DateTime.Year)
  Buffer

/-- Set date and time, `HT1382_SetDateTime`. -/
def HT1382_SetDateTime {σ : Type} (C : Nat) (H : HT1382_Handler σ) (s : σ)
    (DateTime : HT1382_DateTime) : Option (σ × HT1382_Result) :=
  if DateTime.Second > 59 ∨
      DateTime.Minute > 59 ∨
      DateTime.Hour > 23 ∨
      DateTime.WeekDay > 7 ∨ DateTime.WeekDay = 0 ∨
      DateTime.Day > 31 ∨ DateTime.Day = 0 ∨
      DateTime.Month > 12 ∨ DateTime.Month = 0 ∨
      DateTime.Year > 99 then
    some (s, .HT1382_INVALID_PARAM)
  else
    let Buffer := HT1382_SetDateTime_Buffer DateTime
    match HT1382_WriteProtection C H s 0 with
    | none => none
    | some (s1, r1) =>
      if r1 < 0 then some (s1, .HT1382_FAIL)
      else
        match HT1382_WriteRegs C H s1 HT1382_REG_ADDR_SECONDS Buffer 7 with
        | none => none
        | some (s2, r2) =>
          if r2 < 0 then some (s2, .HT1382_FAIL)
          else
            match HT1382_WriteProtection C H s2 1 with
            | none => none
            | some (s3, r3) =>
              if r3 < 0 then some (s3, .HT1382_FAIL)
              else some (s3, .HT1382_OK)

/-- The seven statements of `HT1382_GetDateTime` that decode the received
`Buffer[7]` into the fields (`// convert BCD value to decimal`). -/
def HT1382_GetDateTime_decode (Buffer : List Nat) : HT1382_DateTime :=
  { Second := HT1382_BCDtoDEC
      ((Buffer.getD HT1382_REG_ADDR_SECONDS 0 &&& (0xFF ^^^ (1 <<< HT1382_SECONDS_CH))) % 256)
    Minute := HT1382_BCDtoDEC (Buffer.getD HT1382_REG_ADDR_MINUTES 0)
    Hour := HT1382_BCDtoDEC (Buffer.getD HT1382_REG_ADDR_HOURS 0)
    WeekDay := HT1382_BCDtoDEC (Buffer.getD HT1382_REG_ADDR_DAY 0)
    Day := HT1382_BCDtoDEC (Buffer.getD HT1382_REG_ADDR_DATE 0)
    Month := HT1382_BCDtoDEC (Buffer.getD HT1382_REG_ADDR_MONTH 0)
    Year := HT1382_BCDtoDEC (Buffer.getD HT1382_REG_ADDR_YEAR 0) }

/-- Get date and time, `HT1382_GetDateTime`.  `DateTime` is what the structure
of the caller holds before the call; the third component is what it holds after. -/
def HT1382_GetDateTime {σ : Type} (H : HT1382_Handler σ) (s : σ)
    (DateTime : HT1382_DateTime) : Option (σ × HT1382_Result × HT1382_DateTime) :=
  let Buffer := List.replicate 7 0
  match HT1382_ReadRegs H s HT1382_REG_ADDR_SECONDS Buffer 7 with
  | none => none
  | some (s1, r1, Buffer1) =>
    if r1 < 0 then some (s1, .HT1382_FAIL, DateTime)
    else some (s1, .HT1382_OK, HT1382_GetDateTime_decode Buffer1)

/-- Set output wave, `HT1382_SetOutWave`. -/
def HT1382_SetOutWave {σ : Type} (C : Nat) (H : HT1382_Handler σ) (s : σ)
    (OutWave : Nat) : Option (σ × HT1382_Result) :=
  let RegBuffer := [0]
  if OutWave > HT1382_OUTWAVE_1_32HZ then some (s, .HT1382_INVALID_PARAM)
  else
    match HT1382_ReadRegs H s HT1382_REG_ADDR_INT RegBuffer 1 with
    | none => none
    | some (s1, r1, RegBuffer1) =>
      if r1 < 0 then some (s1, .HT1382_FAIL)
      else
        let v := (RegBuffer1.getD 0 0 &&& (0xFF ^^^ (0x0F <<< HT1382_INT_FO0))) % 256
        let v := (v ||| ((OutWave &&& 0x0F) <<< HT1382_INT_FO0)) % 256
        match HT1382_WriteProtection C H s1 0 with
        | none => none
        | some (s2, r2) =>
          if r2 < 0 then some (s2, .HT1382_FAIL)
          else
            match HT1382_WriteRegs C H s2 HT1382_REG_ADDR_INT [v] 1 with
            | none => none
            | some (s3, r3) =>
              if r3 < 0 then some (s3, .HT1382_FAIL)
              else
                match HT1382_WriteProtection C H s3 1 with
                | none => none
                | some (s4, r4) =>
                  if r4 < 0 then some (s4, .HT1382_FAIL)
                  else
                    match HT1382_ReadRegs H s4 HT1382_REG_ADDR_INT [v] 1 with
                    | none => none
                    | some (s5, r5, _) =>
                      if r5 < 0 then some (s5, .HT1382_FAIL)
                      else some (s5, .HT1382_OK)

/-! ## Platform port (port/ESP32-IDF/HT1382_platform.c) -/

/-- The address byte `Platform_WriteData` of the ESP32-IDF port puts on the bus
for the slave address it is passed: `Address <<= 1; Address &= 0xFE;` on a
`uint8_t`. -/
def Platform_WriteData_Address (Address : Nat) : Nat :=
  ((Address <<< 1) % 256) &&& 0xFE

/-- The address byte `Platform_ReadData` of the ESP32-IDF port puts on the bus
for the slave address it is passed: `Address <<= 1; Address |= 0x01;` on a
`uint8_t`. -/
def Platform_ReadData_Address (Address : Nat) : Nat :=
  ((Address <<< 1) % 256) ||| 0x01

/-! ## Test transports -/

/-- One recorded call of a platform function.  A send is recorded with the
slave address and the `Len` bytes it transmits, a receive with the slave
address and the number of bytes asked for. -/
inductive Call where
  | send (Address : Nat) (Data : List Nat)
  | receive (Address : Nat) (Len : Nat)
  | init
  | deinit
  deriving DecidableEq, Repr

/-- The handler `H` with every bound platform function wrapped so that each
call is appended to a log before the result of `H` is passed on. -/
def recording {σ : Type} (H : HT1382_Handler σ) : HT1382_Handler (σ × List Call) :=
  { Platform :=
    { Init := H.Platform.Init.map fun f st =>
        let r := f st.1
        ((r.1, st.2 ++ [Call.init]), r.2)
      DeInit := H.Platform.DeInit.map fun f st =>
        let r := f st.1
        ((r.1, st.2 ++ [Call.deinit]), r.2)
      Send := H.Platform.Send.map fun f st Address Data Len =>
        let r := f st.1 Address Data Len
        ((r.1, st.2 ++ [Call.send Address (Data.take Len)]), r.2)
      Receive := H.Platform.Receive.map fun f st Address Data Len =>
        let r := f st.1 Address Data Len
        ((r.1, st.2 ++ [Call.receive Address Len]), r.2) } }

/-- The handler `H` with every bound platform function wrapped so that each
call is appended to a log together with the code it returns. -/
def tracing {σ : Type} (H : HT1382_Handler σ) : HT1382_Handler (σ × List (Call × Int)) :=
  { Platform :=
    { Init := H.Platform.Init.map fun f st =>
        let r := f st.1
        ((r.1, st.2 ++ [(Call.init, r.2)]), r.2)
      DeInit := H.Platform.DeInit.map fun f st =>
        let r := f st.1
        ((r.1, st.2 ++ [(Call.deinit, r.2)]), r.2)
      Send := H.Platform.Send.map fun f st Address Data Len =>
        let r := f st.1 Address Data Len
        ((r.1, st.2 ++ [(Call.send Address (Data.take Len), r.2)]), r.2)
      Receive := H.Platform.Receive.map fun f st Address Data Len =>
        let r := f st.1 Address Data Len
        ((r.1, st.2 ++ [(Call.receive Address Len, r.2.1)]), r.2) } }

/-- One call of `Send` as the platform function gets it: the slave address,
the whole buffer the `Data` pointer points to, the length argument, and the
code the call returns. -/
structure SendArgs where
  Address : Nat
  Data : List Nat
  Len : Nat
  code : Int
  deriving DecidableEq, Repr

/-- The handler `H` with `Send` wrapped so that the arguments of each call are
appended to a log as they are passed; the other platform functions are passed
through. -/
def probing {σ : Type} (H : HT1382_Handler σ) : HT1382_Handler (σ × List SendArgs) :=
  { Platform :=
    { Init := H.Platform.Init.map fun f st => (((f st.1).1, st.2), (f st.1).2)
      DeInit := H.Platform.DeInit.map fun f st => (((f st.1).1, st.2), (f st.1).2)
      Send := H.Platform.Send.map fun f st Address Data Len =>
        (((f st.1 Address Data Len).1,
            st.2 ++ [SendArgs.mk Address Data Len (f st.1 Address Data Len).2]),
          (f st.1 Address Data Len).2)
      Receive := H.Platform.Receive.map fun f st Address Data Len =>
        (((f st.1 Address Data Len).1, st.2), (f st.1 Address Data Len).2) } }

/-- The data bytes a send transmits after its leading address byte: the first
`Len` bytes of the buffer without the first one. -/
def SendArgs.payload (e : SendArgs) : List Nat :=
  (e.Data.take e.Len).drop 1

/-- Number of data bytes the length arguments of the logged sends announce:
each length argument less the address byte. -/
def announcedBytes (log : List SendArgs) : Nat :=
  (log.map fun e => e.Len - 1).sum

/-- Simulated register store: 256 byte registers and the read pointer. -/
structure RegStore where
  regs : Nat → Nat
  ptr : Nat

/-- Store the bytes `ds` at consecutive registers from `a` on (addresses are
8 bits wide). -/
def RegStore.write (regs : Nat → Nat) : Nat → List Nat → Nat → Nat
  | _, [] => regs
  | a, d :: ds => RegStore.write (Function.update regs (a % 256) d) (a + 1) ds

/-- Simulated send: a send of `[a, d0..dk]` stores `d0..dk` at registers
`a..a+k` and sets the read pointer to `a`; it always succeeds. -/
def RegStore.send (st : RegStore) (_Address : Nat) (Data : List Nat) (Len : Nat) :
    RegStore × Int :=
  match Data.take Len with
  | [] => (st, 0)
  | a :: ds => ({ regs := RegStore.write st.regs a ds, ptr := a }, 0)

/-- Simulated receive: a receive of `Len` bytes returns the `Len` registers
starting at the read pointer; it always succeeds. -/
def RegStore.receive (st : RegStore) (_Address : Nat) (Data : List Nat) (Len : Nat) :
    RegStore × Int × List Nat :=
  (st, 0, (List.range Len).map (fun i => st.regs ((st.ptr + i) % 256)) ++ Data.drop Len)

/-- Handler bound to the simulated register store. -/
def simHandler : HT1382_Handler RegStore :=
  { Platform :=
    { Init := none
      DeInit := none
      Send := some RegStore.send
      Receive := some RegStore.receive } }

/-- Handler bound to the simulated register store behind a transport that
fails on schedule.  The world state is the store and the number of sends and
receives made so far; call number `k` returns -1 and leaves the store and the
buffer as they are when `fails k` holds, and acts as the simulated store
otherwise. -/
def faultyHandler (fails : Nat → Bool) : HT1382_Handler (RegStore × Nat) :=
  { Platform :=
    { Init := none
      DeInit := none
      Send := some fun st Address Data Len =>
        if fails st.2 then ((st.1, st.2 + 1), -1)
        else (((RegStore.send st.1 Address Data Len).1, st.2 + 1), 0)
      Receive := some fun st Address Data Len =>
        if fails st.2 then ((st.1, st.2 + 1), -1, Data)
        else (((RegStore.receive st.1 Address Data Len).1, st.2 + 1), 0,
          (RegStore.receive st.1 Address Data Len).2.2) } }

/-- Handler bound to the simulated register store whose receive is never
acknowledged: it returns -3 and leaves the store and the buffer as they are. -/
def nackHandler : HT1382_Handler RegStore :=
  { Platform :=
    { Init := none
      DeInit := none
      Send := some RegStore.send
      Receive := some fun st _ Data _ => (st, -3, Data) } }

/-- Handler over a counter of hook calls: the init and deinit hooks return the
given codes, send and receive are bound exactly when `bound` holds. -/
def hookHandler (initCode deinitCode : Option Int) (bound : Bool) : HT1382_Handler Nat :=
  { Platform :=
    { Init := initCode.map fun c n => (n + 1, c)
      DeInit := deinitCode.map fun c n => (n + 1, c)
      Send := if bound then some fun n _ _ _ => (n, 0) else none
      Receive := if bound then some fun n _ Data _ => (n, 0, Data) else none } }

/-- A register store whose INT register holds 0xC5, every other register and
the read pointer being zero. -/
def intStore : RegStore :=
  { regs := fun r => if r = 9 then 0xC5 else 0, ptr := 0 }

/-- Handler over a counter of calls whose four platform functions all return
the given code and touch nothing else. -/
def codeHandler (code : Int) : HT1382_Handler Nat :=
  { Platform :=
    { Init := some fun n => (n + 1, code)
      DeInit := some fun n => (n + 1, code)
      Send := some fun n _ _ _ => (n + 1, code)
      Receive := some fun n _ Data _ => (n + 1, code, Data) } }

/-- A register store that is write-protected: ST1 holds 0x80, every other
register and the read pointer are zero. -/
def protectedStore : RegStore :=
  { regs := fun r => if r = 7 then 0x80 else 0, ptr := 0 }

/-- A register store whose first registers hold the given bytes, every other
register and the read pointer being zero. -/
def listStore (bytes : List Nat) : RegStore :=
  { regs := fun r => bytes.getD r 0, ptr := 0 }

/-- The register store with every register and the read pointer at zero. -/
def zeroStore : RegStore :=
  { regs := fun _ => 0, ptr := 0 }

/-! ## Specification-side predicates -/

/-- Valid date and time: Second 0-59, Minute 0-59, Hour 0-23, WeekDay 1-7,
Day 1-31, Month 1-12, Year 0-99. -/
def HT1382_DateTime.Valid (x : HT1382_DateTime) : Prop :=
  x.Second ≤ 59 ∧ x.Minute ≤ 59 ∧ x.Hour ≤ 23 ∧
  (1 ≤ x.WeekDay ∧ x.WeekDay ≤ 7) ∧ (1 ≤ x.Day ∧ x.Day ≤ 31) ∧
  (1 ≤ x.Month ∧ x.Month ≤ 12) ∧ x.Year ≤ 99

instance (x : HT1382_DateTime) : Decidable x.Valid := by
  unfold HT1382_DateTime.Valid
  infer_instance

/-- The date and time of the example program (`app_main`). -/
def exampleDateTime : HT1382_DateTime :=
  { Second := 0, Minute := 2, Hour := 10, WeekDay := 5, Day := 23, Month := 11, Year := 23 }

/-- A register store holding the given seconds byte and a fixed date and time
(59 minutes, 23 hours, the 31st, December, weekday 7, year 99) in BCD. -/
def sampleStore (seconds : Nat) : RegStore :=
  { regs := fun r => (seconds :: [0x59, 0x23, 0x31, 0x12, 0x07, 0x99]).getD r 0, ptr := 0 }

/-- Every call of the log returned a code that is not negative. -/
def AllSucceed (log : List (Call × Int)) : Prop :=
  ∀ e ∈ log, 0 ≤ e.2

/-- The last call of the log returned a negative code and no call before it
did. -/
def FailsLast (log : List (Call × Int)) : Prop :=
  ∃ init e, log = init ++ [e] ∧ AllSucceed init ∧ e.2 < 0

/-- What a public operation leaves behind: no call at all with
`HT1382_INVALID_PARAM`, only successful calls with `HT1382_OK`, and with
`HT1382_FAIL` a failed call that is the last one made. -/
def OpOutcome (log : List (Call × Int)) (res : HT1382_Result) : Prop :=
  (res = .HT1382_INVALID_PARAM ∧ log = []) ∨ (res = .HT1382_OK ∧ AllSucceed log) ∨
    (res = .HT1382_FAIL ∧ FailsLast log)

/-- What a register write or read leaves behind: only successful calls with
the return value 0, and with the return value -1 a failed call that is the last
one made. -/
def StepOutcome (log : List (Call × Int)) (r : Int) : Prop :=
  (r = 0 ∧ AllSucceed log) ∨ (r = -1 ∧ FailsLast log)

/-- A send or a receive is addressed to the HT1382; the hooks have no
address. -/
def Call.AddressOk : Call → Prop
  | Call.send a _ => a = HT1382_ADDRESS
  | Call.receive a _ => a = HT1382_ADDRESS
  | _ => True

/-- Every send and receive of the log is addressed to the HT1382. -/
def AllAddressed (log : List (Call × Int)) : Prop :=
  ∀ e ∈ log, e.1.AddressOk

/-- The sends expected of a chunked burst write: `K` transactions, each one the
current register address followed by the next `C - 1` data bytes at most, the
address advancing by the number of data bytes written. -/
def chunkCalls (C : Nat) : Nat → Nat → List Nat → List Call
  | 0, _, _ => []
  | K + 1, a, Data =>
    Call.send HT1382_ADDRESS (a :: Data.take (C - 1)) ::
      chunkCalls C K ((a + (C - 1)) % 256) (Data.drop (C - 1))

/-- Number of chunks of at most `C - 1` bytes that `n` bytes need,
`ceil (n / (C - 1))`. -/
def chunkCount (C n : Nat) : Nat :=
  (n + (C - 2)) / (C - 1)

/-- The data bytes a recorded send carries after its leading address byte. -/
def Call.payload : Call → List Nat
  | Call.send _ (_ :: ds) => ds
  | _ => []

/-! ## Register codec -/

theorem BCDtoDEC_DECtoBCD_of_le (v : Nat) (h : v ≤ 99) :
    HT1382_BCDtoDEC (HT1382_DECtoBCD v) = v := by
  interval_cases v <;> rfl

theorem BCDtoDEC_seconds_of_le (v : Nat) (h : v ≤ 59) :
    HT1382_BCDtoDEC
      (((HT1382_DECtoBCD v &&& (0xFF ^^^ (1 <<< HT1382_SECONDS_CH))) % 256 &&&
        (0xFF ^^^ (1 <<< HT1382_SECONDS_CH))) % 256) = v := by
  interval_cases v <;> rfl

theorem SetDateTime_Buffer_eq (x : HT1382_DateTime) :
    HT1382_SetDateTime_Buffer x =
      [(HT1382_DECtoBCD x.Second &&& (0xFF ^^^ (1 <<< HT1382_SECONDS_CH))) % 256,
        HT1382_DECtoBCD x.Minute, HT1382_DECtoBCD x.Hour, HT1382_DECtoBCD x.Day,
        HT1382_DECtoBCD x.Month, HT1382_DECtoBCD x.WeekDay, HT1382_DECtoBCD x.Year] := by
  rfl

/-- Decoding the encoded buffer of a valid date and time gives it back. -/
theorem decode_SetDateTime_Buffer (x : HT1382_DateTime) (hx : x.Valid) :
    HT1382_GetDateTime_decode (HT1382_SetDateTime_Buffer x) = x := by
  obtain ⟨h1, h2, h3, ⟨_, h4⟩, ⟨_, h5⟩, ⟨_, h6⟩, h7⟩ := hx
  rw [SetDateTime_Buffer_eq]
  cases x
  simp only [HT1382_GetDateTime_decode, HT1382_REG_ADDR_SECONDS, HT1382_REG_ADDR_MINUTES,
    HT1382_REG_ADDR_HOURS, HT1382_REG_ADDR_DAY, HT1382_REG_ADDR_DATE, HT1382_REG_ADDR_MONTH,
    HT1382_REG_ADDR_YEAR, List.getD_cons_zero, List.getD_cons_succ] at *
  rw [BCDtoDEC_seconds_of_le _ h1, BCDtoDEC_DECtoBCD_of_le _ (le_trans h2 (by decide)),
    BCDtoDEC_DECtoBCD_of_le _ (le_trans h3 (by decide)),
    BCDtoDEC_DECtoBCD_of_le _ (le_trans h4 (by decide)),
    BCDtoDEC_DECtoBCD_of_le _ (le_trans h5 (by decide)),
    BCDtoDEC_DECtoBCD_of_le _ (le_trans h6 (by decide)), BCDtoDEC_DECtoBCD_of_le _ h7]

/-- C1: for every valid DateTime, decoding the 7-byte buffer built by
HT1382_SetDateTime with the per-byte decoding of HT1382_GetDateTime gives the
DateTime back in all seven fields. -/
theorem C1_decode_encode_roundtrip (x : HT1382_DateTime) (hx : x.Valid) :
    HT1382_GetDateTime_decode (HT1382_SetDateTime_Buffer x) = x :=
  decode_SetDateTime_Buffer x hx

theorem C1_decode_encode_roundtrip_witness :
    exampleDateTime.Valid ∧
      HT1382_GetDateTime_decode (HT1382_SetDateTime_Buffer exampleDateTime) = exampleDateTime :=
  ⟨by decide, C1_decode_encode_roundtrip exampleDateTime (by decide)⟩

/-- C2: for every decimal value v in 0..99, HT1382_BCDtoDEC (HT1382_DECtoBCD v)
is v. -/
theorem C2_bcd_law (v : Nat) (hv : v ≤ 99) : HT1382_BCDtoDEC (HT1382_DECtoBCD v) = v :=
  BCDtoDEC_DECtoBCD_of_le v hv

theorem C2_bcd_law_witness : (47 : Nat) ≤ 99 ∧ HT1382_BCDtoDEC (HT1382_DECtoBCD 47) = 47 :=
  ⟨by decide, C2_bcd_law 47 (by decide)⟩

/-! ## Validation gate of HT1382_SetDateTime -/

/-- A date and time the range check of `HT1382_SetDateTime` refuses is handed
back at once: same world state, `HT1382_INVALID_PARAM`. -/
theorem SetDateTime_out_of_range {σ : Type} (C : Nat) (H : HT1382_Handler σ) (s : σ)
    (x : HT1382_DateTime)
    (h : x.Second > 59 ∨ x.Minute > 59 ∨ x.Hour > 23 ∨ x.WeekDay > 7 ∨ x.WeekDay = 0 ∨
      x.Day > 31 ∨ x.Day = 0 ∨ x.Month > 12 ∨ x.Month = 0 ∨ x.Year > 99) :
    HT1382_SetDateTime C H s x = some (s, .HT1382_INVALID_PARAM) := by
  simp only [HT1382_SetDateTime, if_pos h]

/-- A date and time that passes the range check never yields
`HT1382_INVALID_PARAM`. -/
theorem SetDateTime_in_range_ne {σ : Type} (C : Nat) (H : HT1382_Handler σ) (s s' : σ)
    (x : HT1382_DateTime)
    (h : ¬ (x.Second > 59 ∨ x.Minute > 59 ∨ x.Hour > 23 ∨ x.WeekDay > 7 ∨ x.WeekDay = 0 ∨
      x.Day > 31 ∨ x.Day = 0 ∨ x.Month > 12 ∨ x.Month = 0 ∨ x.Year > 99)) :
    HT1382_SetDateTime C H s x ≠ some (s', .HT1382_INVALID_PARAM) := by
  simp only [HT1382_SetDateTime, if_neg h]
  rcases HT1382_WriteProtection C H s 0 with _ | ⟨s1, r1⟩
  · simp
  · by_cases h1 : r1 < 0
    · simp [h1]
    · simp only [if_neg h1]
      rcases HT1382_WriteRegs C H s1 HT1382_REG_ADDR_SECONDS (HT1382_SetDateTime_Buffer x) 7
        with _ | ⟨s2, r2⟩
      · simp
      · by_cases h2 : r2 < 0
        · simp [h2]
        · simp only [if_neg h2]
          rcases HT1382_WriteProtection C H s2 1 with _ | ⟨s3, r3⟩
          · simp
          · by_cases h3 : r3 < 0
            · simp [h3]
            · simp [h3]

/-- C3: HT1382_SetDateTime returns HT1382_INVALID_PARAM exactly when at least
one field is out of range (Second > 59, Minute > 59, Hour > 23, WeekDay = 0 or
> 7, Day = 0 or > 31, Month = 0 or > 12, Year > 99), and in that case the
recording transport has logged no call at all (no send, no receive) and the
world state is the one before the call. -/
theorem C3_validation_gate {σ : Type} (C : Nat) (H : HT1382_Handler σ) (s : σ)
    (x : HT1382_DateTime) :
    ((∃ s', HT1382_SetDateTime C H s x = some (s', .HT1382_INVALID_PARAM)) ↔
      (x.Second > 59 ∨ x.Minute > 59 ∨ x.Hour > 23 ∨ (x.WeekDay = 0 ∨ x.WeekDay > 7) ∨
        (x.Day = 0 ∨ x.Day > 31) ∨ (x.Month = 0 ∨ x.Month > 12) ∨ x.Year > 99)) ∧
    ((x.Second > 59 ∨ x.Minute > 59 ∨ x.Hour > 23 ∨ (x.WeekDay = 0 ∨ x.WeekDay > 7) ∨
        (x.Day = 0 ∨ x.Day > 31) ∨ (x.Month = 0 ∨ x.Month > 12) ∨ x.Year > 99) →
      HT1382_SetDateTime C (recording H) (s, []) x =
        some ((s, []), .HT1382_INVALID_PARAM)) := by
  refine ⟨⟨?_, ?_⟩, ?_⟩
  · rintro ⟨s', hs⟩
    by_contra hc
    exact SetDateTime_in_range_ne C H s s' x (by omega) hs
  · intro h
    exact ⟨s, SetDateTime_out_of_range C H s x (by omega)⟩
  · intro h
    exact SetDateTime_out_of_range C (recording H) (s, []) x (by omega)

theorem C3_validation_gate_witness :
    HT1382_SetDateTime HT1382_SEND_BUFFER_SIZE (recording simHandler) (zeroStore, [])
        { exampleDateTime with Second := 60 } = some ((zeroStore, []), .HT1382_INVALID_PARAM) ∧
    HT1382_SetDateTime HT1382_SEND_BUFFER_SIZE (recording simHandler) (zeroStore, [])
        { exampleDateTime with WeekDay := 0 } = some ((zeroStore, []), .HT1382_INVALID_PARAM) ∧
    HT1382_SetDateTime HT1382_SEND_BUFFER_SIZE (recording simHandler) (zeroStore, [])
        { exampleDateTime with WeekDay := 8 } = some ((zeroStore, []), .HT1382_INVALID_PARAM) ∧
    HT1382_SetDateTime HT1382_SEND_BUFFER_SIZE (recording simHandler) (zeroStore, [])
        { exampleDateTime with Day := 0 } = some ((zeroStore, []), .HT1382_INVALID_PARAM) ∧
    HT1382_SetDateTime HT1382_SEND_BUFFER_SIZE (recording simHandler) (zeroStore, [])
        { exampleDateTime with Month := 0 } = some ((zeroStore, []), .HT1382_INVALID_PARAM) ∧
    HT1382_SetDateTime HT1382_SEND_BUFFER_SIZE (recording simHandler) (zeroStore, [])
        { exampleDateTime with Month := 13 } = some ((zeroStore, []), .HT1382_INVALID_PARAM) ∧
    HT1382_SetDateTime HT1382_SEND_BUFFER_SIZE (recording simHandler) (zeroStore, [])
        { exampleDateTime with Year := 100 } = some ((zeroStore, []), .HT1382_INVALID_PARAM) :=
  ⟨(C3_validation_gate _ simHandler zeroStore _).2 (by decide),
    (C3_validation_gate _ simHandler zeroStore _).2 (by decide),
    (C3_validation_gate _ simHandler zeroStore _).2 (by decide),
    (C3_validation_gate _ simHandler zeroStore _).2 (by decide),
    (C3_validation_gate _ simHandler zeroStore _).2 (by decide),
    (C3_validation_gate _ simHandler zeroStore _).2 (by decide),
    (C3_validation_gate _ simHandler zeroStore _).2 (by decide)⟩

/-! ## The chunking loop of HT1382_WriteRegs -/

theorem chunkCount_of_le (C n : Nat) (hC : 2 ≤ C) (hn : 0 < n) (h : n ≤ C - 1) :
    chunkCount C n = 1 := by
  unfold chunkCount
  apply Nat.div_eq_of_lt_le <;> omega

theorem chunkCount_of_gt (C n : Nat) (hC : 2 ≤ C) (h : C - 1 < n) :
    chunkCount C n = chunkCount C (n - (C - 1)) + 1 := by
  unfold chunkCount
  have h1 : n + (C - 2) = (n - (C - 1) + (C - 2)) + (C - 1) := by omega
  rw [h1, Nat.add_div_right _ (by omega : 0 < C - 1)]

theorem chunkCount_zero (C : Nat) (hC : 2 ≤ C) : chunkCount C 0 = 0 := by
  unfold chunkCount
  apply Nat.div_eq_of_lt
  omega

theorem recording_Send {σ : Type} (H : HT1382_Handler σ)
    (send : σ → Nat → List Nat → Nat → σ × Int) (hS : H.Platform.Send = some send) :
    (recording H).Platform.Send = some (fun st Address Data Len =>
      (((send st.1 Address Data Len).1, st.2 ++ [Call.send Address (Data.take Len)]),
        (send st.1 Address Data Len).2)) := by
  simp [recording, hS]

/-- With a send buffer of at least two bytes and sends that succeed, the loop
run on `n` bytes with more than `n` units of fuel returns 0 and the recording
transport has logged exactly the expected chunks, provided the length
argument `Len + 1` fits in 8 bits. -/
theorem WriteRegs_loop_recording {σ : Type} (C : Nat) (H : HT1382_Handler σ)
    (send : σ → Nat → List Nat → Nat → σ × Int) (hS : H.Platform.Send = some send)
    (hok : ∀ s a d l, (send s a d l).2 = 0) (hC : 2 ≤ C) :
    ∀ (fuel : Nat) (s : σ) (tr : List Call) (a : Nat) (rest Data : List Nat) (n : Nat),
      n < fuel → Data.length = n → n ≤ 255 → (C ≤ 255 ∨ n ≤ 254) →
      ∃ s', HT1382_WriteRegs_loop C (recording H) fuel (s, tr) (a :: rest) Data n =
        some ((s', tr ++ chunkCalls C (chunkCount C n) a Data), 0) := by
  intro fuel
  induction fuel with
  | zero => intro s tr a rest Data n hf; omega
  | succ fuel ih =>
    intro s tr a rest Data n hf hlen hn hw
    rw [HT1382_WriteRegs_loop]
    by_cases h0 : n = 0
    · subst h0
      refine ⟨s, ?_⟩
      simp [chunkCount_zero C hC, chunkCalls]
    · rw [if_neg h0]
      simp only [recording_Send H send hS, hok]
      have hLen : min n (C - 1) % 256 = min n (C - 1) := Nat.mod_eq_of_lt (by omega)
      have hLen1 : (min n (C - 1) + 1) % 256 = min n (C - 1) + 1 :=
        Nat.mod_eq_of_lt (by omega)
      have hsub : (n - min n (C - 1)) % 256 = n - min n (C - 1) := Nat.mod_eq_of_lt (by omega)
      rw [hLen, hLen1, hsub]
      have htake : (memcpy (a :: rest) 1 Data (min n (C - 1))).take (min n (C - 1) + 1) =
          a :: Data.take (min n (C - 1)) := by
        simp [memcpy, List.take_append_eq_append_take, hlen]
      have hset : (memcpy (a :: rest) 1 Data (min n (C - 1))).set 0
          (((memcpy (a :: rest) 1 Data (min n (C - 1))).getD 0 0 + min n (C - 1)) % 256) =
          ((a + min n (C - 1)) % 256) ::
            (Data.take (min n (C - 1)) ++ rest.drop (min n (C - 1))) := by
        simp [memcpy, Nat.add_comm 1]
      rw [htake, hset]
      simp only [lt_self_iff_false, if_false]
      obtain ⟨s', hs'⟩ := ih (send s HT1382_ADDRESS (memcpy (a :: rest) 1 Data (min n (C - 1)))
          (min n (C - 1) + 1)).1
        (tr ++ [Call.send HT1382_ADDRESS (a :: Data.take (min n (C - 1)))])
        ((a + min n (C - 1)) % 256)
        (Data.take (min n (C - 1)) ++ rest.drop (min n (C - 1)))
        (Data.drop (min n (C - 1))) (n - min n (C - 1))
        (by omega) (by simp [hlen]) (by omega) (by omega)
      refine ⟨s', ?_⟩
      rw [hs']
      by_cases hle : n ≤ C - 1
      · have hmin : min n (C - 1) = n := by omega
        rw [hmin, Nat.sub_self, chunkCount_zero C hC, chunkCount_of_le C n hC (by omega) hle]
        have ht : Data.take (C - 1) = Data.take n := by
          rw [List.take_of_length_le (by omega), List.take_of_length_le (by omega)]
        simp [chunkCalls, ht]
      · have hmin : min n (C - 1) = C - 1 := by omega
        rw [hmin, chunkCount_of_gt C n hC (by omega)]
        simp [chunkCalls]

theorem replicate_set_zero (C S : Nat) (hC : 1 ≤ C) :
    (List.replicate C 0).set 0 S = S :: List.replicate (C - 1) 0 := by
  obtain ⟨c, rfl⟩ : ∃ c, C = c + 1 := ⟨C - 1, by omega⟩
  simp [List.replicate_succ]

/-- The whole of `HT1382_WriteRegs` on a recording transport. -/
theorem WriteRegs_recording {σ : Type} (C : Nat) (H : HT1382_Handler σ)
    (send : σ → Nat → List Nat → Nat → σ × Int) (hS : H.Platform.Send = some send)
    (hok : ∀ s a d l, (send s a d l).2 = 0) (hC : 2 ≤ C)
    (s : σ) (tr : List Call) (S : Nat) (Data : List Nat) (n : Nat)
    (hlen : Data.length = n) (hn : n ≤ 255) (hw : C ≤ 255 ∨ n ≤ 254) :
    ∃ s', HT1382_WriteRegs C (recording H) (s, tr) S Data n =
      some ((s', tr ++ chunkCalls C (chunkCount C n) S Data), 0) := by
  unfold HT1382_WriteRegs
  simp only [replicate_set_zero C S (by omega)]
  exact WriteRegs_loop_recording C H send hS hok hC (n + 1) s tr S _ Data n
    (by omega) hlen hn hw

theorem chunkCalls_length (C : Nat) :
    ∀ (K a : Nat) (Data : List Nat), (chunkCalls C K a Data).length = K := by
  intro K
  induction K with
  | zero => intro a Data; rfl
  | succ K ih => intro a Data; simp [chunkCalls, ih]

theorem chunkCalls_payload (C : Nat) :
    ∀ (K a : Nat) (Data : List Nat),
      ((chunkCalls C K a Data).map Call.payload).flatten = Data.take (K * (C - 1)) := by
  intro K
  induction K with
  | zero => intro a Data; simp [chunkCalls]
  | succ K ih =>
    intro a Data
    have h : (K + 1) * (C - 1) = (C - 1) + K * (C - 1) := by ring
    simp [chunkCalls, Call.payload, ih, h, List.take_add]

theorem chunkCalls_sizes (C : Nat) (hC : 2 ≤ C) :
    ∀ (K a : Nat) (Data : List Nat), K * (C - 1) < Data.length + (C - 1) →
      ∀ c ∈ chunkCalls C K a Data, ∃ b p, c = Call.send HT1382_ADDRESS (b :: p) ∧
        1 ≤ p.length ∧ p.length ≤ C - 1 := by
  intro K
  induction K with
  | zero => intro a Data _ c hc; simp [chunkCalls] at hc
  | succ K ih =>
    intro a Data hK c hc
    have h : (K + 1) * (C - 1) = K * (C - 1) + (C - 1) := by ring
    rw [h] at hK
    simp only [chunkCalls, List.mem_cons] at hc
    rcases hc with rfl | hc
    · refine ⟨a, Data.take (C - 1), rfl, ?_, ?_⟩
      · rw [List.length_take]; omega
      · rw [List.length_take]; omega
    · refine ih _ _ ?_ c hc
      rw [List.length_drop]
      omega

theorem chunkCalls_getElem (C : Nat) :
    ∀ (K a : Nat) (Data : List Nat) (k : Nat), a < 256 → k < K →
      (chunkCalls C K a Data)[k]? =
        some (Call.send HT1382_ADDRESS
          (((a + k * (C - 1)) % 256) :: (Data.drop (k * (C - 1))).take (C - 1))) := by
  intro K
  induction K with
  | zero => intro a Data k _ hk; omega
  | succ K ih =>
    intro a Data k ha hk
    cases k with
    | zero => simp [chunkCalls, Nat.mod_eq_of_lt ha]
    | succ k =>
      have h : (k + 1) * (C - 1) = (C - 1) + k * (C - 1) := by ring
      simp only [chunkCalls, List.getElem?_cons_succ]
      rw [ih _ _ k (Nat.mod_lt _ (by decide)) (by omega), h, List.drop_drop]
      congr 3
      omega

theorem chunkCount_mul_lt (C n : Nat) (hC : 2 ≤ C) :
    chunkCount C n * (C - 1) < n + (C - 1) := by
  unfold chunkCount
  have := Nat.div_mul_le_self (n + (C - 2)) (C - 1)
  omega

theorem le_chunkCount_mul (C n : Nat) (hC : 2 ≤ C) : n ≤ chunkCount C n * (C - 1) := by
  unfold chunkCount
  have := Nat.lt_div_mul_add (a := n + (C - 2)) (b := C - 1) (by omega)
  omega

/-- The chunk count is the ceiling of `n / (C - 1)`. -/
theorem chunkCount_eq_ceil (C n : Nat) (hC : 2 ≤ C) :
    chunkCount C n = ⌈(n : ℚ) / ((C - 1 : ℕ) : ℚ)⌉₊ := by
  have hpos : (0 : ℚ) < ((C - 1 : ℕ) : ℚ) := by exact_mod_cast (by omega : 0 < C - 1)
  by_cases h0 : chunkCount C n = 0
  · have hn : n = 0 := by
      have := le_chunkCount_mul C n hC
      rw [h0] at this
      omega
    subst hn
    simp [h0]
  · symm
    rw [Nat.ceil_eq_iff h0]
    constructor
    · rw [lt_div_iff₀ hpos]
      have h1 := chunkCount_mul_lt C n hC
      have h2 : (chunkCount C n - 1) * (C - 1) < n := by
        have : (chunkCount C n - 1) * (C - 1) + (C - 1) = chunkCount C n * (C - 1) := by
          rw [← Nat.succ_mul]
          congr 1
          omega
        omega
      exact_mod_cast h2
    · rw [div_le_iff₀ hpos]
      exact_mod_cast le_chunkCount_mul C n hC

/-! ## Write-protect bracket of HT1382_SetDateTime -/

theorem not_out_of_range_of_valid (x : HT1382_DateTime) (hx : x.Valid) :
    ¬ (x.Second > 59 ∨ x.Minute > 59 ∨ x.Hour > 23 ∨ x.WeekDay > 7 ∨ x.WeekDay = 0 ∨
      x.Day > 31 ∨ x.Day = 0 ∨ x.Month > 12 ∨ x.Month = 0 ∨ x.Year > 99) := by
  unfold HT1382_DateTime.Valid at hx
  omega

theorem SetDateTime_Buffer_length (x : HT1382_DateTime) :
    (HT1382_SetDateTime_Buffer x).length = 7 := by
  rw [SetDateTime_Buffer_eq]
  rfl

/-- The calls of `HT1382_SetDateTime` with the default send buffer size, as a
recording transport whose sends succeed logs them. -/
theorem SetDateTime_recording_default {σ : Type} (H : HT1382_Handler σ)
    (send : σ → Nat → List Nat → Nat → σ × Int) (hS : H.Platform.Send = some send)
    (hok : ∀ s a d l, (send s a d l).2 = 0) (s : σ) (x : HT1382_DateTime) (hx : x.Valid) :
    ∃ s', HT1382_SetDateTime HT1382_SEND_BUFFER_SIZE (recording H) (s, []) x =
      some ((s', [Call.send HT1382_ADDRESS [0x07, 0x00],
        Call.send HT1382_ADDRESS (0x00 :: HT1382_SetDateTime_Buffer x),
        Call.send HT1382_ADDRESS [0x07, 0x80]]), .HT1382_OK) := by
  obtain ⟨s1, h1⟩ := WriteRegs_recording 9 H send hS hok (by decide) s [] HT1382_REG_ADDR_ST1
    [0] 1 rfl (by decide) (by decide)
  obtain ⟨s2, h2⟩ := WriteRegs_recording 9 H send hS hok (by decide) s1
    ([] ++ chunkCalls 9 (chunkCount 9 1) HT1382_REG_ADDR_ST1 [0]) HT1382_REG_ADDR_SECONDS
    (HT1382_SetDateTime_Buffer x) 7 (SetDateTime_Buffer_length x) (by decide) (by decide)
  obtain ⟨s3, h3⟩ := WriteRegs_recording 9 H send hS hok (by decide) s2
    ([] ++ chunkCalls 9 (chunkCount 9 1) HT1382_REG_ADDR_ST1 [0] ++
      chunkCalls 9 (chunkCount 9 7) HT1382_REG_ADDR_SECONDS (HT1382_SetDateTime_Buffer x))
    HT1382_REG_ADDR_ST1 [(1 <<< HT1382_ST1_WP) % 256] 1 rfl (by decide) (by decide)
  refine ⟨s3, ?_⟩
  have hb : (HT1382_SetDateTime_Buffer x).take 8 = HT1382_SetDateTime_Buffer x :=
    List.take_of_length_le (by rw [SetDateTime_Buffer_length]; decide)
  have hc1 : chunkCount 9 1 = 1 := by decide
  have hc7 : chunkCount 9 7 = 1 := by decide
  simp only [HT1382_SetDateTime, if_neg (not_out_of_range_of_valid x hx),
    HT1382_WriteProtection, HT1382_SEND_BUFFER_SIZE, if_neg (by decide : ¬ (0 : Nat) ≠ 0),
    if_pos (by decide : (1 : Nat) ≠ 0), h1, h2, h3]
  simp [hc1, hc7, chunkCalls, hb, HT1382_REG_ADDR_ST1, HT1382_REG_ADDR_SECONDS, HT1382_ST1_WP]

/-- C4: for every valid DateTime, when every send succeeds, HT1382_SetDateTime
with the default send buffer size 9 returns HT1382_OK and the recording
transport has logged exactly three sends and no receive: [0x07, 0x00], then
[0x00, b0..b6] with the seven encoded bytes, then [0x07, 0x80]. -/
theorem C4_setDateTime_call_sequence {σ : Type} (H : HT1382_Handler σ)
    (send : σ → Nat → List Nat → Nat → σ × Int) (hS : H.Platform.Send = some send)
    (hok : ∀ s a d l, (send s a d l).2 = 0) (s : σ) (x : HT1382_DateTime) (hx : x.Valid) :
    ∃ s', HT1382_SetDateTime HT1382_SEND_BUFFER_SIZE (recording H) (s, []) x =
      some ((s', [Call.send HT1382_ADDRESS [0x07, 0x00],
        Call.send HT1382_ADDRESS (0x00 :: HT1382_SetDateTime_Buffer x),
        Call.send HT1382_ADDRESS [0x07, 0x80]]), .HT1382_OK) :=
  SetDateTime_recording_default H send hS hok s x hx

theorem C4_setDateTime_call_sequence_witness :
    exampleDateTime.Valid ∧
    ∃ s', HT1382_SetDateTime HT1382_SEND_BUFFER_SIZE (recording simHandler) (zeroStore, [])
        exampleDateTime =
      some ((s', [Call.send HT1382_ADDRESS [0x07, 0x00],
        Call.send HT1382_ADDRESS [0x00, 0x00, 0x02, 0x10, 0x23, 0x11, 0x05, 0x23],
        Call.send HT1382_ADDRESS [0x07, 0x80]]), .HT1382_OK) :=
  ⟨by decide, C4_setDateTime_call_sequence simHandler RegStore.send rfl (fun _ _ d l => by
    unfold RegStore.send; split <;> rfl) zeroStore exampleDateTime (by decide)⟩

/-! ## Chunked burst write -/

/-- C8 (amended): for every send-buffer capacity C >= 2 and every data sequence
of n bytes (0 <= n <= 255) with C <= 255 or n <= 254, so that the 8-bit length
argument does not wrap, when every send succeeds HT1382_WriteRegs returns 0
after exactly ceil(n / (C-1)) sends, each carrying one address byte followed by
between 1 and C-1 data bytes, and the chunk payloads concatenated in order are
the original n bytes. -/
theorem C8_chunked_write {σ : Type} (C : Nat) (H : HT1382_Handler σ)
    (send : σ → Nat → List Nat → Nat → σ × Int) (hS : H.Platform.Send = some send)
    (hok : ∀ s a d l, (send s a d l).2 = 0) (hC : 2 ≤ C)
    (s : σ) (S : Nat) (Data : List Nat) (n : Nat)
    (hlen : Data.length = n) (hn : n ≤ 255) (hw : C ≤ 255 ∨ n ≤ 254) :
    ∃ s' calls, HT1382_WriteRegs C (recording H) (s, []) S Data n = some ((s', calls), 0) ∧
      calls.length = ⌈(n : ℚ) / ((C - 1 : ℕ) : ℚ)⌉₊ ∧
      (∀ c ∈ calls, ∃ b p, c = Call.send HT1382_ADDRESS (b :: p) ∧
        1 ≤ p.length ∧ p.length ≤ C - 1) ∧
      (calls.map Call.payload).flatten = Data := by
  obtain ⟨s', hs'⟩ := WriteRegs_recording C H send hS hok hC s [] S Data n hlen hn hw
  refine ⟨s', chunkCalls C (chunkCount C n) S Data, by simpa using hs', ?_, ?_, ?_⟩
  · rw [chunkCalls_length, chunkCount_eq_ceil C n hC]
  · exact chunkCalls_sizes C hC _ _ _ (by rw [hlen]; exact chunkCount_mul_lt C n hC)
  · rw [chunkCalls_payload]
    exact List.take_of_length_le (by rw [hlen]; exact le_chunkCount_mul C n hC)

theorem RegStore_send_ok (st : RegStore) (a : Nat) (d : List Nat) (l : Nat) :
    (RegStore.send st a d l).2 = 0 := by
  unfold RegStore.send
  split <;> rfl

theorem C8_chunked_write_witness :
    (2 ≤ 3 ∧ [1, 2, 3, 4, 5, 6, 7].length = 7 ∧ 7 ≤ 255 ∧ (3 ≤ 255 ∨ 7 ≤ 254)) ∧
    (∃ s' calls, HT1382_WriteRegs 3 (recording simHandler) (zeroStore, []) 0
        [1, 2, 3, 4, 5, 6, 7] 7 = some ((s', calls), 0) ∧
      calls.length = ⌈((7 : ℕ) : ℚ) / ((3 - 1 : ℕ) : ℚ)⌉₊ ∧
      (∀ c ∈ calls, ∃ b p, c = Call.send HT1382_ADDRESS (b :: p) ∧
        1 ≤ p.length ∧ p.length ≤ 3 - 1) ∧
      (calls.map Call.payload).flatten = [1, 2, 3, 4, 5, 6, 7]) ∧
    (HT1382_WriteRegs 3 (recording simHandler) (zeroStore, []) 0
        [1, 2, 3, 4, 5, 6, 7] 7).map (fun r => r.1.2) =
      some [Call.send HT1382_ADDRESS [0, 1, 2], Call.send HT1382_ADDRESS [2, 3, 4],
        Call.send HT1382_ADDRESS [4, 5, 6], Call.send HT1382_ADDRESS [6, 7]] :=
  ⟨by decide,
    C8_chunked_write 3 simHandler RegStore.send rfl RegStore_send_ok (by decide) zeroStore 0
      [1, 2, 3, 4, 5, 6, 7] 7 rfl (by decide) (by decide),
    rfl⟩

/-- C8 as stated fails for a send buffer of 256 bytes and a write of 255 bytes:
the single chunk takes all 255 data bytes, the length argument 255 + 1 wraps to
0 in 8 bits, and the send carries neither the address byte nor any data. -/
theorem C8_counterexample :
    HT1382_WriteRegs 256 (recording simHandler) (zeroStore, []) 0 (List.replicate 255 1) 255 =
      some ((zeroStore, [Call.send HT1382_ADDRESS []]), 0) ∧
    ¬ ∃ s' calls, HT1382_WriteRegs 256 (recording simHandler) (zeroStore, []) 0
        (List.replicate 255 1) 255 = some ((s', calls), 0) ∧
      calls.length = ⌈((255 : ℕ) : ℚ) / ((256 - 1 : ℕ) : ℚ)⌉₊ ∧
      (∀ c ∈ calls, ∃ b p, c = Call.send HT1382_ADDRESS (b :: p) ∧
        1 ≤ p.length ∧ p.length ≤ 256 - 1) ∧
      (calls.map Call.payload).flatten = List.replicate 255 1 := by
  have hval : HT1382_WriteRegs 256 (recording simHandler) (zeroStore, []) 0
      (List.replicate 255 1) 255 = some ((zeroStore, [Call.send HT1382_ADDRESS []]), 0) := rfl
  refine ⟨hval, ?_⟩
  rintro ⟨s', calls, h, _, hc, _⟩
  rw [hval] at h
  simp only [Option.some.injEq, Prod.mk.injEq, and_true] at h
  obtain ⟨b, p, hbp, _⟩ := hc (Call.send HT1382_ADDRESS []) (by rw [← h.2]; simp)
  simp at hbp

/-! ## The simulated register store -/

theorem RegStore_write_congr (ds : List Nat) :
    ∀ (regs : Nat → Nat) (a b : Nat), a % 256 = b % 256 →
      RegStore.write regs a ds = RegStore.write regs b ds := by
  induction ds with
  | nil => intro regs a b _; rfl
  | cons d ds ih =>
    intro regs a b h
    simp only [RegStore.write, h]
    exact ih _ _ _ (by omega)

theorem RegStore_write_append (xs : List Nat) :
    ∀ (regs : Nat → Nat) (a : Nat) (ys : List Nat),
      RegStore.write regs a (xs ++ ys) =
        RegStore.write (RegStore.write regs a xs) (a + xs.length) ys := by
  induction xs with
  | nil => intro regs a ys; rfl
  | cons d xs ih =>
    intro regs a ys
    have h := ih (Function.update regs (a % 256) d) (a + 1) ys
    rw [show a + 1 + xs.length = a + (xs.length + 1) by omega] at h
    simpa only [List.cons_append, RegStore.write, List.length_cons] using h

/-- Registers outside the written window keep their value. -/
theorem RegStore_write_other (ds : List Nat) :
    ∀ (regs : Nat → Nat) (a r : Nat), (∀ j, j < ds.length → (a + j) % 256 ≠ r) →
      RegStore.write regs a ds r = regs r := by
  induction ds with
  | nil => intro regs a r _; rfl
  | cons d ds ih =>
    intro regs a r h
    simp only [RegStore.write]
    rw [ih _ _ _ (fun j hj => by
      have := h (j + 1) (by simp; omega)
      rwa [Nat.add_assoc, Nat.add_comm 1 j])]
    exact Function.update_noteq (fun hr => h 0 (by simp) (by simpa using hr.symm)) _ _

/-- Data byte `i` of a write of at most 256 bytes ends up in register
`(a + i) % 256`. -/
theorem RegStore_write_get (ds : List Nat) :
    ∀ (regs : Nat → Nat) (a i : Nat), ds.length ≤ 256 → i < ds.length →
      RegStore.write regs a ds ((a + i) % 256) = ds.getD i 0 := by
  induction ds with
  | nil => intro regs a i _ hi; simp at hi
  | cons d ds ih =>
    intro regs a i hlen hi
    simp only [List.length_cons] at hlen hi
    cases i with
    | zero =>
      simp only [RegStore.write, Nat.add_zero, List.getD_cons_zero]
      rw [RegStore_write_other ds _ _ _ (fun j hj => by omega)]
      exact Function.update_same _ _ _
    | succ i =>
      simp only [RegStore.write, List.getD_cons_succ]
      have := ih (Function.update regs (a % 256) d) (a + 1) i (by omega) (by omega)
      rwa [Nat.add_assoc, Nat.add_comm 1 i] at this

theorem RegStore_send_cons (st : RegStore) (A : Nat) (Buffer : List Nat) (Len a : Nat)
    (ds : List Nat) (h : Buffer.take Len = a :: ds) :
    RegStore.send st A Buffer Len = ({ regs := RegStore.write st.regs a ds, ptr := a }, 0) := by
  unfold RegStore.send
  rw [h]

/-- On the simulated register store the loop, run on `n` bytes with more than
`n` units of fuel, returns 0 and leaves the data bytes stored one after the
other from the register the buffer starts with, provided the length argument
`Len + 1` fits in 8 bits. -/
theorem WriteRegs_loop_sim (C : Nat) (hC : 2 ≤ C) :
    ∀ (fuel : Nat) (st : RegStore) (a : Nat) (rest Data : List Nat) (n : Nat),
      n < fuel → Data.length = n → n ≤ 255 → (C ≤ 255 ∨ n ≤ 254) →
      ∃ p, HT1382_WriteRegs_loop C simHandler fuel st (a :: rest) Data n =
        some ({ regs := RegStore.write st.regs a Data, ptr := p }, 0) := by
  intro fuel
  induction fuel with
  | zero => intro st a rest Data n hf; omega
  | succ fuel ih =>
    intro st a rest Data n hf hlen hn hw
    rw [HT1382_WriteRegs_loop]
    by_cases h0 : n = 0
    · subst h0
      have hD : Data = [] := List.length_eq_zero.mp hlen
      subst hD
      exact ⟨st.ptr, by simp [RegStore.write]⟩
    · rw [if_neg h0]
      have hLen : min n (C - 1) % 256 = min n (C - 1) := Nat.mod_eq_of_lt (by omega)
      have hLen1 : (min n (C - 1) + 1) % 256 = min n (C - 1) + 1 :=
        Nat.mod_eq_of_lt (by omega)
      have hsub : (n - min n (C - 1)) % 256 = n - min n (C - 1) := Nat.mod_eq_of_lt (by omega)
      have htake : (memcpy (a :: rest) 1 Data (min n (C - 1))).take (min n (C - 1) + 1) =
          a :: Data.take (min n (C - 1)) := by
        simp [memcpy, List.take_append_eq_append_take, hlen]
      have hset : (memcpy (a :: rest) 1 Data (min n (C - 1))).set 0
          (((memcpy (a :: rest) 1 Data (min n (C - 1))).getD 0 0 + min n (C - 1)) % 256) =
          ((a + min n (C - 1)) % 256) ::
            (Data.take (min n (C - 1)) ++ rest.drop (min n (C - 1))) := by
        simp [memcpy, Nat.add_comm 1]
      have hsend := RegStore_send_cons st HT1382_ADDRESS
        (memcpy (a :: rest) 1 Data (min n (C - 1))) (min n (C - 1) + 1) a
        (Data.take (min n (C - 1))) htake
      simp only [simHandler, hLen, hLen1, hsub, hset, hsend, lt_self_iff_false, if_false]
      obtain ⟨p, hp⟩ := ih
        { regs := RegStore.write st.regs a (Data.take (min n (C - 1))), ptr := a }
        ((a + min n (C - 1)) % 256)
        (Data.take (min n (C - 1)) ++ rest.drop (min n (C - 1)))
        (Data.drop (min n (C - 1))) (n - min n (C - 1))
        (by omega) (by simp [hlen]) (by omega) (by omega)
      refine ⟨p, ?_⟩
      have hp2 : HT1382_WriteRegs_loop C simHandler fuel
          { regs := RegStore.write st.regs a (Data.take (min n (C - 1))), ptr := a }
          (((a + min n (C - 1)) % 256) ::
            (Data.take (min n (C - 1)) ++ rest.drop (min n (C - 1))))
          (Data.drop (min n (C - 1))) (n - min n (C - 1)) =
          some ({ regs := RegStore.write st.regs a Data, ptr := p }, 0) := by
        rw [hp]
        have hw1 := RegStore_write_congr (Data.drop (min n (C - 1)))
          (RegStore.write st.regs a (Data.take (min n (C - 1))))
          ((a + min n (C - 1)) % 256) (a + min n (C - 1)) (Nat.mod_mod _ _)
        have hw2 := RegStore_write_append (Data.take (min n (C - 1))) st.regs a
          (Data.drop (min n (C - 1)))
        rw [List.take_append_drop, List.length_take, hlen, Nat.min_comm (min n (C - 1)) n,
          Nat.min_eq_right (Nat.min_le_left n (C - 1))] at hw2
        simp only [hw1, ← hw2]
      exact hp2

/-- The whole of `HT1382_WriteRegs` on the simulated register store. -/
theorem WriteRegs_sim (C : Nat) (hC : 2 ≤ C) (st : RegStore) (S : Nat) (Data : List Nat)
    (n : Nat) (hlen : Data.length = n) (hn : n ≤ 255) (hw : C ≤ 255 ∨ n ≤ 254) :
    ∃ p, HT1382_WriteRegs C simHandler st S Data n =
      some ({ regs := RegStore.write st.regs S Data, ptr := p }, 0) := by
  unfold HT1382_WriteRegs
  simp only [replicate_set_zero C S (by omega)]
  exact WriteRegs_loop_sim C hC (n + 1) st S _ Data n (by omega) hlen hn hw

/-- C9 (amended): for every send-buffer capacity C >= 2, every start register S
and every n-byte write (n <= 255) with C <= 255 or n <= 254, so that the 8-bit
length argument does not wrap, when every send succeeds the k-th send of
HT1382_WriteRegs carries the address byte (S + k*(C-1)) mod 256 followed by the
data bytes from position k*(C-1) on, and on the simulated register store data
byte i ends up in register (S + i) mod 256. -/
theorem C9_chunk_addresses {σ : Type} (C : Nat) (H : HT1382_Handler σ)
    (send : σ → Nat → List Nat → Nat → σ × Int) (hS : H.Platform.Send = some send)
    (hok : ∀ s a d l, (send s a d l).2 = 0) (hC : 2 ≤ C)
    (s : σ) (st : RegStore) (S : Nat) (hS8 : S < 256) (Data : List Nat) (n : Nat)
    (hlen : Data.length = n) (hn : n ≤ 255) (hw : C ≤ 255 ∨ n ≤ 254) :
    (∃ s' calls, HT1382_WriteRegs C (recording H) (s, []) S Data n = some ((s', calls), 0) ∧
      ∀ k, k < calls.length → calls[k]? = some (Call.send HT1382_ADDRESS
        (((S + k * (C - 1)) % 256) :: (Data.drop (k * (C - 1))).take (C - 1)))) ∧
    (∃ st', HT1382_WriteRegs C simHandler st S Data n = some (st', 0) ∧
      ∀ i, i < n → st'.regs ((S + i) % 256) = Data.getD i 0) := by
  constructor
  · obtain ⟨s', hs'⟩ := WriteRegs_recording C H send hS hok hC s [] S Data n hlen hn hw
    refine ⟨s', chunkCalls C (chunkCount C n) S Data, by simpa using hs', ?_⟩
    intro k hk
    rw [chunkCalls_length] at hk
    exact chunkCalls_getElem C _ S Data k hS8 hk
  · obtain ⟨p, hp⟩ := WriteRegs_sim C hC st S Data n hlen hn hw
    refine ⟨_, hp, ?_⟩
    intro i hi
    exact RegStore_write_get Data st.regs S i (by omega) (by omega)

theorem C9_chunk_addresses_witness :
    (2 ≤ 3 ∧ 0 < 256 ∧ [1, 2, 3, 4, 5, 6, 7].length = 7 ∧ 7 ≤ 255 ∧ (3 ≤ 255 ∨ 7 ≤ 254)) ∧
    ((∃ s' calls, HT1382_WriteRegs 3 (recording simHandler) (zeroStore, []) 0
        [1, 2, 3, 4, 5, 6, 7] 7 = some ((s', calls), 0) ∧
      ∀ k, k < calls.length → calls[k]? = some (Call.send HT1382_ADDRESS
        (((0 + k * (3 - 1)) % 256) :: ([1, 2, 3, 4, 5, 6, 7].drop (k * (3 - 1))).take (3 - 1)))) ∧
    (∃ st', HT1382_WriteRegs 3 simHandler zeroStore 0 [1, 2, 3, 4, 5, 6, 7] 7 = some (st', 0) ∧
      ∀ i, i < 7 → st'.regs ((0 + i) % 256) = [1, 2, 3, 4, 5, 6, 7].getD i 0)) ∧
    ((HT1382_WriteRegs 3 (recording simHandler) (zeroStore, []) 0
        [1, 2, 3, 4, 5, 6, 7] 7).map fun r => r.1.2.map fun c =>
          match c with
          | Call.send _ d => d.head?
          | _ => none) = some [some 0, some 2, some 4, some 6] :=
  ⟨by decide,
    C9_chunk_addresses 3 simHandler RegStore.send rfl RegStore_send_ok (by decide) zeroStore
      zeroStore 0 (by decide) [1, 2, 3, 4, 5, 6, 7] 7 rfl (by decide) (by decide),
    rfl⟩

/-- C9 as stated fails for a send buffer of 256 bytes and a write of 255 bytes
at register 0: the only send has an 8-bit length argument of 0, so it carries
no address byte, and the simulated register store is left as it was, data byte
0 (value 1) not being in register 0. -/
theorem C9_counterexample :
    HT1382_WriteRegs 256 (recording simHandler) (zeroStore, []) 0 (List.replicate 255 1) 255 =
      some ((zeroStore, [Call.send HT1382_ADDRESS []]), 0) ∧
    HT1382_WriteRegs 256 simHandler zeroStore 0 (List.replicate 255 1) 255 =
      some (zeroStore, 0) ∧
    ¬ (∃ st', HT1382_WriteRegs 256 simHandler zeroStore 0 (List.replicate 255 1) 255 =
        some (st', 0) ∧
      ∀ i, i < 255 → st'.regs ((0 + i) % 256) = (List.replicate 255 1).getD i 0) := by
  have hval : HT1382_WriteRegs 256 simHandler zeroStore 0 (List.replicate 255 1) 255 =
      some (zeroStore, 0) := rfl
  refine ⟨rfl, hval, ?_⟩
  rintro ⟨st', h, hregs⟩
  rw [hval] at h
  simp only [Option.some.injEq, Prod.mk.injEq, and_true] at h
  have h0 : st'.regs 0 = 1 := hregs 0 (by decide)
  rw [← h] at h0
  exact absurd h0 (by decide)

/-! ## Layout of the encoded buffer -/

theorem DECtoBCD_mod_100 (v : Nat) : HT1382_DECtoBCD v = HT1382_DECtoBCD (v % 100) := by
  unfold HT1382_DECtoBCD
  have h1 : v % 100 % 10 = v % 10 := by omega
  have h2 : v % 100 / 10 % 10 = v / 10 % 10 := by omega
  rw [h1, h2]

theorem DECtoBCD_seconds_of_le (v : Nat) (h : v ≤ 59) :
    (HT1382_DECtoBCD v &&& (0xFF ^^^ (1 <<< HT1382_SECONDS_CH))) % 256 = HT1382_DECtoBCD v := by
  interval_cases v <;> rfl

/-- C5 (amended): for every valid DateTime, the 7-byte buffer that
HT1382_SetDateTime burst-writes at the seconds register is ordered [seconds,
minutes, hours, day of month, month, weekday, year]: byte 0 is the BCD of
Second, byte 1 of Minute, byte 2 of Hour, byte 3 of Day, byte 4 of Month,
byte 5 of WeekDay, byte 6 of Year. -/
theorem C5_buffer_order {σ : Type} (H : HT1382_Handler σ)
    (send : σ → Nat → List Nat → Nat → σ × Int) (hS : H.Platform.Send = some send)
    (hok : ∀ s a d l, (send s a d l).2 = 0) (s : σ) (x : HT1382_DateTime) (hx : x.Valid) :
    HT1382_SetDateTime_Buffer x =
      [HT1382_DECtoBCD x.Second, HT1382_DECtoBCD x.Minute, HT1382_DECtoBCD x.Hour,
        HT1382_DECtoBCD x.Day, HT1382_DECtoBCD x.Month, HT1382_DECtoBCD x.WeekDay,
        HT1382_DECtoBCD x.Year] ∧
    ∃ s' c1 c3, HT1382_SetDateTime HT1382_SEND_BUFFER_SIZE (recording H) (s, []) x =
      some ((s', [c1,
        Call.send HT1382_ADDRESS (HT1382_REG_ADDR_SECONDS ::
          [HT1382_DECtoBCD x.Second, HT1382_DECtoBCD x.Minute, HT1382_DECtoBCD x.Hour,
            HT1382_DECtoBCD x.Day, HT1382_DECtoBCD x.Month, HT1382_DECtoBCD x.WeekDay,
            HT1382_DECtoBCD x.Year]),
        c3]), .HT1382_OK) := by
  have hb : HT1382_SetDateTime_Buffer x =
      [HT1382_DECtoBCD x.Second, HT1382_DECtoBCD x.Minute, HT1382_DECtoBCD x.Hour,
        HT1382_DECtoBCD x.Day, HT1382_DECtoBCD x.Month, HT1382_DECtoBCD x.WeekDay,
        HT1382_DECtoBCD x.Year] := by
    rw [SetDateTime_Buffer_eq, DECtoBCD_seconds_of_le _ hx.1]
  refine ⟨hb, ?_⟩
  obtain ⟨s', hs'⟩ := SetDateTime_recording_default H send hS hok s x hx
  rw [hb] at hs'
  exact ⟨s', _, _, hs'⟩

theorem C5_buffer_order_witness :
    exampleDateTime.Valid ∧
    HT1382_SetDateTime_Buffer exampleDateTime = [0x00, 0x02, 0x10, 0x23, 0x11, 0x05, 0x23] ∧
    ∃ s' c1 c3, HT1382_SetDateTime HT1382_SEND_BUFFER_SIZE (recording simHandler)
        (zeroStore, []) exampleDateTime =
      some ((s', [c1,
        Call.send HT1382_ADDRESS [0x00, 0x00, 0x02, 0x10, 0x23, 0x11, 0x05, 0x23], c3]),
        .HT1382_OK) :=
  ⟨by decide,
    C5_buffer_order simHandler RegStore.send rfl RegStore_send_ok zeroStore exampleDateTime
      (by decide)⟩

/-- C5 as stated fails on the date and time of the example program: with
WeekDay 5 and Day 23, byte 3 of the buffer is 0x23, the BCD of Day, not 0x05,
the BCD of WeekDay; byte 4 is the BCD of Month and byte 5 that of WeekDay. -/
theorem C5_counterexample :
    exampleDateTime.Valid ∧
    HT1382_SetDateTime_Buffer exampleDateTime = [0x00, 0x02, 0x10, 0x23, 0x11, 0x05, 0x23] ∧
    HT1382_SetDateTime_Buffer exampleDateTime ≠
      [HT1382_DECtoBCD exampleDateTime.Second, HT1382_DECtoBCD exampleDateTime.Minute,
        HT1382_DECtoBCD exampleDateTime.Hour, HT1382_DECtoBCD exampleDateTime.WeekDay,
        HT1382_DECtoBCD exampleDateTime.Day, HT1382_DECtoBCD exampleDateTime.Month,
        HT1382_DECtoBCD exampleDateTime.Year] := by
  decide

/-- C6: for every Second value, the seconds byte encoded by HT1382_SetDateTime
has bit 7 (clock-halt) equal to 0, and its low 7 bits are the low 7 bits of the
BCD encoding of Second. -/
theorem C6_clock_halt_cleared (x : HT1382_DateTime) :
    Nat.testBit ((HT1382_SetDateTime_Buffer x).getD HT1382_REG_ADDR_SECONDS 0) 7 = false ∧
    (HT1382_SetDateTime_Buffer x).getD HT1382_REG_ADDR_SECONDS 0 &&& 0x80 = 0 ∧
    (HT1382_SetDateTime_Buffer x).getD HT1382_REG_ADDR_SECONDS 0 &&& 0x7F =
      HT1382_DECtoBCD x.Second &&& 0x7F := by
  rw [SetDateTime_Buffer_eq]
  simp only [HT1382_REG_ADDR_SECONDS, List.getD_cons_zero]
  rw [DECtoBCD_mod_100]
  have hw : x.Second % 100 < 100 := Nat.mod_lt _ (by decide)
  generalize x.Second % 100 = w at hw
  interval_cases w <;> decide

/-! ## HT1382_SetDateTime and HT1382_GetDateTime on the simulated register store -/

/-- The effect of `HT1382_SetDateTime` on the simulated register store, for a valid date and
time and any send buffer of at least two bytes: 0x00 is stored in ST1, the
seven encoded bytes from the seconds register on, then 0x80 in ST1. -/
theorem SetDateTime_sim (C : Nat) (hC : 2 ≤ C) (st : RegStore) (x : HT1382_DateTime)
    (hx : x.Valid) :
    ∃ p, HT1382_SetDateTime C simHandler st x =
      some (⟨RegStore.write (RegStore.write (RegStore.write st.regs
          HT1382_REG_ADDR_ST1 [0]) HT1382_REG_ADDR_SECONDS (HT1382_SetDateTime_Buffer x))
          HT1382_REG_ADDR_ST1 [0x80], p⟩, .HT1382_OK) := by
  obtain ⟨p1, h1⟩ := WriteRegs_sim C hC st HT1382_REG_ADDR_ST1 [0] 1 rfl (by decide)
    (Or.inr (by decide))
  obtain ⟨p2, h2⟩ := WriteRegs_sim C hC
    { regs := RegStore.write st.regs HT1382_REG_ADDR_ST1 [0], ptr := p1 }
    HT1382_REG_ADDR_SECONDS (HT1382_SetDateTime_Buffer x) 7 (SetDateTime_Buffer_length x)
    (by decide) (Or.inr (by decide))
  obtain ⟨p3, h3⟩ := WriteRegs_sim C hC
    ⟨RegStore.write (RegStore.write st.regs HT1382_REG_ADDR_ST1 [0])
        HT1382_REG_ADDR_SECONDS (HT1382_SetDateTime_Buffer x), p2⟩
    HT1382_REG_ADDR_ST1 [(1 <<< HT1382_ST1_WP) % 256] 1 rfl (by decide) (Or.inr (by decide))
  refine ⟨p3, ?_⟩
  simp only [HT1382_SetDateTime, if_neg (not_out_of_range_of_valid x hx),
    HT1382_WriteProtection, if_neg (by decide : ¬ (0 : Nat) ≠ 0),
    if_pos (by decide : (1 : Nat) ≠ 0), h1, h2, h3]
  simp [HT1382_ST1_WP]

/-- The effect of `HT1382_GetDateTime` on the simulated register store: the address send
moves the read pointer to the seconds register, the receive delivers registers
0 to 6, and the registers are left as they were. -/
theorem GetDateTime_sim (st : RegStore) (dt0 : HT1382_DateTime) :
    HT1382_GetDateTime simHandler st dt0 =
      some ({ regs := st.regs, ptr := HT1382_REG_ADDR_SECONDS }, .HT1382_OK,
        HT1382_GetDateTime_decode [st.regs 0, st.regs 1, st.regs 2, st.regs 3, st.regs 4,
          st.regs 5, st.regs 6]) := by
  simp [HT1382_GetDateTime, HT1382_ReadRegs, simHandler, RegStore.send, RegStore.receive,
    RegStore.write, HT1382_REG_ADDR_SECONDS, List.range, List.range.loop]

/-- C7: for every valid DateTime x and every initial content of the simulated
register store, HT1382_SetDateTime x followed by HT1382_GetDateTime returns
HT1382_OK with a DateTime identical to x (for every send buffer size of at
least 2, the default 9 included). -/
theorem C7_set_then_get (C : Nat) (hC : 2 ≤ C) (st : RegStore) (x dt0 : HT1382_DateTime)
    (hx : x.Valid) :
    ∃ st1 st2, HT1382_SetDateTime C simHandler st x = some (st1, .HT1382_OK) ∧
      HT1382_GetDateTime simHandler st1 dt0 = some (st2, .HT1382_OK, x) := by
  obtain ⟨p, hp⟩ := SetDateTime_sim C hC st x hx
  have hlen := SetDateTime_Buffer_length x
  have hget : ∀ i, i < 7 →
      RegStore.write (RegStore.write (RegStore.write st.regs HT1382_REG_ADDR_ST1 [0])
        HT1382_REG_ADDR_SECONDS (HT1382_SetDateTime_Buffer x)) HT1382_REG_ADDR_ST1 [0x80] i =
      (HT1382_SetDateTime_Buffer x).getD i 0 := by
    intro i hi
    rw [RegStore_write_other [0x80] _ _ _ (fun j hj => by
      simp only [List.length_singleton] at hj
      simp only [HT1382_REG_ADDR_ST1]
      omega)]
    have h := RegStore_write_get (HT1382_SetDateTime_Buffer x)
      (RegStore.write st.regs HT1382_REG_ADDR_ST1 [0]) HT1382_REG_ADDR_SECONDS i
      (by omega) (by omega)
    rwa [show (HT1382_REG_ADDR_SECONDS + i) % 256 = i by
      simp only [HT1382_REG_ADDR_SECONDS]; omega] at h
  have hg : HT1382_GetDateTime simHandler
      ⟨RegStore.write (RegStore.write (RegStore.write st.regs HT1382_REG_ADDR_ST1 [0])
        HT1382_REG_ADDR_SECONDS (HT1382_SetDateTime_Buffer x)) HT1382_REG_ADDR_ST1 [0x80], p⟩
      dt0 =
      some (⟨RegStore.write (RegStore.write (RegStore.write st.regs HT1382_REG_ADDR_ST1 [0])
        HT1382_REG_ADDR_SECONDS (HT1382_SetDateTime_Buffer x)) HT1382_REG_ADDR_ST1 [0x80],
        HT1382_REG_ADDR_SECONDS⟩, .HT1382_OK, x) := by
    rw [GetDateTime_sim]
    simp only [hget 0 (by decide), hget 1 (by decide), hget 2 (by decide), hget 3 (by decide),
      hget 4 (by decide), hget 5 (by decide), hget 6 (by decide)]
    have hround := decode_SetDateTime_Buffer x hx
    rw [SetDateTime_Buffer_eq] at hround ⊢
    simpa using hround
  exact ⟨_, _, hp, hg⟩

theorem C7_set_then_get_witness :
    (2 ≤ HT1382_SEND_BUFFER_SIZE ∧ exampleDateTime.Valid) ∧
    ∃ st1 st2, HT1382_SetDateTime HT1382_SEND_BUFFER_SIZE simHandler zeroStore
        { Second := 0, Minute := 2, Hour := 10, WeekDay := 5, Day := 23, Month := 11,
          Year := 23 } = some (st1, .HT1382_OK) ∧
      HT1382_GetDateTime simHandler st1
          { Second := 9, Minute := 9, Hour := 9, WeekDay := 9, Day := 9, Month := 9,
            Year := 9 } =
        some (st2, .HT1382_OK,
          { Second := 0, Minute := 2, Hour := 10, WeekDay := 5, Day := 23, Month := 11,
            Year := 23 }) :=
  ⟨by decide, C7_set_then_get HT1382_SEND_BUFFER_SIZE (by decide) zeroStore exampleDateTime _
    (by decide)⟩

/-! ## Decoding in HT1382_GetDateTime -/

theorem BCDtoDEC_eq_of_lt (b : Nat) (hb : b < 256) :
    HT1382_BCDtoDEC b = 10 * (b / 16) + b % 16 := by
  have h1 : b >>> 4 = b / 16 := Nat.shiftRight_eq_div_pow b 4
  have h2 : b &&& 0x0f = b % 16 := Nat.and_pow_two_sub_one_eq_mod b 4
  simp only [HT1382_BCDtoDEC, h1, h2]
  omega

theorem mask_seconds_eq (b : Nat) :
    (b &&& (0xFF ^^^ (1 <<< HT1382_SECONDS_CH))) % 256 = b &&& 0x7F := by
  have h : (0xFF ^^^ (1 <<< HT1382_SECONDS_CH)) = 0x7F := by decide
  have h2 : b &&& 0x7F = b % 128 := Nat.and_pow_two_sub_one_eq_mod b 7
  rw [h, h2]
  omega

theorem getD_lt_of_forall_mem (l : List Nat) (h : ∀ b ∈ l, b < 256) (i : Nat) :
    l.getD i 0 < 256 := by
  rw [List.getD_eq_getElem?_getD]
  cases hi : l[i]? with
  | none => simp
  | some v => exact h v (List.getElem?_mem hi)

/-- The result of `HT1382_GetDateTime` when the address send and the receive both return 0. -/
theorem GetDateTime_of_success {σ : Type} (H : HT1382_Handler σ)
    (send : σ → Nat → List Nat → Nat → σ × Int)
    (recv : σ → Nat → List Nat → Nat → σ × Int × List Nat)
    (hS : H.Platform.Send = some send) (hR : H.Platform.Receive = some recv)
    (s : σ) (dt0 : HT1382_DateTime)
    (hsend : (send s HT1382_ADDRESS [HT1382_REG_ADDR_SECONDS] 1).2 = 0)
    (hrecv : (recv (send s HT1382_ADDRESS [HT1382_REG_ADDR_SECONDS] 1).1 HT1382_ADDRESS
      (List.replicate 7 0) 7).2.1 = 0) :
    HT1382_GetDateTime H s dt0 =
      some ((recv (send s HT1382_ADDRESS [HT1382_REG_ADDR_SECONDS] 1).1 HT1382_ADDRESS
          (List.replicate 7 0) 7).1, .HT1382_OK,
        HT1382_GetDateTime_decode
          (recv (send s HT1382_ADDRESS [HT1382_REG_ADDR_SECONDS] 1).1 HT1382_ADDRESS
            (List.replicate 7 0) 7).2.2) := by
  simp only [HT1382_GetDateTime, HT1382_ReadRegs, hS, hR, hsend, hrecv, lt_self_iff_false,
    if_false]

/-- C10: when the address send and the 7-byte receive both succeed,
HT1382_GetDateTime returns HT1382_OK and every field is 10 * high nibble + low
nibble of one received register byte (Second of byte 0 masked with 0x7F, Minute
of byte 1, Hour of byte 2, Day of byte 3, Month of byte 4, WeekDay of byte 5,
Year of byte 6); and for two contents of the simulated register store that
differ only in bit 7 of the seconds register, HT1382_GetDateTime returns the
same DateTime. -/
theorem C10_getDateTime_decodes {σ : Type} (H : HT1382_Handler σ)
    (send : σ → Nat → List Nat → Nat → σ × Int)
    (recv : σ → Nat → List Nat → Nat → σ × Int × List Nat)
    (hS : H.Platform.Send = some send) (hR : H.Platform.Receive = some recv)
    (s s1 s2 : σ) (dt0 : HT1382_DateTime) (Buffer : List Nat)
    (hsend : send s HT1382_ADDRESS [HT1382_REG_ADDR_SECONDS] 1 = (s1, 0))
    (hrecv : recv s1 HT1382_ADDRESS (List.replicate 7 0) 7 = (s2, 0, Buffer))
    (hbytes : ∀ b ∈ Buffer, b < 256) :
    HT1382_GetDateTime H s dt0 = some (s2, .HT1382_OK,
      { Second := 10 * ((Buffer.getD 0 0 &&& 0x7F) / 16) + (Buffer.getD 0 0 &&& 0x7F) % 16
        Minute := 10 * (Buffer.getD 1 0 / 16) + Buffer.getD 1 0 % 16
        Hour := 10 * (Buffer.getD 2 0 / 16) + Buffer.getD 2 0 % 16
        WeekDay := 10 * (Buffer.getD 5 0 / 16) + Buffer.getD 5 0 % 16
        Day := 10 * (Buffer.getD 3 0 / 16) + Buffer.getD 3 0 % 16
        Month := 10 * (Buffer.getD 4 0 / 16) + Buffer.getD 4 0 % 16
        Year := 10 * (Buffer.getD 6 0 / 16) + Buffer.getD 6 0 % 16 }) ∧
    ∀ (st st' : RegStore) (d0 d0' : HT1382_DateTime),
      (∀ r, r ≠ HT1382_REG_ADDR_SECONDS → st.regs r = st'.regs r) →
      st.regs HT1382_REG_ADDR_SECONDS &&& 0x7F = st'.regs HT1382_REG_ADDR_SECONDS &&& 0x7F →
      ∃ d t t', HT1382_GetDateTime simHandler st d0 = some (t, .HT1382_OK, d) ∧
        HT1382_GetDateTime simHandler st' d0' = some (t', .HT1382_OK, d) := by
  constructor
  · have h := GetDateTime_of_success H send recv hS hR s dt0 (by rw [hsend])
      (by rw [hsend, hrecv])
    rw [h, hsend, hrecv]
    have hlt : (Buffer.getD 0 0 &&& 0x7F) < 256 :=
      lt_of_le_of_lt Nat.and_le_right (by decide)
    simp only [HT1382_GetDateTime_decode, mask_seconds_eq, HT1382_REG_ADDR_SECONDS,
      HT1382_REG_ADDR_MINUTES, HT1382_REG_ADDR_HOURS, HT1382_REG_ADDR_DAY, HT1382_REG_ADDR_DATE,
      HT1382_REG_ADDR_MONTH, HT1382_REG_ADDR_YEAR, BCDtoDEC_eq_of_lt _ hlt,
      BCDtoDEC_eq_of_lt _ (getD_lt_of_forall_mem Buffer hbytes _)]
  · intro st st' d0 d0' hother hsec
    refine ⟨_, _, ⟨st'.regs, HT1382_REG_ADDR_SECONDS⟩, GetDateTime_sim st d0, ?_⟩
    rw [GetDateTime_sim]
    simp only [HT1382_REG_ADDR_SECONDS] at hother hsec
    rw [hother 1 (by decide), hother 2 (by decide), hother 3 (by decide), hother 4 (by decide),
      hother 5 (by decide), hother 6 (by decide)]
    simp only [HT1382_GetDateTime_decode, mask_seconds_eq, HT1382_REG_ADDR_SECONDS,
      HT1382_REG_ADDR_MINUTES, HT1382_REG_ADDR_HOURS, HT1382_REG_ADDR_DAY, HT1382_REG_ADDR_DATE,
      HT1382_REG_ADDR_MONTH, HT1382_REG_ADDR_YEAR, List.getD_cons_zero, List.getD_cons_succ,
      hsec]

theorem C10_getDateTime_decodes_witness :
    (RegStore.send (sampleStore 0xD9) HT1382_ADDRESS [HT1382_REG_ADDR_SECONDS] 1 =
        (sampleStore 0xD9, 0) ∧
      RegStore.receive (sampleStore 0xD9) HT1382_ADDRESS (List.replicate 7 0) 7 =
        (sampleStore 0xD9, 0, [0xD9, 0x59, 0x23, 0x31, 0x12, 0x07, 0x99]) ∧
      (∀ b ∈ [0xD9, 0x59, 0x23, 0x31, 0x12, 0x07, 0x99], b < 256) ∧
      (∀ r, r ≠ HT1382_REG_ADDR_SECONDS → (sampleStore 0xD9).regs r = (sampleStore 0x59).regs r) ∧
      (sampleStore 0xD9).regs HT1382_REG_ADDR_SECONDS &&& 0x7F =
        (sampleStore 0x59).regs HT1382_REG_ADDR_SECONDS &&& 0x7F) ∧
    HT1382_GetDateTime simHandler (sampleStore 0xD9) exampleDateTime =
      some (sampleStore 0xD9, .HT1382_OK,
        { Second := 59, Minute := 59, Hour := 23, WeekDay := 7, Day := 31, Month := 12,
          Year := 99 }) ∧
    ∃ d t t', HT1382_GetDateTime simHandler (sampleStore 0xD9) exampleDateTime =
        some (t, .HT1382_OK, d) ∧
      HT1382_GetDateTime simHandler (sampleStore 0x59) exampleDateTime =
        some (t', .HT1382_OK, d) :=
  have hother : ∀ r, r ≠ HT1382_REG_ADDR_SECONDS →
      (sampleStore 0xD9).regs r = (sampleStore 0x59).regs r := by
    intro r hr
    cases r with
    | zero => exact absurd rfl hr
    | succ r => rfl
  ⟨⟨rfl, rfl, by decide, hother, by decide⟩,
    (C10_getDateTime_decodes simHandler RegStore.send RegStore.receive rfl rfl
      (sampleStore 0xD9) (sampleStore 0xD9) (sampleStore 0xD9) exampleDateTime
      [0xD9, 0x59, 0x23, 0x31, 0x12, 0x07, 0x99] rfl rfl (by decide)).1,
    (C10_getDateTime_decodes simHandler RegStore.send RegStore.receive rfl rfl
      (sampleStore 0xD9) (sampleStore 0xD9) (sampleStore 0xD9) exampleDateTime
      [0xD9, 0x59, 0x23, 0x31, 0x12, 0x07, 0x99] rfl rfl (by decide)).2
      (sampleStore 0xD9) (sampleStore 0x59) exampleDateTime exampleDateTime hother
      (by decide)⟩

/-! ## HT1382_Init and HT1382_DeInit -/

/-- C15: HT1382_Init returns HT1382_INVALID_PARAM whenever the send or the
receive binding is absent, and then no call is logged (the init hook is not
invoked); with both bound and an init hook bound, the hook is invoked exactly
once and the result is HT1382_FAIL if the hook reports failure (a negative
code) and HT1382_OK if not; with both bound and no hook the result is HT1382_OK
and no call is logged.  No send and no receive is ever logged. -/
theorem C15_init {σ : Type} (H : HT1382_Handler σ) (s : σ) :
    ((H.Platform.Send = none ∨ H.Platform.Receive = none) →
      HT1382_Init (recording H) (s, []) = ((s, []), .HT1382_INVALID_PARAM)) ∧
    (∀ send recv hook, H.Platform.Send = some send → H.Platform.Receive = some recv →
      H.Platform.Init = some hook →
      HT1382_Init (recording H) (s, []) =
        (((hook s).1, [Call.init]),
          if (hook s).2 < 0 then .HT1382_FAIL else .HT1382_OK)) ∧
    (∀ send recv, H.Platform.Send = some send → H.Platform.Receive = some recv →
      H.Platform.Init = none →
      HT1382_Init (recording H) (s, []) = ((s, []), .HT1382_OK)) ∧
    (∀ c ∈ (HT1382_Init (recording H) (s, [])).1.2, c = Call.init) := by
  refine ⟨?_, ?_, ?_, ?_⟩
  · rintro (h | h) <;> simp [HT1382_Init, recording, h]
  · intro send recv hook hS hR hI
    simp only [HT1382_Init, recording, hS, hR, hI, Option.map_some', Option.isNone_some,
      Bool.false_eq_true, or_self, if_false, List.nil_append]
    split_ifs <;> rfl
  · intro send recv hS hR hI
    simp [HT1382_Init, recording, hS, hR, hI]
  · intro c hc
    unfold HT1382_Init at hc
    split_ifs at hc
    · simp at hc
    · cases hI : H.Platform.Init with
      | none => simp [recording, hI] at hc
      | some hook =>
        simp only [recording, hI, Option.map_some'] at hc
        split_ifs at hc <;> simpa using hc

theorem C15_init_witness :
    HT1382_Init (recording (hookHandler (some 0) none false)) (0, []) =
      ((0, []), .HT1382_INVALID_PARAM) ∧
    HT1382_Init (recording (hookHandler (some (-1)) none true)) (0, []) =
      ((1, [Call.init]), .HT1382_FAIL) ∧
    HT1382_Init (recording (hookHandler (some 0) none true)) (0, []) =
      ((1, [Call.init]), .HT1382_OK) ∧
    HT1382_Init (recording (hookHandler none none true)) (0, []) = ((0, []), .HT1382_OK) :=
  ⟨(C15_init (hookHandler (some 0) none false) 0).1 (Or.inl rfl),
    (C15_init (hookHandler (some (-1)) none true) 0).2.1 _ _ _ rfl rfl rfl,
    (C15_init (hookHandler (some 0) none true) 0).2.1 _ _ _ rfl rfl rfl,
    (C15_init (hookHandler none none true) 0).2.2.1 _ _ rfl rfl rfl⟩

/-- C16: HT1382_DeInit invokes the deinit hook exactly once if one is bound and
returns HT1382_FAIL if the hook reports failure (a negative code) and HT1382_OK
if not; with no hook bound it returns HT1382_OK and logs no call.  No send and
no receive is ever logged, whether or not those bindings are present. -/
theorem C16_deinit {σ : Type} (H : HT1382_Handler σ) (s : σ) :
    (∀ hook, H.Platform.DeInit = some hook →
      HT1382_DeInit (recording H) (s, []) =
        (((hook s).1, [Call.deinit]),
          if (hook s).2 < 0 then .HT1382_FAIL else .HT1382_OK)) ∧
    (H.Platform.DeInit = none →
      HT1382_DeInit (recording H) (s, []) = ((s, []), .HT1382_OK)) ∧
    (∀ c ∈ (HT1382_DeInit (recording H) (s, [])).1.2, c = Call.deinit) := by
  refine ⟨?_, ?_, ?_⟩
  · intro hook hD
    simp only [HT1382_DeInit, recording, hD, Option.map_some', List.nil_append]
    split_ifs <;> rfl
  · intro hD
    simp [HT1382_DeInit, recording, hD]
  · intro c hc
    unfold HT1382_DeInit at hc
    cases hD : H.Platform.DeInit with
    | none => simp [recording, hD] at hc
    | some hook =>
      simp only [recording, hD, Option.map_some'] at hc
      split_ifs at hc <;> simpa using hc

theorem C16_deinit_witness :
    HT1382_DeInit (recording (hookHandler none (some (-1)) false)) (0, []) =
      ((1, [Call.deinit]), .HT1382_FAIL) ∧
    HT1382_DeInit (recording (hookHandler none (some 0) true)) (0, []) =
      ((1, [Call.deinit]), .HT1382_OK) ∧
    HT1382_DeInit (recording (hookHandler none none false)) (0, []) = ((0, []), .HT1382_OK) :=
  ⟨(C16_deinit (hookHandler none (some (-1)) false) 0).1 _ rfl,
    (C16_deinit (hookHandler none (some 0) true) 0).1 _ rfl,
    (C16_deinit (hookHandler none none false) 0).2.1 rfl⟩

/-! ## Transport failure in HT1382_GetDateTime -/

theorem recording_Receive {σ : Type} (H : HT1382_Handler σ)
    (recv : σ → Nat → List Nat → Nat → σ × Int × List Nat)
    (hR : H.Platform.Receive = some recv) :
    (recording H).Platform.Receive = some (fun st Address Data Len =>
      (((recv st.1 Address Data Len).1, st.2 ++ [Call.receive Address Len]),
        (recv st.1 Address Data Len).2)) := by
  simp [recording, hR]

/-- C11: if the address send or the receive call of HT1382_GetDateTime reports
a transport failure (a negative code), HT1382_GetDateTime returns HT1382_FAIL,
the DateTime structure of the caller is as it was before the call, and the
only send logged carries the single address byte (followed by the receive when
the send succeeded); on the simulated register store behind a failing
transport the registers are left untouched. -/
theorem C11_getDateTime_failure {σ : Type} (H : HT1382_Handler σ)
    (send : σ → Nat → List Nat → Nat → σ × Int)
    (recv : σ → Nat → List Nat → Nat → σ × Int × List Nat)
    (hS : H.Platform.Send = some send) (hR : H.Platform.Receive = some recv)
    (s : σ) (dt0 : HT1382_DateTime)
    (hfail : (send s HT1382_ADDRESS [HT1382_REG_ADDR_SECONDS] 1).2 < 0 ∨
      (recv (send s HT1382_ADDRESS [HT1382_REG_ADDR_SECONDS] 1).1 HT1382_ADDRESS
        (List.replicate 7 0) 7).2.1 < 0) :
    (∃ s' log, HT1382_GetDateTime (recording H) (s, []) dt0 =
        some ((s', log), .HT1382_FAIL, dt0) ∧
      (log = [Call.send HT1382_ADDRESS [HT1382_REG_ADDR_SECONDS]] ∨
        log = [Call.send HT1382_ADDRESS [HT1382_REG_ADDR_SECONDS],
          Call.receive HT1382_ADDRESS 7])) ∧
    (∀ (fails : Nat → Bool) (st : RegStore) (k : Nat),
      (fails k = true ∨ fails (k + 1) = true) →
      ∃ st' k', HT1382_GetDateTime (faultyHandler fails) (st, k) dt0 =
          some ((st', k'), .HT1382_FAIL, dt0) ∧
        st'.regs = st.regs) := by
  constructor
  · by_cases h1 : (send s HT1382_ADDRESS [HT1382_REG_ADDR_SECONDS] 1).2 < 0
    · refine ⟨(send s HT1382_ADDRESS [HT1382_REG_ADDR_SECONDS] 1).1,
        [Call.send HT1382_ADDRESS [HT1382_REG_ADDR_SECONDS]], ?_, Or.inl rfl⟩
      simp [HT1382_GetDateTime, HT1382_ReadRegs, recording_Send H send hS, h1]
    · have h2 := hfail.resolve_left h1
      refine ⟨(recv (send s HT1382_ADDRESS [HT1382_REG_ADDR_SECONDS] 1).1 HT1382_ADDRESS
          (List.replicate 7 0) 7).1,
        [Call.send HT1382_ADDRESS [HT1382_REG_ADDR_SECONDS], Call.receive HT1382_ADDRESS 7],
        ?_, Or.inr rfl⟩
      simp only [HT1382_GetDateTime, HT1382_ReadRegs, recording_Send H send hS,
        recording_Receive H recv hR, if_neg h1, if_pos h2]
      simp
  · intro fails st k hk
    by_cases h1 : fails k = true
    · refine ⟨st, k + 1, ?_, rfl⟩
      simp [HT1382_GetDateTime, HT1382_ReadRegs, faultyHandler, h1]
    · have h2 := hk.resolve_left h1
      refine ⟨(RegStore.send st HT1382_ADDRESS [HT1382_REG_ADDR_SECONDS] 1).1, k + 1 + 1, ?_, ?_⟩
      · simp [HT1382_GetDateTime, HT1382_ReadRegs, faultyHandler, h1, h2]
      · simp [RegStore.send, RegStore.write]

theorem C11_getDateTime_failure_witness :
    (∃ s' log, HT1382_GetDateTime (recording nackHandler) (sampleStore 0x59, []) exampleDateTime =
        some ((s', log), .HT1382_FAIL, exampleDateTime) ∧
      (log = [Call.send HT1382_ADDRESS [HT1382_REG_ADDR_SECONDS]] ∨
        log = [Call.send HT1382_ADDRESS [HT1382_REG_ADDR_SECONDS],
          Call.receive HT1382_ADDRESS 7])) ∧
    ∃ st' k', HT1382_GetDateTime (faultyHandler fun k => decide (k = 1)) (sampleStore 0x59, 0)
        exampleDateTime = some ((st', k'), .HT1382_FAIL, exampleDateTime) ∧
      st'.regs = (sampleStore 0x59).regs :=
  ⟨(C11_getDateTime_failure nackHandler RegStore.send (fun st _ Data _ => (st, -3, Data))
      rfl rfl (sampleStore 0x59) exampleDateTime (Or.inr (by decide))).1,
    (C11_getDateTime_failure nackHandler RegStore.send (fun st _ Data _ => (st, -3, Data))
      rfl rfl (sampleStore 0x59) exampleDateTime (Or.inr (by decide))).2
      (fun k => decide (k = 1)) (sampleStore 0x59) 0 (Or.inr (by decide))⟩

/-! ## HT1382_SetOutWave -/

/-- A write of one byte is one send of two bytes, whatever the size of the
send buffer (at least 2), and returns -1 exactly when that send returns a
negative code. -/
theorem WriteRegs_one {σ : Type} (C : Nat) (hC : 2 ≤ C) (H : HT1382_Handler σ)
    (send : σ → Nat → List Nat → Nat → σ × Int) (hS : H.Platform.Send = some send)
    (s : σ) (S d : Nat) :
    HT1382_WriteRegs C H s S [d] 1 =
      some ((send s HT1382_ADDRESS (S :: d :: List.replicate (C - 2) 0) 2).1,
        if (send s HT1382_ADDRESS (S :: d :: List.replicate (C - 2) 0) 2).2 < 0 then -1
        else 0) := by
  obtain ⟨c, rfl⟩ : ∃ c, C = c + 2 := ⟨C - 2, by omega⟩
  have hmin : min 1 (c + 2 - 1) % 256 = 1 := by
    rw [Nat.min_eq_left (by omega)]
  simp only [HT1382_WriteRegs, HT1382_WriteRegs_loop, hS, hmin]
  simp only [List.replicate_succ, List.set_cons_zero, memcpy, List.take_succ_cons,
    List.take_zero, List.drop_succ_cons, List.drop_zero, List.cons_append, List.nil_append,
    Nat.add_sub_cancel]
  split_ifs <;> simp_all

/-- The byte `HT1382_SetOutWave` computes from the INT register byte `r` and a
mode `m` of at most 15 keeps the upper four bits of `r` and has `m` as its low
nibble. -/
theorem outWave_byte_eq (r m : Nat) (hm : m ≤ 15) :
    ((r &&& (0xFF ^^^ (0x0F <<< HT1382_INT_FO0))) % 256 |||
      ((m &&& 0x0F) <<< HT1382_INT_FO0)) % 256 = (r &&& 0xF0) ||| m := by
  have h1 : (0xFF ^^^ (0x0F <<< HT1382_INT_FO0)) = 0xF0 := by decide
  have h2 : (m &&& 0x0F) <<< HT1382_INT_FO0 = m := by
    have : m &&& 0x0F = m % 16 := Nat.and_pow_two_sub_one_eq_mod m 4
    simp only [HT1382_INT_FO0, Nat.shiftLeft_zero, this]
    omega
  have h3 : r &&& 0xF0 < 256 := lt_of_le_of_lt Nat.and_le_right (by decide)
  have h4 : (r &&& 0xF0) ||| m < 2 ^ 8 := Nat.or_lt_two_pow h3 (by omega)
  rw [h1, h2, Nat.mod_eq_of_lt h3]
  exact Nat.mod_eq_of_lt h4

set_option maxRecDepth 100000 in
theorem outWave_byte_nibbles :
    ∀ m < 16, ∀ r < 256, ((r &&& 0xF0) ||| m) % 16 = m ∧ ((r &&& 0xF0) ||| m) / 16 = r / 16 := by
  decide

theorem ReadRegs_eq {σ : Type} (H : HT1382_Handler σ)
    (send : σ → Nat → List Nat → Nat → σ × Int)
    (recv : σ → Nat → List Nat → Nat → σ × Int × List Nat)
    (hS : H.Platform.Send = some send) (hR : H.Platform.Receive = some recv)
    (s : σ) (S : Nat) (Data : List Nat) (n : Nat) :
    HT1382_ReadRegs H s S Data n =
      if (send s HT1382_ADDRESS [S] 1).2 < 0 then
        some ((send s HT1382_ADDRESS [S] 1).1, -1, Data)
      else if (recv (send s HT1382_ADDRESS [S] 1).1 HT1382_ADDRESS Data n).2.1 < 0 then
        some ((recv (send s HT1382_ADDRESS [S] 1).1 HT1382_ADDRESS Data n).1, -1,
          (recv (send s HT1382_ADDRESS [S] 1).1 HT1382_ADDRESS Data n).2.2)
      else
        some ((recv (send s HT1382_ADDRESS [S] 1).1 HT1382_ADDRESS Data n).1, 0,
          (recv (send s HT1382_ADDRESS [S] 1).1 HT1382_ADDRESS Data n).2.2) := by
  simp only [HT1382_ReadRegs, hS, hR]

/-- A mode of at most 15 never yields `HT1382_INVALID_PARAM`. -/
theorem SetOutWave_in_range_ne {σ : Type} (C : Nat) (H : HT1382_Handler σ) (s s' : σ)
    (m : Nat) (hm : m ≤ 15) :
    HT1382_SetOutWave C H s m ≠ some (s', .HT1382_INVALID_PARAM) := by
  have hm' : ¬ m > HT1382_OUTWAVE_1_32HZ := by simp only [HT1382_OUTWAVE_1_32HZ]; omega
  simp only [HT1382_SetOutWave, if_neg hm']
  rcases HT1382_ReadRegs H s HT1382_REG_ADDR_INT [0] 1 with _ | ⟨s1, r1, b1⟩
  · simp
  · by_cases h1 : r1 < 0
    · simp [h1]
    · simp only [if_neg h1]
      rcases HT1382_WriteProtection C H s1 0 with _ | ⟨s2, r2⟩
      · simp
      · by_cases h2 : r2 < 0
        · simp [h2]
        · simp only [if_neg h2]
          rcases HT1382_WriteRegs C H s2 HT1382_REG_ADDR_INT _ 1 with _ | ⟨s3, r3⟩
          · simp
          · by_cases h3 : r3 < 0
            · simp [h3]
            · simp only [if_neg h3]
              rcases HT1382_WriteProtection C H s3 1 with _ | ⟨s4, r4⟩
              · simp
              · by_cases h4 : r4 < 0
                · simp [h4]
                · simp only [if_neg h4]
                  rcases HT1382_ReadRegs H s4 HT1382_REG_ADDR_INT _ 1 with _ | ⟨s5, r5, b5⟩
                  · simp
                  · by_cases h5 : r5 < 0
                    · simp [h5]
                    · simp [h5]

/-- The calls of `HT1382_SetOutWave` for a mode of at most 15, as a recording
transport whose sends and receives all succeed logs them; `r` is the byte the
first read of the INT register delivers. -/
theorem SetOutWave_recording {σ : Type} (C : Nat) (hC : 2 ≤ C) (H : HT1382_Handler σ)
    (send : σ → Nat → List Nat → Nat → σ × Int)
    (recv : σ → Nat → List Nat → Nat → σ × Int × List Nat)
    (hS : H.Platform.Send = some send) (hR : H.Platform.Receive = some recv)
    (hokS : ∀ s a d l, (send s a d l).2 = 0) (hokR : ∀ s a d l, (recv s a d l).2.1 = 0)
    (s : σ) (m : Nat) (hm : m ≤ 15) :
    ∃ s', HT1382_SetOutWave C (recording H) (s, []) m =
      some ((s', [Call.send HT1382_ADDRESS [0x09], Call.receive HT1382_ADDRESS 1,
        Call.send HT1382_ADDRESS [0x07, 0x00],
        Call.send HT1382_ADDRESS [0x09,
          ((recv (send s HT1382_ADDRESS [HT1382_REG_ADDR_INT] 1).1 HT1382_ADDRESS [0] 1).2.2.getD
            0 0 &&& 0xF0) ||| m],
        Call.send HT1382_ADDRESS [0x07, 0x80],
        Call.send HT1382_ADDRESS [0x09], Call.receive HT1382_ADDRESS 1]), .HT1382_OK) := by
  have hm' : ¬ m > HT1382_OUTWAVE_1_32HZ := by simp only [HT1382_OUTWAVE_1_32HZ]; omega
  simp only [HT1382_SetOutWave, if_neg hm', HT1382_WriteProtection,
    ReadRegs_eq (recording H) _ _ (recording_Send H send hS) (recording_Receive H recv hR),
    WriteRegs_one C hC (recording H) _ (recording_Send H send hS), hokS, hokR,
    lt_self_iff_false, if_false, outWave_byte_eq _ m hm]
  exact ⟨_, rfl⟩

/-- The result of `HT1382_SetOutWave` for a mode of at most 15 on a transport
whose sends and receives all succeed. -/
theorem SetOutWave_ok {σ : Type} (C : Nat) (hC : 2 ≤ C) (H : HT1382_Handler σ)
    (send : σ → Nat → List Nat → Nat → σ × Int)
    (recv : σ → Nat → List Nat → Nat → σ × Int × List Nat)
    (hS : H.Platform.Send = some send) (hR : H.Platform.Receive = some recv)
    (hokS : ∀ s a d l, (send s a d l).2 = 0) (hokR : ∀ s a d l, (recv s a d l).2.1 = 0)
    (s : σ) (m : Nat) (hm : m ≤ 15) :
    ∃ s', HT1382_SetOutWave C H s m = some (s', .HT1382_OK) := by
  have hm' : ¬ m > HT1382_OUTWAVE_1_32HZ := by simp only [HT1382_OUTWAVE_1_32HZ]; omega
  simp only [HT1382_SetOutWave, if_neg hm', HT1382_WriteProtection,
    ReadRegs_eq H send recv hS hR, WriteRegs_one C hC H send hS, hokS, hokR,
    lt_self_iff_false, if_false]
  exact ⟨_, rfl⟩

theorem RegStore_receive_ok (st : RegStore) (a : Nat) (d : List Nat) (l : Nat) :
    (RegStore.receive st a d l).2.1 = 0 :=
  rfl

/-- The effect of `HT1382_SetOutWave` on the INT register of the simulated
register store, for a mode of at most 15. -/
theorem SetOutWave_sim (C : Nat) (hC : 2 ≤ C) (st : RegStore) (m : Nat) (hm : m ≤ 15) :
    ∃ st', HT1382_SetOutWave C simHandler st m = some (st', .HT1382_OK) ∧
      st'.regs HT1382_REG_ADDR_INT = (st.regs HT1382_REG_ADDR_INT &&& 0xF0) ||| m := by
  have hm' : ¬ m > HT1382_OUTWAVE_1_32HZ := by simp only [HT1382_OUTWAVE_1_32HZ]; omega
  simp only [HT1382_SetOutWave, if_neg hm', HT1382_WriteProtection,
    ReadRegs_eq simHandler RegStore.send RegStore.receive rfl rfl,
    WriteRegs_one C hC simHandler RegStore.send rfl, RegStore_send_ok, RegStore_receive_ok,
    lt_self_iff_false, if_false, outWave_byte_eq _ m hm]
  refine ⟨_, rfl, ?_⟩
  simp [RegStore.send, RegStore.receive, RegStore.write, HT1382_REG_ADDR_INT,
      HT1382_REG_ADDR_ST1, Function.update, List.range, List.range.loop]

/-- C12: HT1382_SetOutWave returns HT1382_INVALID_PARAM for every mode value
greater than 15 and then logs no transport call; for every mode in 0..15 it
never returns HT1382_INVALID_PARAM, and it returns HT1382_OK when every send
and every receive succeeds (for every send buffer size of at least 2). -/
theorem C12_outwave_validation {σ : Type} (C : Nat) (H : HT1382_Handler σ) (s : σ) (m : Nat) :
    (15 < m → HT1382_SetOutWave C (recording H) (s, []) m =
      some ((s, []), .HT1382_INVALID_PARAM)) ∧
    (m ≤ 15 → ∀ s', HT1382_SetOutWave C H s m ≠ some (s', .HT1382_INVALID_PARAM)) ∧
    (m ≤ 15 → 2 ≤ C → ∀ send recv, H.Platform.Send = some send →
      H.Platform.Receive = some recv → (∀ s a d l, (send s a d l).2 = 0) →
      (∀ s a d l, (recv s a d l).2.1 = 0) →
      ∃ s', HT1382_SetOutWave C H s m = some (s', .HT1382_OK)) := by
  refine ⟨?_, ?_, ?_⟩
  · intro hm
    simp only [HT1382_SetOutWave, HT1382_OUTWAVE_1_32HZ, gt_iff_lt, if_pos hm]
  · intro hm s'
    exact SetOutWave_in_range_ne C H s s' m hm
  · intro hm hC send recv hS hR hokS hokR
    exact SetOutWave_ok C hC H send recv hS hR hokS hokR s m hm

theorem C12_outwave_validation_witness :
    HT1382_SetOutWave HT1382_SEND_BUFFER_SIZE (recording simHandler) (zeroStore, []) 16 =
      some ((zeroStore, []), .HT1382_INVALID_PARAM) ∧
    (∀ s', HT1382_SetOutWave HT1382_SEND_BUFFER_SIZE simHandler zeroStore 15 ≠
      some (s', .HT1382_INVALID_PARAM)) ∧
    (∃ s', HT1382_SetOutWave HT1382_SEND_BUFFER_SIZE simHandler zeroStore 15 =
      some (s', .HT1382_OK)) :=
  ⟨(C12_outwave_validation HT1382_SEND_BUFFER_SIZE simHandler zeroStore 16).1 (by decide),
    (C12_outwave_validation HT1382_SEND_BUFFER_SIZE simHandler zeroStore 15).2.1 (by decide),
    (C12_outwave_validation HT1382_SEND_BUFFER_SIZE simHandler zeroStore 15).2.2 (by decide)
      (by decide) RegStore.send RegStore.receive rfl rfl RegStore_send_ok RegStore_receive_ok⟩

/-- C13: for every mode m in 0..15 and every byte r returned by the first read
of the INT register, when the transport calls succeed the fourth call of
HT1382_SetOutWave is the send of [0x09, (r AND 0xF0) OR m]; the low nibble of
that byte is m and its upper four bits are those of r; on the simulated
register store the INT register ends up holding that byte. -/
theorem C13_outwave_read_modify_write {σ : Type} (C : Nat) (hC : 2 ≤ C) (H : HT1382_Handler σ)
    (send : σ → Nat → List Nat → Nat → σ × Int)
    (recv : σ → Nat → List Nat → Nat → σ × Int × List Nat)
    (hS : H.Platform.Send = some send) (hR : H.Platform.Receive = some recv)
    (hokS : ∀ s a d l, (send s a d l).2 = 0) (hokR : ∀ s a d l, (recv s a d l).2.1 = 0)
    (s : σ) (st : RegStore) (m r : Nat) (hm : m ≤ 15) (hr : r < 256)
    (hread : (recv (send s HT1382_ADDRESS [HT1382_REG_ADDR_INT] 1).1 HT1382_ADDRESS [0] 1).2.2 =
      [r])
    (hreg : st.regs HT1382_REG_ADDR_INT = r) :
    (∃ s' log, HT1382_SetOutWave C (recording H) (s, []) m = some ((s', log), .HT1382_OK) ∧
      log[3]? = some (Call.send HT1382_ADDRESS [0x09, (r &&& 0xF0) ||| m]) ∧
      ∀ d, Call.send HT1382_ADDRESS (0x09 :: d) ∈ log → d = [] ∨ d = [(r &&& 0xF0) ||| m]) ∧
    ((r &&& 0xF0) ||| m) % 16 = m ∧ ((r &&& 0xF0) ||| m) / 16 = r / 16 ∧
    (∃ st', HT1382_SetOutWave C simHandler st m = some (st', .HT1382_OK) ∧
      st'.regs HT1382_REG_ADDR_INT = (r &&& 0xF0) ||| m) := by
  refine ⟨?_, (outWave_byte_nibbles m (by omega) r hr).1,
    (outWave_byte_nibbles m (by omega) r hr).2, ?_⟩
  · obtain ⟨s', hs'⟩ := SetOutWave_recording C hC H send recv hS hR hokS hokR s m hm
    rw [hread] at hs'
    refine ⟨s', _, hs', rfl, ?_⟩
    intro d hd
    simp only [List.getD_cons_zero, List.mem_cons, Call.send.injEq, List.cons.injEq,
      true_and, List.mem_singleton, List.not_mem_nil, or_false, reduceCtorEq] at hd
    rcases hd with h | h | h | h | h | h <;> simp_all
  · obtain ⟨st', h1, h2⟩ := SetOutWave_sim C hC st m hm
    exact ⟨st', h1, by rw [h2, hreg]⟩

theorem C13_outwave_read_modify_write_witness :
    (∃ s' log, HT1382_SetOutWave HT1382_SEND_BUFFER_SIZE (recording simHandler)
        (intStore, []) 10 = some ((s', log), .HT1382_OK) ∧
      log[3]? = some (Call.send HT1382_ADDRESS [0x09, (0xC5 &&& 0xF0) ||| 10]) ∧
      ∀ d, Call.send HT1382_ADDRESS (0x09 :: d) ∈ log → d = [] ∨ d = [(0xC5 &&& 0xF0) ||| 10]) ∧
    ((0xC5 &&& 0xF0) ||| 10) % 16 = 10 ∧ ((0xC5 &&& 0xF0) ||| 10) / 16 = 0xC5 / 16 ∧
    (∃ st', HT1382_SetOutWave HT1382_SEND_BUFFER_SIZE simHandler intStore 10 =
        some (st', .HT1382_OK) ∧
      st'.regs HT1382_REG_ADDR_INT = (0xC5 &&& 0xF0) ||| 10) :=
  C13_outwave_read_modify_write HT1382_SEND_BUFFER_SIZE (by decide) simHandler RegStore.send
    RegStore.receive rfl rfl RegStore_send_ok RegStore_receive_ok intStore intStore 10 0xC5
    (by decide) (by decide) rfl rfl

/-- C14: for every mode in 0..15, when every send and every receive succeeds
the calls logged for HT1382_SetOutWave are exactly: send [0x09], receive of 1
byte, send [0x07, 0x00], send [0x09, v] with v the modified INT byte, send
[0x07, 0x80], send [0x09], receive of 1 byte; the result is HT1382_OK whatever
the receive function delivers on the final read. -/
theorem C14_outwave_call_sequence {σ : Type} (C : Nat) (hC : 2 ≤ C) (H : HT1382_Handler σ)
    (send : σ → Nat → List Nat → Nat → σ × Int)
    (recv : σ → Nat → List Nat → Nat → σ × Int × List Nat)
    (hS : H.Platform.Send = some send) (hR : H.Platform.Receive = some recv)
    (hokS : ∀ s a d l, (send s a d l).2 = 0) (hokR : ∀ s a d l, (recv s a d l).2.1 = 0)
    (s : σ) (m : Nat) (hm : m ≤ 15) :
    ∃ s', HT1382_SetOutWave C (recording H) (s, []) m =
      some ((s', [Call.send HT1382_ADDRESS [0x09], Call.receive HT1382_ADDRESS 1,
        Call.send HT1382_ADDRESS [0x07, 0x00],
        Call.send HT1382_ADDRESS [0x09,
          ((recv (send s HT1382_ADDRESS [HT1382_REG_ADDR_INT] 1).1 HT1382_ADDRESS [0] 1).2.2.getD
            0 0 &&& 0xF0) ||| m],
        Call.send HT1382_ADDRESS [0x07, 0x80],
        Call.send HT1382_ADDRESS [0x09], Call.receive HT1382_ADDRESS 1]), .HT1382_OK) :=
  SetOutWave_recording C hC H send recv hS hR hokS hokR s m hm

theorem C14_outwave_call_sequence_witness :
    ∃ s', HT1382_SetOutWave HT1382_SEND_BUFFER_SIZE (recording simHandler) (intStore, []) 10 =
      some ((s', [Call.send HT1382_ADDRESS [0x09], Call.receive HT1382_ADDRESS 1,
        Call.send HT1382_ADDRESS [0x07, 0x00], Call.send HT1382_ADDRESS [0x09, 0xCA],
        Call.send HT1382_ADDRESS [0x07, 0x80],
        Call.send HT1382_ADDRESS [0x09], Call.receive HT1382_ADDRESS 1]), .HT1382_OK) :=
  C14_outwave_call_sequence HT1382_SEND_BUFFER_SIZE (by decide) simHandler RegStore.send
    RegStore.receive rfl rfl RegStore_send_ok RegStore_receive_ok intStore 10 (by decide)

/-! ## Logs of calls with their return codes -/

theorem tracing_Send {σ : Type} (H : HT1382_Handler σ)
    (send : σ → Nat → List Nat → Nat → σ × Int) (hS : H.Platform.Send = some send) :
    (tracing H).Platform.Send = some (fun st Address Data Len =>
      (((send st.1 Address Data Len).1,
          st.2 ++ [(Call.send Address (Data.take Len), (send st.1 Address Data Len).2)]),
        (send st.1 Address Data Len).2)) := by
  simp [tracing, hS]

theorem tracing_Receive {σ : Type} (H : HT1382_Handler σ)
    (recv : σ → Nat → List Nat → Nat → σ × Int × List Nat)
    (hR : H.Platform.Receive = some recv) :
    (tracing H).Platform.Receive = some (fun st Address Data Len =>
      (((recv st.1 Address Data Len).1,
          st.2 ++ [(Call.receive Address Len, (recv st.1 Address Data Len).2.1)]),
        (recv st.1 Address Data Len).2)) := by
  simp [tracing, hR]

theorem AllSucceed_nil : AllSucceed [] := by
  intro e he
  simp at he

theorem AllSucceed_append (l1 l2 : List (Call × Int)) (h1 : AllSucceed l1)
    (h2 : AllSucceed l2) : AllSucceed (l1 ++ l2) := by
  intro e he
  rcases List.mem_append.mp he with h | h
  · exact h1 e h
  · exact h2 e h

theorem AllSucceed_singleton (e : Call × Int) (h : ¬ e.2 < 0) : AllSucceed [e] := by
  intro x hx
  rw [List.mem_singleton] at hx
  subst hx
  omega

theorem FailsLast_singleton (e : Call × Int) (h : e.2 < 0) : FailsLast [e] :=
  ⟨[], e, rfl, AllSucceed_nil, h⟩

theorem FailsLast_append (l1 l2 : List (Call × Int)) (h1 : AllSucceed l1)
    (h2 : FailsLast l2) : FailsLast (l1 ++ l2) := by
  obtain ⟨init, e, rfl, hinit, he⟩ := h2
  exact ⟨l1 ++ init, e, by rw [List.append_assoc], AllSucceed_append l1 init h1 hinit, he⟩

theorem AllAddressed_nil : AllAddressed [] := by
  intro e he
  simp at he

theorem AllAddressed_append (l1 l2 : List (Call × Int)) (h1 : AllAddressed l1)
    (h2 : AllAddressed l2) : AllAddressed (l1 ++ l2) := by
  intro e he
  rcases List.mem_append.mp he with h | h
  · exact h1 e h
  · exact h2 e h

theorem StepOutcome_append (l1 l2 : List (Call × Int)) (r : Int) (h1 : AllSucceed l1)
    (h2 : StepOutcome l2 r) : StepOutcome (l1 ++ l2) r := by
  rcases h2 with ⟨hr, h⟩ | ⟨hr, h⟩
  · exact Or.inl ⟨hr, AllSucceed_append l1 l2 h1 h⟩
  · exact Or.inr ⟨hr, FailsLast_append l1 l2 h1 h⟩

/-- A failed call in a log that fails last is the last call of the log. -/
theorem FailsLast_index (log : List (Call × Int)) (h : FailsLast log) (i : Nat)
    (e : Call × Int) (hi : log[i]? = some e) (he : e.2 < 0) : i + 1 = log.length := by
  obtain ⟨init, e0, rfl, hinit, _⟩ := h
  by_cases hlt : i < init.length
  · rw [List.getElem?_append_left hlt] at hi
    have := hinit e (List.getElem?_mem hi)
    omega
  · have hlen : i < (init ++ [e0]).length := by
      by_contra hc
      rw [List.getElem?_eq_none (by omega)] at hi
      cases hi
    simp only [List.length_append, List.length_singleton] at hlen ⊢
    omega

/-- The loop of `HT1382_WriteRegs` on a transport that logs return codes, for
sends that may fail: it returns 0 after sends that all succeeded or -1 right
after the first failed send, and every call is a send to the HT1382. -/
theorem WriteRegs_loop_tracing {σ : Type} (C : Nat) (hC : 2 ≤ C) (H : HT1382_Handler σ)
    (send : σ → Nat → List Nat → Nat → σ × Int) (hS : H.Platform.Send = some send) :
    ∀ (fuel : Nat) (s : σ) (tr : List (Call × Int)) (Buffer Data : List Nat) (n : Nat),
      n < fuel → n ≤ 255 →
      ∃ s' log r, HT1382_WriteRegs_loop C (tracing H) fuel (s, tr) Buffer Data n =
          some ((s', tr ++ log), r) ∧ StepOutcome log r ∧ AllAddressed log := by
  intro fuel
  induction fuel with
  | zero => intro s tr Buffer Data n hf; omega
  | succ fuel ih =>
    intro s tr Buffer Data n hf hn
    rw [HT1382_WriteRegs_loop]
    by_cases h0 : n = 0
    · exact ⟨s, [], 0, by simp [h0], Or.inl ⟨rfl, AllSucceed_nil⟩, AllAddressed_nil⟩
    · rw [if_neg h0]
      simp only [tracing_Send H send hS]
      have hLen : min n (C - 1) % 256 = min n (C - 1) := Nat.mod_eq_of_lt (by omega)
      have hsub : (n - min n (C - 1)) % 256 = n - min n (C - 1) := Nat.mod_eq_of_lt (by omega)
      rw [hLen, hsub]
      generalize hB : memcpy Buffer 1 Data (min n (C - 1)) = B
      generalize hr : send s HT1382_ADDRESS B ((min n (C - 1) + 1) % 256) = rc
      have haddr : AllAddressed
          [(Call.send HT1382_ADDRESS (B.take ((min n (C - 1) + 1) % 256)), rc.2)] := by
        intro e he
        rw [List.mem_singleton] at he
        subst he
        rfl
      by_cases hneg : rc.2 < 0
      · rw [if_pos hneg]
        exact ⟨rc.1, [(Call.send HT1382_ADDRESS (B.take ((min n (C - 1) + 1) % 256)), rc.2)],
          -1, rfl, Or.inr ⟨rfl, FailsLast_singleton _ hneg⟩, haddr⟩
      · rw [if_neg hneg]
        obtain ⟨s', log, r, hrun, hout, hadr⟩ := ih rc.1
          (tr ++ [(Call.send HT1382_ADDRESS (B.take ((min n (C - 1) + 1) % 256)), rc.2)])
          (B.set 0 ((B.getD 0 0 + min n (C - 1)) % 256)) (Data.drop (min n (C - 1)))
          (n - min n (C - 1)) (by omega) (by omega)
        refine ⟨s',
          [(Call.send HT1382_ADDRESS (B.take ((min n (C - 1) + 1) % 256)), rc.2)] ++ log,
          r, ?_, ?_, ?_⟩
        · rw [hrun, List.append_assoc]
        · exact StepOutcome_append _ log r (AllSucceed_singleton _ hneg) hout
        · exact AllAddressed_append _ log haddr hadr

/-- The whole of `HT1382_WriteRegs` on a transport that logs return codes. -/
theorem WriteRegs_tracing {σ : Type} (C : Nat) (hC : 2 ≤ C) (H : HT1382_Handler σ)
    (send : σ → Nat → List Nat → Nat → σ × Int) (hS : H.Platform.Send = some send)
    (s : σ) (tr : List (Call × Int)) (S : Nat) (Data : List Nat) (n : Nat) (hn : n ≤ 255) :
    ∃ s' log r, HT1382_WriteRegs C (tracing H) (s, tr) S Data n =
        some ((s', tr ++ log), r) ∧ StepOutcome log r ∧ AllAddressed log :=
  WriteRegs_loop_tracing C hC H send hS (n + 1) s tr _ Data n (by omega) hn

/-- The whole of `HT1382_ReadRegs` on a transport that logs return codes. -/
theorem ReadRegs_tracing {σ : Type} (H : HT1382_Handler σ)
    (send : σ → Nat → List Nat → Nat → σ × Int)
    (recv : σ → Nat → List Nat → Nat → σ × Int × List Nat)
    (hS : H.Platform.Send = some send) (hR : H.Platform.Receive = some recv)
    (s : σ) (tr : List (Call × Int)) (S : Nat) (Data : List Nat) (n : Nat) :
    ∃ s' log r buf, HT1382_ReadRegs (tracing H) (s, tr) S Data n =
        some ((s', tr ++ log), r, buf) ∧ StepOutcome log r ∧ AllAddressed log := by
  rw [ReadRegs_eq (tracing H) _ _ (tracing_Send H send hS) (tracing_Receive H recv hR)]
  generalize hr : send s HT1382_ADDRESS [S] 1 = rc
  have ha1 : AllAddressed [(Call.send HT1382_ADDRESS ([S].take 1), rc.2)] := by
    intro e he
    rw [List.mem_singleton] at he
    subst he
    rfl
  by_cases h1 : rc.2 < 0
  · simp only [hr, if_pos h1]
    exact ⟨rc.1, [(Call.send HT1382_ADDRESS ([S].take 1), rc.2)], -1, Data, rfl,
      Or.inr ⟨rfl, FailsLast_singleton _ h1⟩, ha1⟩
  · simp only [hr, if_neg h1]
    generalize hq : recv rc.1 HT1382_ADDRESS Data n = q
    have ha2 : AllAddressed [(Call.receive HT1382_ADDRESS n, q.2.1)] := by
      intro e he
      rw [List.mem_singleton] at he
      subst he
      rfl
    by_cases h2 : q.2.1 < 0
    · simp only [if_pos h2]
      refine ⟨q.1, [(Call.send HT1382_ADDRESS ([S].take 1), rc.2)] ++
        [(Call.receive HT1382_ADDRESS n, q.2.1)], -1, q.2.2, by rw [List.append_assoc],
        Or.inr ⟨rfl, ?_⟩, AllAddressed_append _ _ ha1 ha2⟩
      exact FailsLast_append _ _ (AllSucceed_singleton _ h1) (FailsLast_singleton _ h2)
    · simp only [if_neg h2]
      refine ⟨q.1, [(Call.send HT1382_ADDRESS ([S].take 1), rc.2)] ++
        [(Call.receive HT1382_ADDRESS n, q.2.1)], 0, q.2.2, by rw [List.append_assoc],
        Or.inl ⟨rfl, ?_⟩, AllAddressed_append _ _ ha1 ha2⟩
      exact AllSucceed_append _ _ (AllSucceed_singleton _ h1) (AllSucceed_singleton _ h2)

theorem WriteProtection_tracing {σ : Type} (C : Nat) (hC : 2 ≤ C) (H : HT1382_Handler σ)
    (send : σ → Nat → List Nat → Nat → σ × Int) (hS : H.Platform.Send = some send)
    (s : σ) (tr : List (Call × Int)) (Enable : Nat) :
    ∃ s' log r, HT1382_WriteProtection C (tracing H) (s, tr) Enable =
        some ((s', tr ++ log), r) ∧ StepOutcome log r ∧ AllAddressed log :=
  WriteRegs_tracing C hC H send hS s tr HT1382_REG_ADDR_ST1 _ 1 (by decide)

theorem neg_one_lt_zero_int : (-1 : Int) < 0 := by decide

/-- Every run of `HT1382_SetDateTime` on a transport that logs return codes
gives a result, and the log and the result fit together. -/
theorem SetDateTime_tracing {σ : Type} (C : Nat) (hC : 2 ≤ C) (H : HT1382_Handler σ)
    (send : σ → Nat → List Nat → Nat → σ × Int) (hS : H.Platform.Send = some send)
    (s : σ) (x : HT1382_DateTime) :
    ∃ s' log res, HT1382_SetDateTime C (tracing H) (s, []) x = some ((s', log), res) ∧
      OpOutcome log res ∧ AllAddressed log := by
  by_cases hx : x.Second > 59 ∨ x.Minute > 59 ∨ x.Hour > 23 ∨ x.WeekDay > 7 ∨ x.WeekDay = 0 ∨
      x.Day > 31 ∨ x.Day = 0 ∨ x.Month > 12 ∨ x.Month = 0 ∨ x.Year > 99
  · exact ⟨s, [], .HT1382_INVALID_PARAM, SetDateTime_out_of_range C (tracing H) (s, []) x hx,
      Or.inl ⟨rfl, rfl⟩, AllAddressed_nil⟩
  · simp only [HT1382_SetDateTime, if_neg hx]
    obtain ⟨s1, l1, r1, h1, o1, a1⟩ := WriteProtection_tracing C hC H send hS s [] 0
    rw [h1]
    rcases o1 with ⟨rfl, k1⟩ | ⟨rfl, f1⟩
    · simp only [lt_self_iff_false, if_false]
      obtain ⟨s2, l2, r2, h2, o2, a2⟩ := WriteRegs_tracing C hC H send hS s1 ([] ++ l1)
        HT1382_REG_ADDR_SECONDS (HT1382_SetDateTime_Buffer x) 7 (by decide)
      rw [h2]
      rcases o2 with ⟨rfl, k2⟩ | ⟨rfl, f2⟩
      · simp only [lt_self_iff_false, if_false]
        obtain ⟨s3, l3, r3, h3, o3, a3⟩ := WriteProtection_tracing C hC H send hS s2
          ([] ++ l1 ++ l2) 1
        rw [h3]
        rcases o3 with ⟨rfl, k3⟩ | ⟨rfl, f3⟩
        · simp only [lt_self_iff_false, if_false]
          exact ⟨s3, l1 ++ l2 ++ l3, .HT1382_OK, by simp,
            Or.inr (Or.inl ⟨rfl, AllSucceed_append _ _ (AllSucceed_append _ _ k1 k2) k3⟩),
            AllAddressed_append _ _ (AllAddressed_append _ _ a1 a2) a3⟩
        · simp only [neg_one_lt_zero_int, if_true]
          exact ⟨s3, l1 ++ l2 ++ l3, .HT1382_FAIL, by simp,
            Or.inr (Or.inr ⟨rfl, FailsLast_append _ _ (AllSucceed_append _ _ k1 k2) f3⟩),
            AllAddressed_append _ _ (AllAddressed_append _ _ a1 a2) a3⟩
      · simp only [neg_one_lt_zero_int, if_true]
        exact ⟨s2, l1 ++ l2, .HT1382_FAIL, by simp,
          Or.inr (Or.inr ⟨rfl, FailsLast_append _ _ k1 f2⟩), AllAddressed_append _ _ a1 a2⟩
    · simp only [neg_one_lt_zero_int, if_true]
      exact ⟨s1, l1, .HT1382_FAIL, by simp, Or.inr (Or.inr ⟨rfl, f1⟩), a1⟩

/-- Every run of `HT1382_GetDateTime` on a transport that logs return codes
gives a result, and the log and the result fit together. -/
theorem GetDateTime_tracing {σ : Type} (H : HT1382_Handler σ)
    (send : σ → Nat → List Nat → Nat → σ × Int)
    (recv : σ → Nat → List Nat → Nat → σ × Int × List Nat)
    (hS : H.Platform.Send = some send) (hR : H.Platform.Receive = some recv)
    (s : σ) (dt0 : HT1382_DateTime) :
    ∃ s' log res dt, HT1382_GetDateTime (tracing H) (s, []) dt0 = some ((s', log), res, dt) ∧
      OpOutcome log res ∧ AllAddressed log := by
  simp only [HT1382_GetDateTime]
  obtain ⟨s1, l1, r1, b1, h1, o1, a1⟩ := ReadRegs_tracing H send recv hS hR s []
    HT1382_REG_ADDR_SECONDS (List.replicate 7 0) 7
  rw [h1]
  rcases o1 with ⟨rfl, k1⟩ | ⟨rfl, f1⟩
  · simp only [lt_self_iff_false, if_false]
    exact ⟨s1, l1, .HT1382_OK, HT1382_GetDateTime_decode b1, by simp,
      Or.inr (Or.inl ⟨rfl, k1⟩), a1⟩
  · simp only [neg_one_lt_zero_int, if_true]
    exact ⟨s1, l1, .HT1382_FAIL, dt0, by simp, Or.inr (Or.inr ⟨rfl, f1⟩), a1⟩

/-- Every run of `HT1382_SetOutWave` on a transport that logs return codes
gives a result, and the log and the result fit together. -/
theorem SetOutWave_tracing {σ : Type} (C : Nat) (hC : 2 ≤ C) (H : HT1382_Handler σ)
    (send : σ → Nat → List Nat → Nat → σ × Int)
    (recv : σ → Nat → List Nat → Nat → σ × Int × List Nat)
    (hS : H.Platform.Send = some send) (hR : H.Platform.Receive = some recv)
    (s : σ) (m : Nat) :
    ∃ s' log res, HT1382_SetOutWave C (tracing H) (s, []) m = some ((s', log), res) ∧
      OpOutcome log res ∧ AllAddressed log := by
  by_cases hm : m > HT1382_OUTWAVE_1_32HZ
  · exact ⟨s, [], .HT1382_INVALID_PARAM, by simp only [HT1382_SetOutWave, if_pos hm],
      Or.inl ⟨rfl, rfl⟩, AllAddressed_nil⟩
  · simp only [HT1382_SetOutWave, if_neg hm]
    obtain ⟨s1, l1, r1, b1, h1, o1, a1⟩ := ReadRegs_tracing H send recv hS hR s []
      HT1382_REG_ADDR_INT [0] 1
    rw [h1]
    rcases o1 with ⟨rfl, k1⟩ | ⟨rfl, f1⟩
    · simp only [lt_self_iff_false, if_false]
      obtain ⟨s2, l2, r2, h2, o2, a2⟩ := WriteProtection_tracing C hC H send hS s1 ([] ++ l1) 0
      rw [h2]
      rcases o2 with ⟨rfl, k2⟩ | ⟨rfl, f2⟩
      · simp only [lt_self_iff_false, if_false]
        generalize ((b1.getD 0 0 &&& (0xFF ^^^ (0x0F <<< HT1382_INT_FO0))) % 256 |||
          ((m &&& 0x0F) <<< HT1382_INT_FO0)) % 256 = v
        obtain ⟨s3, l3, r3, h3, o3, a3⟩ := WriteRegs_tracing C hC H send hS s2
          ([] ++ l1 ++ l2) HT1382_REG_ADDR_INT [v] 1 (by decide)
        rw [h3]
        rcases o3 with ⟨rfl, k3⟩ | ⟨rfl, f3⟩
        · simp only [lt_self_iff_false, if_false]
          obtain ⟨s4, l4, r4, h4, o4, a4⟩ := WriteProtection_tracing C hC H send hS s3
            ([] ++ l1 ++ l2 ++ l3) 1
          rw [h4]
          rcases o4 with ⟨rfl, k4⟩ | ⟨rfl, f4⟩
          · simp only [lt_self_iff_false, if_false]
            obtain ⟨s5, l5, r5, b5, h5, o5, a5⟩ := ReadRegs_tracing H send recv hS hR s4
              ([] ++ l1 ++ l2 ++ l3 ++ l4) HT1382_REG_ADDR_INT [v] 1
            rw [h5]
            have k14 := AllSucceed_append _ _
              (AllSucceed_append _ _ (AllSucceed_append _ _ k1 k2) k3) k4
            have a15 := AllAddressed_append _ _ (AllAddressed_append _ _
              (AllAddressed_append _ _ (AllAddressed_append _ _ a1 a2) a3) a4) a5
            rcases o5 with ⟨rfl, k5⟩ | ⟨rfl, f5⟩
            · simp only [lt_self_iff_false, if_false]
              exact ⟨s5, l1 ++ l2 ++ l3 ++ l4 ++ l5, .HT1382_OK, by simp,
                Or.inr (Or.inl ⟨rfl, AllSucceed_append _ _ k14 k5⟩), a15⟩
            · simp only [neg_one_lt_zero_int, if_true]
              exact ⟨s5, l1 ++ l2 ++ l3 ++ l4 ++ l5, .HT1382_FAIL, by simp,
                Or.inr (Or.inr ⟨rfl, FailsLast_append _ _ k14 f5⟩), a15⟩
          · simp only [neg_one_lt_zero_int, if_true]
            exact ⟨s4, l1 ++ l2 ++ l3 ++ l4, .HT1382_FAIL, by simp,
              Or.inr (Or.inr ⟨rfl, FailsLast_append _ _
                (AllSucceed_append _ _ (AllSucceed_append _ _ k1 k2) k3) f4⟩),
              AllAddressed_append _ _ (AllAddressed_append _ _
                (AllAddressed_append _ _ a1 a2) a3) a4⟩
        · simp only [neg_one_lt_zero_int, if_true]
          exact ⟨s3, l1 ++ l2 ++ l3, .HT1382_FAIL, by simp,
            Or.inr (Or.inr ⟨rfl, FailsLast_append _ _ (AllSucceed_append _ _ k1 k2) f3⟩),
            AllAddressed_append _ _ (AllAddressed_append _ _ a1 a2) a3⟩
      · simp only [neg_one_lt_zero_int, if_true]
        exact ⟨s2, l1 ++ l2, .HT1382_FAIL, by simp,
          Or.inr (Or.inr ⟨rfl, FailsLast_append _ _ k1 f2⟩), AllAddressed_append _ _ a1 a2⟩
    · simp only [neg_one_lt_zero_int, if_true]
      exact ⟨s1, l1, .HT1382_FAIL, by simp, Or.inr (Or.inr ⟨rfl, f1⟩), a1⟩

/-- The log and the result of `HT1382_Init` on a transport that logs return
codes fit together. -/
theorem Init_tracing {σ : Type} (H : HT1382_Handler σ) (s : σ) :
    OpOutcome (HT1382_Init (tracing H) (s, [])).1.2 (HT1382_Init (tracing H) (s, [])).2 ∧
      AllAddressed (HT1382_Init (tracing H) (s, [])).1.2 := by
  unfold HT1382_Init
  split_ifs with h
  · exact ⟨Or.inl ⟨rfl, rfl⟩, AllAddressed_nil⟩
  · cases hI : H.Platform.Init with
    | none =>
      simp only [tracing, hI, Option.map_none']
      exact ⟨Or.inr (Or.inl ⟨rfl, AllSucceed_nil⟩), AllAddressed_nil⟩
    | some hook =>
      simp only [tracing, hI, Option.map_some', List.nil_append]
      have ha : AllAddressed [(Call.init, (hook s).2)] := by
        intro e he
        rw [List.mem_singleton] at he
        subst he
        trivial
      split_ifs with hc
      · exact ⟨Or.inr (Or.inr ⟨rfl, FailsLast_singleton _ hc⟩), ha⟩
      · exact ⟨Or.inr (Or.inl ⟨rfl, AllSucceed_singleton _ hc⟩), ha⟩

/-- The log and the result of `HT1382_DeInit` on a transport that logs return
codes fit together. -/
theorem DeInit_tracing {σ : Type} (H : HT1382_Handler σ) (s : σ) :
    OpOutcome (HT1382_DeInit (tracing H) (s, [])).1.2 (HT1382_DeInit (tracing H) (s, [])).2 ∧
      AllAddressed (HT1382_DeInit (tracing H) (s, [])).1.2 := by
  unfold HT1382_DeInit
  cases hD : H.Platform.DeInit with
  | none =>
    simp only [tracing, hD, Option.map_none']
    exact ⟨Or.inr (Or.inl ⟨rfl, AllSucceed_nil⟩), AllAddressed_nil⟩
  | some hook =>
    simp only [tracing, hD, Option.map_some', List.nil_append]
    have ha : AllAddressed [(Call.deinit, (hook s).2)] := by
      intro e he
      rw [List.mem_singleton] at he
      subst he
      trivial
    split_ifs with hc
    · exact ⟨Or.inr (Or.inr ⟨rfl, FailsLast_singleton _ hc⟩), ha⟩
    · exact ⟨Or.inr (Or.inl ⟨rfl, AllSucceed_singleton _ hc⟩), ha⟩

/-- A write of `n` bytes that fit into the send buffer (`1 ≤ n ≤ C - 1`,
`n ≤ 254`) is one send of `n + 1` bytes and returns -1 exactly when that send
returns a negative code. -/
theorem WriteRegs_single {σ : Type} (C : Nat) (H : HT1382_Handler σ)
    (send : σ → Nat → List Nat → Nat → σ × Int) (hS : H.Platform.Send = some send)
    (s : σ) (S : Nat) (Data : List Nat) (n : Nat) (hlen : Data.length = n) (hn0 : 0 < n)
    (hn : n ≤ C - 1) (hn254 : n ≤ 254) :
    HT1382_WriteRegs C H s S Data n =
      some ((send s HT1382_ADDRESS (S :: Data ++ List.replicate (C - 1 - n) 0) (n + 1)).1,
        if (send s HT1382_ADDRESS (S :: Data ++ List.replicate (C - 1 - n) 0) (n + 1)).2 < 0
        then -1 else 0) := by
  obtain ⟨k, rfl⟩ : ∃ k, n = k + 1 := ⟨n - 1, by omega⟩
  have hmin : min (k + 1) (C - 1) % 256 = k + 1 := by
    rw [Nat.min_eq_left hn]
    exact Nat.mod_eq_of_lt (by omega)
  have hL1 : (k + 1 + 1) % 256 = k + 1 + 1 := Nat.mod_eq_of_lt (by omega)
  have hbuf : memcpy ((List.replicate C 0).set 0 S) 1 Data (k + 1) =
      S :: Data ++ List.replicate (C - 1 - (k + 1)) 0 := by
    rw [replicate_set_zero C S (by omega)]
    simp only [memcpy, List.take_succ_cons, List.take_zero, Nat.add_comm 1 (k + 1),
      List.drop_succ_cons, List.drop_replicate, List.cons_append, List.nil_append]
    rw [List.take_of_length_le (by omega)]
  simp only [HT1382_WriteRegs, HT1382_WriteRegs_loop, hS, hmin, hL1, hbuf,
    Nat.add_one_ne_zero, if_false, Nat.sub_self, Nat.zero_mod, if_true]
  split_ifs <;> rfl

/-! ## Failure after write-protection has been cleared -/

theorem faulty_Send (fails : Nat → Bool) :
    (faultyHandler fails).Platform.Send = some (fun st Address Data Len =>
      if fails st.2 then ((st.1, st.2 + 1), -1)
      else (((RegStore.send st.1 Address Data Len).1, st.2 + 1), 0)) :=
  rfl

theorem faulty_Receive (fails : Nat → Bool) :
    (faultyHandler fails).Platform.Receive = some (fun st Address Data Len =>
      if fails st.2 then ((st.1, st.2 + 1), -1, Data)
      else (((RegStore.receive st.1 Address Data Len).1, st.2 + 1), 0,
        (RegStore.receive st.1 Address Data Len).2.2)) :=
  rfl

/-- With the default send buffer size, when the clear-protect send succeeds
and the burst write send fails, `HT1382_SetDateTime` returns `HT1382_FAIL`
after these two sends: the store holds 0x00 in ST1 and nothing else is
changed. -/
theorem SetDateTime_faulty_burst (x : HT1382_DateTime) (hx : x.Valid) (fails : Nat → Bool)
    (st : RegStore) (h0 : fails 0 = false) (h1 : fails 1 = true) :
    HT1382_SetDateTime HT1382_SEND_BUFFER_SIZE (recording (faultyHandler fails)) ((st, 0), []) x =
      some (((⟨RegStore.write st.regs HT1382_REG_ADDR_ST1 [0], HT1382_REG_ADDR_ST1⟩, 2),
        [Call.send HT1382_ADDRESS [0x07, 0x00],
          Call.send HT1382_ADDRESS (0x00 :: HT1382_SetDateTime_Buffer x)]), .HT1382_FAIL) := by
  have hS := recording_Send (faultyHandler fails) _ (faulty_Send fails)
  have hb : (HT1382_SetDateTime_Buffer x ++ [0]).take 7 = HT1382_SetDateTime_Buffer x := by
    rw [SetDateTime_Buffer_eq]
    rfl
  simp only [HT1382_SetDateTime, if_neg (not_out_of_range_of_valid x hx),
    HT1382_WriteProtection, HT1382_SEND_BUFFER_SIZE, if_neg (by decide : ¬ (0 : Nat) ≠ 0),
    WriteRegs_single 9 (recording (faultyHandler fails)) _ hS _ _ [0] 1 rfl (by decide)
      (by decide) (by decide),
    WriteRegs_single 9 (recording (faultyHandler fails)) _ hS _ _ (HT1382_SetDateTime_Buffer x) 7
      (SetDateTime_Buffer_length x) (by decide) (by decide) (by decide)]
  simp [h0, h1, RegStore.send, HT1382_REG_ADDR_ST1, HT1382_REG_ADDR_SECONDS, hb]

/-- With the default send buffer size, when the read of the INT register and
the clear-protect send succeed and the write of the INT register fails,
`HT1382_SetOutWave` returns `HT1382_FAIL` after these four calls. -/
theorem SetOutWave_faulty_write (m : Nat) (hm : m ≤ 15) (fails : Nat → Bool) (st : RegStore)
    (h0 : fails 0 = false) (h1 : fails 1 = false) (h2 : fails 2 = false)
    (h3 : fails 3 = true) :
    HT1382_SetOutWave HT1382_SEND_BUFFER_SIZE (recording (faultyHandler fails)) ((st, 0), []) m =
      some (((⟨RegStore.write st.regs HT1382_REG_ADDR_ST1 [0], HT1382_REG_ADDR_ST1⟩, 4),
        [Call.send HT1382_ADDRESS [0x09], Call.receive HT1382_ADDRESS 1,
          Call.send HT1382_ADDRESS [0x07, 0x00],
          Call.send HT1382_ADDRESS [0x09, (st.regs HT1382_REG_ADDR_INT &&& 0xF0) ||| m]]),
        .HT1382_FAIL) := by
  have hS := recording_Send (faultyHandler fails) _ (faulty_Send fails)
  have hR := recording_Receive (faultyHandler fails) _ (faulty_Receive fails)
  have hm' : ¬ m > HT1382_OUTWAVE_1_32HZ := by simp only [HT1382_OUTWAVE_1_32HZ]; omega
  simp only [HT1382_SetOutWave, if_neg hm', HT1382_WriteProtection, HT1382_SEND_BUFFER_SIZE,
    ReadRegs_eq (recording (faultyHandler fails)) _ _ hS hR,
    WriteRegs_one 9 (by decide) (recording (faultyHandler fails)) _ hS,
    outWave_byte_eq _ m hm]
  simp [h0, h1, h2, h3, RegStore.send, RegStore.receive, RegStore.write, HT1382_REG_ADDR_ST1,
    HT1382_REG_ADDR_INT, List.range, List.range.loop]

theorem OpOutcome_fail_of_failed (log : List (Call × Int)) (res : HT1382_Result)
    (h : OpOutcome log res) (hf : ∃ e ∈ log, e.2 < 0) : res = .HT1382_FAIL := by
  obtain ⟨e, he, hneg⟩ := hf
  rcases h with ⟨_, rfl⟩ | ⟨_, hk⟩ | ⟨hr, _⟩
  · simp at he
  · have := hk e he
    omega
  · exact hr

theorem OpOutcome_no_retry (log : List (Call × Int)) (res : HT1382_Result)
    (h : OpOutcome log res) (i : Nat) (e : Call × Int) (hi : log[i]? = some e)
    (hneg : e.2 < 0) : i + 1 = log.length ∧ res = .HT1382_FAIL := by
  refine ⟨?_, OpOutcome_fail_of_failed log res h ⟨e, List.getElem?_mem hi, hneg⟩⟩
  rcases h with ⟨_, rfl⟩ | ⟨_, hk⟩ | ⟨_, hf⟩
  · simp at hi
  · have := hk e (List.getElem?_mem hi)
    omega
  · exact FailsLast_index log hf i e hi hneg

theorem AddressOk_send (a : Nat) (d : List Nat) (h : (Call.send a d).AddressOk) :
    a = HT1382_ADDRESS :=
  h

theorem AddressOk_receive (a n : Nat) (h : (Call.receive a n).AddressOk) :
    a = HT1382_ADDRESS :=
  h

/-! ## Error handling of the public operations -/

/-- C17 (amended): for every public operation (Init, DeInit, SetDateTime,
GetDateTime, SetOutWave), if any transport-layer call it makes (send, receive,
init hook, deinit hook) returns a negative value, the operation returns
HT1382_FAIL. -/
theorem C17_failure_surfaces {σ : Type} (C : Nat) (hC : 2 ≤ C) (H : HT1382_Handler σ)
    (send : σ → Nat → List Nat → Nat → σ × Int)
    (recv : σ → Nat → List Nat → Nat → σ × Int × List Nat)
    (hS : H.Platform.Send = some send) (hR : H.Platform.Receive = some recv)
    (s : σ) (x dt0 : HT1382_DateTime) (m : Nat) :
    ((∃ e ∈ (HT1382_Init (tracing H) (s, [])).1.2, e.2 < 0) →
      (HT1382_Init (tracing H) (s, [])).2 = .HT1382_FAIL) ∧
    ((∃ e ∈ (HT1382_DeInit (tracing H) (s, [])).1.2, e.2 < 0) →
      (HT1382_DeInit (tracing H) (s, [])).2 = .HT1382_FAIL) ∧
    (∃ s' log res, HT1382_SetDateTime C (tracing H) (s, []) x = some ((s', log), res) ∧
      ((∃ e ∈ log, e.2 < 0) → res = .HT1382_FAIL)) ∧
    (∃ s' log res dt, HT1382_GetDateTime (tracing H) (s, []) dt0 = some ((s', log), res, dt) ∧
      ((∃ e ∈ log, e.2 < 0) → res = .HT1382_FAIL)) ∧
    (∃ s' log res, HT1382_SetOutWave C (tracing H) (s, []) m = some ((s', log), res) ∧
      ((∃ e ∈ log, e.2 < 0) → res = .HT1382_FAIL)) := by
  refine ⟨OpOutcome_fail_of_failed _ _ (Init_tracing H s).1,
    OpOutcome_fail_of_failed _ _ (DeInit_tracing H s).1, ?_, ?_, ?_⟩
  · obtain ⟨s', log, res, h, ho, _⟩ := SetDateTime_tracing C hC H send hS s x
    exact ⟨s', log, res, h, OpOutcome_fail_of_failed log res ho⟩
  · obtain ⟨s', log, res, dt, h, ho, _⟩ := GetDateTime_tracing H send recv hS hR s dt0
    exact ⟨s', log, res, dt, h, OpOutcome_fail_of_failed log res ho⟩
  · obtain ⟨s', log, res, h, ho, _⟩ := SetOutWave_tracing C hC H send recv hS hR s m
    exact ⟨s', log, res, h, OpOutcome_fail_of_failed log res ho⟩

theorem C17_failure_surfaces_witness :
    (∃ s' log res, HT1382_SetDateTime HT1382_SEND_BUFFER_SIZE (tracing (codeHandler (-2)))
        (0, []) exampleDateTime = some ((s', log), res) ∧
      ((∃ e ∈ log, e.2 < 0) → res = .HT1382_FAIL)) ∧
    HT1382_SetDateTime HT1382_SEND_BUFFER_SIZE (tracing (codeHandler (-2))) (0, [])
        exampleDateTime =
      some ((1, [(Call.send HT1382_ADDRESS [0x07, 0x00], -2)]), .HT1382_FAIL) :=
  ⟨(C17_failure_surfaces HT1382_SEND_BUFFER_SIZE (by decide) (codeHandler (-2)) _ _ rfl rfl 0
      exampleDateTime exampleDateTime 10).2.2.1,
    rfl⟩

/-- C17 as stated fails for the code 1, a value other than the success value
0: every platform function of the handler returns 1, and HT1382_Init,
HT1382_DeInit, HT1382_SetDateTime, HT1382_GetDateTime and HT1382_SetOutWave
all return HT1382_OK, not HT1382_FAIL. -/
theorem C17_counterexample :
    HT1382_Init (tracing (codeHandler 1)) (0, []) = ((1, [(Call.init, 1)]), .HT1382_OK) ∧
    HT1382_DeInit (tracing (codeHandler 1)) (0, []) = ((1, [(Call.deinit, 1)]), .HT1382_OK) ∧
    HT1382_SetDateTime HT1382_SEND_BUFFER_SIZE (tracing (codeHandler 1)) (0, [])
        exampleDateTime =
      some ((3, [(Call.send HT1382_ADDRESS [0x07, 0x00], 1),
        (Call.send HT1382_ADDRESS [0x00, 0x00, 0x02, 0x10, 0x23, 0x11, 0x05, 0x23], 1),
        (Call.send HT1382_ADDRESS [0x07, 0x80], 1)]), .HT1382_OK) ∧
    HT1382_GetDateTime (tracing (codeHandler 1)) (0, []) exampleDateTime =
      some ((2, [(Call.send HT1382_ADDRESS [0x00], 1), (Call.receive HT1382_ADDRESS 7, 1)]),
        .HT1382_OK, ⟨0, 0, 0, 0, 0, 0, 0⟩) ∧
    (HT1382_SetOutWave HT1382_SEND_BUFFER_SIZE (tracing (codeHandler 1)) (0, []) 10).map
        (fun r => r.2) = some .HT1382_OK ∧
    ¬ ((∃ e ∈ (HT1382_Init (tracing (codeHandler 1)) (0, [])).1.2, e.2 ≠ 0) →
      (HT1382_Init (tracing (codeHandler 1)) (0, [])).2 = .HT1382_FAIL) := by
  refine ⟨rfl, rfl, rfl, rfl, rfl, ?_⟩
  intro h
  have := h ⟨(Call.init, 1), by decide, by decide⟩
  exact absurd this (by decide)

/-- C18: the core performs no retries and no recovery: in every public
operation a transport call that reports failure (a negative code) is the last
call the operation issues, and the operation returns HT1382_FAIL.  With the
default send buffer size, when the burst write of HT1382_SetDateTime or the
INT write of HT1382_SetOutWave fails after write-protection has been cleared,
the failed send is the last call logged: no write of 0x80 to ST1 follows. -/
theorem C18_no_retry {σ : Type} (C : Nat) (hC : 2 ≤ C) (H : HT1382_Handler σ)
    (send : σ → Nat → List Nat → Nat → σ × Int)
    (recv : σ → Nat → List Nat → Nat → σ × Int × List Nat)
    (hS : H.Platform.Send = some send) (hR : H.Platform.Receive = some recv)
    (s : σ) (x dt0 : HT1382_DateTime) (m : Nat) :
    (∀ i e, (HT1382_Init (tracing H) (s, [])).1.2[i]? = some e → e.2 < 0 →
      i + 1 = (HT1382_Init (tracing H) (s, [])).1.2.length ∧
        (HT1382_Init (tracing H) (s, [])).2 = .HT1382_FAIL) ∧
    (∀ i e, (HT1382_DeInit (tracing H) (s, [])).1.2[i]? = some e → e.2 < 0 →
      i + 1 = (HT1382_DeInit (tracing H) (s, [])).1.2.length ∧
        (HT1382_DeInit (tracing H) (s, [])).2 = .HT1382_FAIL) ∧
    (∃ s' log res, HT1382_SetDateTime C (tracing H) (s, []) x = some ((s', log), res) ∧
      ∀ i e, log[i]? = some e → e.2 < 0 → i + 1 = log.length ∧ res = .HT1382_FAIL) ∧
    (∃ s' log res dt, HT1382_GetDateTime (tracing H) (s, []) dt0 = some ((s', log), res, dt) ∧
      ∀ i e, log[i]? = some e → e.2 < 0 → i + 1 = log.length ∧ res = .HT1382_FAIL) ∧
    (∃ s' log res, HT1382_SetOutWave C (tracing H) (s, []) m = some ((s', log), res) ∧
      ∀ i e, log[i]? = some e → e.2 < 0 → i + 1 = log.length ∧ res = .HT1382_FAIL) ∧
    (x.Valid → ∀ (fails : Nat → Bool) (st : RegStore), fails 0 = false → fails 1 = true →
      ∃ st', HT1382_SetDateTime HT1382_SEND_BUFFER_SIZE (recording (faultyHandler fails))
          ((st, 0), []) x =
        some ((st', [Call.send HT1382_ADDRESS [0x07, 0x00],
          Call.send HT1382_ADDRESS (0x00 :: HT1382_SetDateTime_Buffer x)]), .HT1382_FAIL)) ∧
    (m ≤ 15 → ∀ (fails : Nat → Bool) (st : RegStore), fails 0 = false → fails 1 = false →
      fails 2 = false → fails 3 = true →
      ∃ st', HT1382_SetOutWave HT1382_SEND_BUFFER_SIZE (recording (faultyHandler fails))
          ((st, 0), []) m =
        some ((st', [Call.send HT1382_ADDRESS [0x09], Call.receive HT1382_ADDRESS 1,
          Call.send HT1382_ADDRESS [0x07, 0x00],
          Call.send HT1382_ADDRESS [0x09, (st.regs HT1382_REG_ADDR_INT &&& 0xF0) ||| m]]),
          .HT1382_FAIL)) := by
  refine ⟨OpOutcome_no_retry _ _ (Init_tracing H s).1,
    OpOutcome_no_retry _ _ (DeInit_tracing H s).1, ?_, ?_, ?_, ?_, ?_⟩
  · obtain ⟨s', log, res, h, ho, _⟩ := SetDateTime_tracing C hC H send hS s x
    exact ⟨s', log, res, h, OpOutcome_no_retry log res ho⟩
  · obtain ⟨s', log, res, dt, h, ho, _⟩ := GetDateTime_tracing H send recv hS hR s dt0
    exact ⟨s', log, res, dt, h, OpOutcome_no_retry log res ho⟩
  · obtain ⟨s', log, res, h, ho, _⟩ := SetOutWave_tracing C hC H send recv hS hR s m
    exact ⟨s', log, res, h, OpOutcome_no_retry log res ho⟩
  · intro hx fails st h0 h1
    exact ⟨_, SetDateTime_faulty_burst x hx fails st h0 h1⟩
  · intro hm fails st h0 h1 h2 h3
    exact ⟨_, SetOutWave_faulty_write m hm fails st h0 h1 h2 h3⟩

theorem C18_no_retry_witness :
    (∃ s' log res, HT1382_SetOutWave HT1382_SEND_BUFFER_SIZE (tracing nackHandler)
        (intStore, []) 10 = some ((s', log), res) ∧
      ∀ i e, log[i]? = some e → e.2 < 0 → i + 1 = log.length ∧ res = .HT1382_FAIL) ∧
    (HT1382_SetOutWave HT1382_SEND_BUFFER_SIZE (tracing nackHandler) (intStore, []) 10).map
        (fun r => (r.1.2, r.2)) =
      some ([(Call.send HT1382_ADDRESS [0x09], 0), (Call.receive HT1382_ADDRESS 1, -3)],
        .HT1382_FAIL) ∧
    (∃ st', HT1382_SetDateTime HT1382_SEND_BUFFER_SIZE
        (recording (faultyHandler fun k => decide (k = 1))) ((protectedStore, 0), [])
        exampleDateTime =
      some ((st', [Call.send HT1382_ADDRESS [0x07, 0x00],
        Call.send HT1382_ADDRESS (0x00 :: HT1382_SetDateTime_Buffer exampleDateTime)]),
        .HT1382_FAIL)) :=
  ⟨(C18_no_retry HT1382_SEND_BUFFER_SIZE (by decide) nackHandler _ _ rfl rfl intStore
      exampleDateTime exampleDateTime 10).2.2.2.2.1,
    rfl,
    (C18_no_retry HT1382_SEND_BUFFER_SIZE (by decide) nackHandler _ _ rfl rfl intStore
      exampleDateTime exampleDateTime 10).2.2.2.2.2.1 (by decide) (fun k => decide (k = 1))
      protectedStore (by decide) (by decide)⟩

/-- The store left by `HT1382_SetDateTime` with the default send buffer size
when the clear-protect send succeeds and the burst write send fails. -/
theorem SetDateTime_faulty_burst_store (x : HT1382_DateTime) (hx : x.Valid)
    (fails : Nat → Bool) (st : RegStore) (h0 : fails 0 = false) (h1 : fails 1 = true) :
    HT1382_SetDateTime HT1382_SEND_BUFFER_SIZE (faultyHandler fails) (st, 0) x =
      some ((⟨RegStore.write st.regs HT1382_REG_ADDR_ST1 [0], HT1382_REG_ADDR_ST1⟩, 2),
        .HT1382_FAIL) := by
  simp only [HT1382_SetDateTime, if_neg (not_out_of_range_of_valid x hx),
    HT1382_WriteProtection, HT1382_SEND_BUFFER_SIZE, if_neg (by decide : ¬ (0 : Nat) ≠ 0),
    WriteRegs_single 9 (faultyHandler fails) _ (faulty_Send fails) _ _ [0] 1 rfl (by decide)
      (by decide) (by decide),
    WriteRegs_single 9 (faultyHandler fails) _ (faulty_Send fails) _ _
      (HT1382_SetDateTime_Buffer x) 7 (SetDateTime_Buffer_length x) (by decide) (by decide)
      (by decide)]
  simp [h0, h1, RegStore.send, HT1382_REG_ADDR_ST1]

/-- C19 (amended): in HT1382_SetDateTime (default send buffer size), if the
clear-protect write succeeds and the burst write then fails, the operation
returns HT1382_FAIL and write-protection is left disabled: on the simulated
register store ST1 (register 0x07) holds 0x00, its write-protect bit 7 clear,
and no other register is changed.  The bracket clear-protect, data write,
re-assert-protect ends in the protected state (ST1 = 0x80) when all three
writes succeed. -/
theorem C19_burst_failure_leaves_unprotected (x : HT1382_DateTime) (hx : x.Valid)
    (fails : Nat → Bool) (st : RegStore) (h0 : fails 0 = false) (h1 : fails 1 = true) :
    (∃ st' k, HT1382_SetDateTime HT1382_SEND_BUFFER_SIZE (faultyHandler fails) (st, 0) x =
        some ((st', k), .HT1382_FAIL) ∧
      st'.regs HT1382_REG_ADDR_ST1 = 0x00 ∧
      Nat.testBit (st'.regs HT1382_REG_ADDR_ST1) HT1382_ST1_WP = false ∧
      ∀ r, r ≠ HT1382_REG_ADDR_ST1 → st'.regs r = st.regs r) ∧
    (∃ st', HT1382_SetDateTime HT1382_SEND_BUFFER_SIZE simHandler st x =
        some (st', .HT1382_OK) ∧
      st'.regs HT1382_REG_ADDR_ST1 = 0x80 ∧
      Nat.testBit (st'.regs HT1382_REG_ADDR_ST1) HT1382_ST1_WP = true) := by
  constructor
  · refine ⟨_, _, SetDateTime_faulty_burst_store x hx fails st h0 h1, ?_, ?_, ?_⟩
    · simp [RegStore.write, HT1382_REG_ADDR_ST1]
    · simp [RegStore.write, HT1382_REG_ADDR_ST1]
    · intro r hr
      simp only [HT1382_REG_ADDR_ST1] at hr
      simp [RegStore.write, HT1382_REG_ADDR_ST1, Function.update, hr]
  · obtain ⟨p, hp⟩ := SetDateTime_sim HT1382_SEND_BUFFER_SIZE (by decide) st x hx
    have h7 : RegStore.write (RegStore.write (RegStore.write st.regs HT1382_REG_ADDR_ST1 [0])
        HT1382_REG_ADDR_SECONDS (HT1382_SetDateTime_Buffer x)) HT1382_REG_ADDR_ST1 [0x80]
        HT1382_REG_ADDR_ST1 = 0x80 :=
      RegStore_write_get [0x80]
        (RegStore.write (RegStore.write st.regs HT1382_REG_ADDR_ST1 [0])
          HT1382_REG_ADDR_SECONDS (HT1382_SetDateTime_Buffer x)) HT1382_REG_ADDR_ST1 0
        (by decide) (by decide)
    refine ⟨_, hp, h7, ?_⟩
    simp only [h7]
    decide

theorem C19_burst_failure_leaves_unprotected_witness :
    (exampleDateTime.Valid ∧ (fun k => decide (k = 1)) 0 = false ∧
      (fun k => decide (k = 1)) 1 = true) ∧
    HT1382_SetDateTime HT1382_SEND_BUFFER_SIZE (faultyHandler fun k => decide (k = 1))
        (protectedStore, 0) exampleDateTime =
      some ((⟨RegStore.write protectedStore.regs HT1382_REG_ADDR_ST1 [0], HT1382_REG_ADDR_ST1⟩,
        2), .HT1382_FAIL) ∧
    (∃ st' k, HT1382_SetDateTime HT1382_SEND_BUFFER_SIZE (faultyHandler fun k => decide (k = 1))
        (protectedStore, 0) exampleDateTime = some ((st', k), .HT1382_FAIL) ∧
      st'.regs HT1382_REG_ADDR_ST1 = 0x00 ∧
      Nat.testBit (st'.regs HT1382_REG_ADDR_ST1) HT1382_ST1_WP = false ∧
      ∀ r, r ≠ HT1382_REG_ADDR_ST1 → st'.regs r = protectedStore.regs r) :=
  ⟨by decide, rfl,
    (C19_burst_failure_leaves_unprotected exampleDateTime (by decide)
      (fun k => decide (k = 1)) protectedStore (by decide) (by decide)).1⟩

/-- C19 as stated fails: starting from a write-protected store (ST1 = 0x80),
with a transport whose second call (the burst write) fails, HT1382_SetDateTime
returns HT1382_FAIL and the store is left with ST1 = 0x00, the write-protect
bit clear. -/
theorem C19_counterexample :
    exampleDateTime.Valid ∧
    Nat.testBit (protectedStore.regs HT1382_REG_ADDR_ST1) HT1382_ST1_WP = true ∧
    ∃ st', HT1382_SetDateTime HT1382_SEND_BUFFER_SIZE (faultyHandler fun k => decide (k = 1))
        (protectedStore, 0) exampleDateTime = some ((st', 2), .HT1382_FAIL) ∧
      st'.regs HT1382_REG_ADDR_ST1 = 0x00 ∧
      ¬ Nat.testBit (st'.regs HT1382_REG_ADDR_ST1) HT1382_ST1_WP = true :=
  ⟨by decide, by decide,
    ⟨RegStore.write protectedStore.regs HT1382_REG_ADDR_ST1 [0], HT1382_REG_ADDR_ST1⟩, rfl,
    by decide, by decide⟩

/-- C20: every send and every receive call issued by any public operation is
passed the slave address 0x68, which lies in the 7-bit range 0..127; the hooks
of HT1382_Init and HT1382_DeInit are the only calls those two make. -/
theorem C20_slave_address {σ : Type} (C : Nat) (hC : 2 ≤ C) (H : HT1382_Handler σ)
    (send : σ → Nat → List Nat → Nat → σ × Int)
    (recv : σ → Nat → List Nat → Nat → σ × Int × List Nat)
    (hS : H.Platform.Send = some send) (hR : H.Platform.Receive = some recv)
    (s : σ) (x dt0 : HT1382_DateTime) (m : Nat) :
    (HT1382_ADDRESS = 0x68 ∧ HT1382_ADDRESS ≤ 127) ∧
    (∀ e ∈ (HT1382_Init (tracing H) (s, [])).1.2, e.1 = Call.init) ∧
    (∀ e ∈ (HT1382_DeInit (tracing H) (s, [])).1.2, e.1 = Call.deinit) ∧
    (∃ s' log res, HT1382_SetDateTime C (tracing H) (s, []) x = some ((s', log), res) ∧
      ∀ e ∈ log, (∀ a d, e.1 = Call.send a d → a = 0x68) ∧
        (∀ a n, e.1 = Call.receive a n → a = 0x68)) ∧
    (∃ s' log res dt, HT1382_GetDateTime (tracing H) (s, []) dt0 = some ((s', log), res, dt) ∧
      ∀ e ∈ log, (∀ a d, e.1 = Call.send a d → a = 0x68) ∧
        (∀ a n, e.1 = Call.receive a n → a = 0x68)) ∧
    (∃ s' log res, HT1382_SetOutWave C (tracing H) (s, []) m = some ((s', log), res) ∧
      ∀ e ∈ log, (∀ a d, e.1 = Call.send a d → a = 0x68) ∧
        (∀ a n, e.1 = Call.receive a n → a = 0x68)) := by
  have key : ∀ log : List (Call × Int), AllAddressed log →
      ∀ e ∈ log, (∀ a d, e.1 = Call.send a d → a = 0x68) ∧
        (∀ a n, e.1 = Call.receive a n → a = 0x68) := by
    intro log hl e he
    have h := hl e he
    constructor
    · intro a d hd
      rw [hd] at h
      exact AddressOk_send a d h
    · intro a n hn
      rw [hn] at h
      exact AddressOk_receive a n h
  refine ⟨⟨rfl, by decide⟩, ?_, ?_, ?_, ?_, ?_⟩
  · intro e he
    unfold HT1382_Init at he
    split_ifs at he
    · simp at he
    · cases hI : H.Platform.Init with
      | none => simp [tracing, hI] at he
      | some hook =>
        simp only [tracing, hI, Option.map_some'] at he
        split_ifs at he <;> simp at he <;> rw [he]
  · intro e he
    unfold HT1382_DeInit at he
    cases hD : H.Platform.DeInit with
    | none => simp [tracing, hD] at he
    | some hook =>
      simp only [tracing, hD, Option.map_some'] at he
      split_ifs at he <;> simp at he <;> rw [he]
  · obtain ⟨s', log, res, h, _, ha⟩ := SetDateTime_tracing C hC H send hS s x
    exact ⟨s', log, res, h, key log ha⟩
  · obtain ⟨s', log, res, dt, h, _, ha⟩ := GetDateTime_tracing H send recv hS hR s dt0
    exact ⟨s', log, res, dt, h, key log ha⟩
  · obtain ⟨s', log, res, h, _, ha⟩ := SetOutWave_tracing C hC H send recv hS hR s m
    exact ⟨s', log, res, h, key log ha⟩

theorem C20_slave_address_witness :
    (∃ s' log res, HT1382_SetOutWave HT1382_SEND_BUFFER_SIZE (tracing simHandler)
        (intStore, []) 10 = some ((s', log), res) ∧
      ∀ e ∈ log, (∀ a d, e.1 = Call.send a d → a = 0x68) ∧
        (∀ a n, e.1 = Call.receive a n → a = 0x68)) ∧
    (HT1382_SetOutWave HT1382_SEND_BUFFER_SIZE (tracing simHandler) (intStore, []) 10).map
        (fun r => r.1.2.map fun e => e.1) =
      some [Call.send 0x68 [0x09], Call.receive 0x68 1, Call.send 0x68 [0x07, 0x00],
        Call.send 0x68 [0x09, 0xCA], Call.send 0x68 [0x07, 0x80], Call.send 0x68 [0x09],
        Call.receive 0x68 1] :=
  ⟨(C20_slave_address HT1382_SEND_BUFFER_SIZE (by decide) simHandler _ _ rfl rfl intStore
      exampleDateTime exampleDateTime 10).2.2.2.2.2,
    rfl⟩

/-! ## Register codec, nibble by nibble -/

/-- C22: for every value v in 0..99, HT1382_DECtoBCD v packs the tens digit
into the high nibble and the ones digit into the low nibble: the result is
16 * (v / 10) + (v mod 10), and both nibbles are at most 9. -/
theorem C22_DECtoBCD_packs (v : Nat) (hv : v ≤ 99) :
    HT1382_DECtoBCD v = 16 * (v / 10) + v % 10 ∧
    HT1382_DECtoBCD v / 16 = v / 10 ∧ HT1382_DECtoBCD v % 16 = v % 10 ∧
    HT1382_DECtoBCD v / 16 ≤ 9 ∧ HT1382_DECtoBCD v % 16 ≤ 9 := by
  interval_cases v <;> decide

theorem C22_DECtoBCD_packs_witness :
    (47 : Nat) ≤ 99 ∧ HT1382_DECtoBCD 47 = 0x47 ∧
    (HT1382_DECtoBCD 47 = 16 * (47 / 10) + 47 % 10 ∧
      HT1382_DECtoBCD 47 / 16 = 47 / 10 ∧ HT1382_DECtoBCD 47 % 16 = 47 % 10 ∧
      HT1382_DECtoBCD 47 / 16 ≤ 9 ∧ HT1382_DECtoBCD 47 % 16 ≤ 9) :=
  ⟨by decide, by decide, C22_DECtoBCD_packs 47 (by decide)⟩

set_option maxRecDepth 100000 in
theorem DECtoBCD_BCDtoDEC_of_lt :
    ∀ b < 160, b / 16 ≤ 9 → b % 16 ≤ 9 →
      HT1382_BCDtoDEC b ≤ 99 ∧ HT1382_BCDtoDEC b = 10 * (b / 16) + b % 16 ∧
        HT1382_DECtoBCD (HT1382_BCDtoDEC b) = b := by
  decide

/-- C23: HT1382_BCDtoDEC is the inverse of HT1382_DECtoBCD on valid BCD bytes:
for every byte b whose two nibbles are both at most 9, HT1382_BCDtoDEC b lies
in 0..99, it is 10 * high nibble + low nibble, and HT1382_DECtoBCD of it is b
again. -/
theorem C23_BCDtoDEC_inverse (b : Nat) (hhi : b / 16 ≤ 9) (hlo : b % 16 ≤ 9) :
    HT1382_BCDtoDEC b ≤ 99 ∧ HT1382_BCDtoDEC b = 10 * (b / 16) + b % 16 ∧
      HT1382_DECtoBCD (HT1382_BCDtoDEC b) = b :=
  DECtoBCD_BCDtoDEC_of_lt b (by omega) hhi hlo

theorem C23_BCDtoDEC_inverse_witness :
    ((0x59 : Nat) / 16 ≤ 9 ∧ (0x59 : Nat) % 16 ≤ 9) ∧ HT1382_BCDtoDEC 0x59 = 59 ∧
    (HT1382_BCDtoDEC 0x59 ≤ 99 ∧ HT1382_BCDtoDEC 0x59 = 10 * (0x59 / 16) + 0x59 % 16 ∧
      HT1382_DECtoBCD (HT1382_BCDtoDEC 0x59) = 0x59) :=
  ⟨by decide, by decide, C23_BCDtoDEC_inverse 0x59 (by decide) (by decide)⟩

/-! ## Register reads -/

/-- C24: a register read is two transport operations: for every start register
and count N, when the address send succeeds HT1382_ReadRegs issues exactly one
send of the single start-register address byte followed by exactly one receive
of N bytes; for HT1382_GetDateTime these are send [0x00] then receive of 7
bytes, and no other call is logged. -/
theorem C24_read_is_two_calls {σ : Type} (H : HT1382_Handler σ)
    (send : σ → Nat → List Nat → Nat → σ × Int)
    (recv : σ → Nat → List Nat → Nat → σ × Int × List Nat)
    (hS : H.Platform.Send = some send) (hR : H.Platform.Receive = some recv)
    (s : σ) (S : Nat) (Data : List Nat) (N : Nat) (dt0 : HT1382_DateTime)
    (hsend : ∀ a, (send s HT1382_ADDRESS [a] 1).2 = 0) :
    (∃ s' r buf, HT1382_ReadRegs (recording H) (s, []) S Data N =
      some ((s', [Call.send HT1382_ADDRESS [S], Call.receive HT1382_ADDRESS N]), r, buf)) ∧
    (∃ s' res dt, HT1382_GetDateTime (recording H) (s, []) dt0 =
      some ((s', [Call.send HT1382_ADDRESS [0x00], Call.receive HT1382_ADDRESS 7]), res, dt)) := by
  have hread : ∀ (S : Nat) (Data : List Nat) (N : Nat),
      ∃ s' r buf, HT1382_ReadRegs (recording H) (s, []) S Data N =
        some ((s', [Call.send HT1382_ADDRESS [S], Call.receive HT1382_ADDRESS N]), r, buf) ∧
        (r = 0 ∨ r = -1) := by
    intro S Data N
    rw [ReadRegs_eq (recording H) _ _ (recording_Send H send hS) (recording_Receive H recv hR)]
    simp only [hsend, lt_self_iff_false, if_false]
    by_cases h2 : (recv (send s HT1382_ADDRESS [S] 1).1 HT1382_ADDRESS Data N).2.1 < 0
    · rw [if_pos h2]
      exact ⟨(recv (send s HT1382_ADDRESS [S] 1).1 HT1382_ADDRESS Data N).1, -1,
        (recv (send s HT1382_ADDRESS [S] 1).1 HT1382_ADDRESS Data N).2.2, rfl, Or.inr rfl⟩
    · rw [if_neg h2]
      exact ⟨(recv (send s HT1382_ADDRESS [S] 1).1 HT1382_ADDRESS Data N).1, 0,
        (recv (send s HT1382_ADDRESS [S] 1).1 HT1382_ADDRESS Data N).2.2, rfl, Or.inl rfl⟩
  constructor
  · obtain ⟨s', r, buf, h, _⟩ := hread S Data N
    exact ⟨s', r, buf, h⟩
  · obtain ⟨s', r, buf, h, hr⟩ := hread HT1382_REG_ADDR_SECONDS (List.replicate 7 0) 7
    simp only [HT1382_GetDateTime, h]
    rcases hr with rfl | rfl
    · exact ⟨s', .HT1382_OK, HT1382_GetDateTime_decode buf, by simp [HT1382_REG_ADDR_SECONDS]⟩
    · exact ⟨s', .HT1382_FAIL, dt0, by simp [HT1382_REG_ADDR_SECONDS]⟩

theorem C24_read_is_two_calls_witness :
    (∃ s' r buf, HT1382_ReadRegs (recording simHandler) (intStore, []) HT1382_REG_ADDR_INT [0] 1 =
      some ((s', [Call.send HT1382_ADDRESS [0x09], Call.receive HT1382_ADDRESS 1]), r, buf)) ∧
    (∃ s' res dt, HT1382_GetDateTime (recording simHandler) (intStore, []) exampleDateTime =
      some ((s', [Call.send HT1382_ADDRESS [0x00], Call.receive HT1382_ADDRESS 7]), res, dt)) ∧
    HT1382_ReadRegs (recording simHandler) (intStore, []) HT1382_REG_ADDR_INT [0] 1 =
      some ((⟨intStore.regs, 0x09⟩,
        [Call.send HT1382_ADDRESS [0x09], Call.receive HT1382_ADDRESS 1]), 0, [0xC5]) :=
  ⟨(C24_read_is_two_calls simHandler RegStore.send RegStore.receive rfl rfl intStore
      HT1382_REG_ADDR_INT [0] 1 exampleDateTime (fun _ => RegStore_send_ok _ _ _ _)).1,
    (C24_read_is_two_calls simHandler RegStore.send RegStore.receive rfl rfl intStore
      HT1382_REG_ADDR_INT [0] 1 exampleDateTime (fun _ => RegStore_send_ok _ _ _ _)).2,
    rfl⟩

/-- No run of `HT1382_GetDateTime` yields `HT1382_INVALID_PARAM`. -/
theorem GetDateTime_ne_invalid {σ : Type} (H : HT1382_Handler σ) (s s' : σ)
    (dt0 dt : HT1382_DateTime) :
    HT1382_GetDateTime H s dt0 ≠ some (s', .HT1382_INVALID_PARAM, dt) := by
  simp only [HT1382_GetDateTime]
  rcases HT1382_ReadRegs H s HT1382_REG_ADDR_SECONDS (List.replicate 7 0) 7 with
    _ | ⟨s1, r1, b1⟩
  · simp
  · by_cases h1 : r1 < 0
    · simp [h1]
    · simp [h1]

/-- C25: HT1382_GetDateTime performs no validation of what the peripheral
returns: when both transport calls succeed it returns HT1382_OK whatever the
seven bytes received are, and it never returns HT1382_INVALID_PARAM; with a
weekday register of 0x00 or a minutes register of 0xFF the DateTime it returns
(WeekDay 0, Minute 165) is one that HT1382_SetDateTime rejects with
HT1382_INVALID_PARAM. -/
theorem C25_getDateTime_no_validation {σ : Type} (H : HT1382_Handler σ)
    (send : σ → Nat → List Nat → Nat → σ × Int)
    (recv : σ → Nat → List Nat → Nat → σ × Int × List Nat)
    (hS : H.Platform.Send = some send) (hR : H.Platform.Receive = some recv)
    (s : σ) (dt0 : HT1382_DateTime)
    (hsend : (send s HT1382_ADDRESS [HT1382_REG_ADDR_SECONDS] 1).2 = 0)
    (hrecv : (recv (send s HT1382_ADDRESS [HT1382_REG_ADDR_SECONDS] 1).1 HT1382_ADDRESS
      (List.replicate 7 0) 7).2.1 = 0) :
    (∃ s', HT1382_GetDateTime H s dt0 = some (s', .HT1382_OK,
      HT1382_GetDateTime_decode
        (recv (send s HT1382_ADDRESS [HT1382_REG_ADDR_SECONDS] 1).1 HT1382_ADDRESS
          (List.replicate 7 0) 7).2.2)) ∧
    (∀ (K : HT1382_Handler σ) (t t' : σ) (d0 d : HT1382_DateTime),
      HT1382_GetDateTime K t d0 ≠ some (t', .HT1382_INVALID_PARAM, d)) ∧
    (∀ (st : RegStore) (d0 : HT1382_DateTime), ∃ st' d,
      HT1382_GetDateTime simHandler st d0 = some (st', .HT1382_OK, d)) ∧
    (∃ st' d, HT1382_GetDateTime simHandler
        (listStore [0x00, 0x02, 0x10, 0x23, 0x11, 0x00, 0x23]) dt0 =
        some (st', .HT1382_OK, d) ∧ d.WeekDay = 0 ∧
      HT1382_SetDateTime HT1382_SEND_BUFFER_SIZE simHandler st' d =
        some (st', .HT1382_INVALID_PARAM)) ∧
    (∃ st' d, HT1382_GetDateTime simHandler
        (listStore [0x00, 0xFF, 0x10, 0x23, 0x11, 0x05, 0x23]) dt0 =
        some (st', .HT1382_OK, d) ∧ d.Minute = 165 ∧
      HT1382_SetDateTime HT1382_SEND_BUFFER_SIZE simHandler st' d =
        some (st', .HT1382_INVALID_PARAM)) := by
  refine ⟨⟨_, GetDateTime_of_success H send recv hS hR s dt0 hsend hrecv⟩,
    fun K t t' d0 d => GetDateTime_ne_invalid K t t' d0 d,
    fun st d0 => ⟨_, _, GetDateTime_sim st d0⟩, ?_, ?_⟩
  · refine ⟨_, _, GetDateTime_sim _ dt0, by decide, ?_⟩
    exact SetDateTime_out_of_range _ _ _ _ (by decide)
  · refine ⟨_, _, GetDateTime_sim _ dt0, by decide, ?_⟩
    exact SetDateTime_out_of_range _ _ _ _ (by decide)

theorem C25_getDateTime_no_validation_witness :
    (∃ s', HT1382_GetDateTime simHandler
        (listStore [0x00, 0xFF, 0x10, 0x23, 0x11, 0x00, 0x23]) exampleDateTime =
      some (s', .HT1382_OK,
        { Second := 0, Minute := 165, Hour := 10, WeekDay := 0, Day := 23, Month := 11,
          Year := 23 })) ∧
    HT1382_SetDateTime HT1382_SEND_BUFFER_SIZE simHandler zeroStore
        { Second := 0, Minute := 165, Hour := 10, WeekDay := 0, Day := 23, Month := 11,
          Year := 23 } = some (zeroStore, .HT1382_INVALID_PARAM) :=
  ⟨(C25_getDateTime_no_validation simHandler RegStore.send RegStore.receive rfl rfl
      (listStore [0x00, 0xFF, 0x10, 0x23, 0x11, 0x00, 0x23]) exampleDateTime rfl rfl).1,
    rfl⟩

/-! ## Registers touched by HT1382_SetDateTime -/

/-- C28: on the simulated register store, for every valid DateTime and every
initial store content, a successful HT1382_SetDateTime changes only registers
0x00..0x07: every register at address 0x08 or above is unchanged, registers
0x00..0x06 hold the encoded bytes, and ST1 (0x07) holds exactly 0x80 whatever
it held before. -/
theorem C28_setDateTime_frame (C : Nat) (hC : 2 ≤ C) (st : RegStore) (x : HT1382_DateTime)
    (hx : x.Valid) :
    ∃ st', HT1382_SetDateTime C simHandler st x = some (st', .HT1382_OK) ∧
      (∀ r, 0x08 ≤ r → st'.regs r = st.regs r) ∧
      st'.regs HT1382_REG_ADDR_ST1 = 0x80 ∧
      (∀ i, i < 7 → st'.regs i = (HT1382_SetDateTime_Buffer x).getD i 0) := by
  obtain ⟨p, hp⟩ := SetDateTime_sim C hC st x hx
  have hlen := SetDateTime_Buffer_length x
  refine ⟨_, hp, ?_, ?_, ?_⟩
  · intro r hr
    show RegStore.write (RegStore.write (RegStore.write st.regs HT1382_REG_ADDR_ST1 [0])
      HT1382_REG_ADDR_SECONDS (HT1382_SetDateTime_Buffer x)) HT1382_REG_ADDR_ST1 [0x80] r =
      st.regs r
    rw [RegStore_write_other [0x80] _ _ _ (fun j hj => by
        simp only [List.length_singleton] at hj
        simp only [HT1382_REG_ADDR_ST1]
        omega),
      RegStore_write_other (HT1382_SetDateTime_Buffer x) _ _ _ (fun j hj => by
        simp only [HT1382_REG_ADDR_SECONDS]
        omega),
      RegStore_write_other [0] _ _ _ (fun j hj => by
        simp only [List.length_singleton] at hj
        simp only [HT1382_REG_ADDR_ST1]
        omega)]
  · exact RegStore_write_get [0x80]
      (RegStore.write (RegStore.write st.regs HT1382_REG_ADDR_ST1 [0])
        HT1382_REG_ADDR_SECONDS (HT1382_SetDateTime_Buffer x)) HT1382_REG_ADDR_ST1 0
      (by decide) (by decide)
  · intro i hi
    show RegStore.write (RegStore.write (RegStore.write st.regs HT1382_REG_ADDR_ST1 [0])
      HT1382_REG_ADDR_SECONDS (HT1382_SetDateTime_Buffer x)) HT1382_REG_ADDR_ST1 [0x80] i =
      (HT1382_SetDateTime_Buffer x).getD i 0
    rw [RegStore_write_other [0x80] _ _ _ (fun j hj => by
        simp only [List.length_singleton] at hj
        simp only [HT1382_REG_ADDR_ST1]
        omega)]
    have h := RegStore_write_get (HT1382_SetDateTime_Buffer x)
      (RegStore.write st.regs HT1382_REG_ADDR_ST1 [0]) HT1382_REG_ADDR_SECONDS i
      (by omega) (by omega)
    rwa [show (HT1382_REG_ADDR_SECONDS + i) % 256 = i by
      simp only [HT1382_REG_ADDR_SECONDS]; omega] at h

theorem C28_setDateTime_frame_witness :
    (2 ≤ HT1382_SEND_BUFFER_SIZE ∧ exampleDateTime.Valid) ∧
    ∃ st', HT1382_SetDateTime HT1382_SEND_BUFFER_SIZE simHandler intStore exampleDateTime =
        some (st', .HT1382_OK) ∧
      (∀ r, 0x08 ≤ r → st'.regs r = intStore.regs r) ∧
      st'.regs HT1382_REG_ADDR_ST1 = 0x80 ∧
      (∀ i, i < 7 → st'.regs i = (HT1382_SetDateTime_Buffer exampleDateTime).getD i 0) :=
  ⟨by decide, C28_setDateTime_frame HT1382_SEND_BUFFER_SIZE (by decide) intStore
    exampleDateTime (by decide)⟩

/-! ## Who shifts the slave address -/

/-- C21 (amended): the core hands the slave address 0x68 unshifted to the
transport on every send and every receive; the left shift and the read/write
bit are applied by the transport port, which turns 0x68 into 0xD0 on a send
(`Platform_WriteData`) and into 0xD1 on a receive (`Platform_ReadData`). -/
theorem C21_address_shift_in_port {σ : Type} (C : Nat) (hC : 2 ≤ C) (H : HT1382_Handler σ)
    (send : σ → Nat → List Nat → Nat → σ × Int)
    (recv : σ → Nat → List Nat → Nat → σ × Int × List Nat)
    (hS : H.Platform.Send = some send) (hR : H.Platform.Receive = some recv)
    (s : σ) (x dt0 : HT1382_DateTime) (m : Nat) :
    (∃ s' log res, HT1382_SetDateTime C (tracing H) (s, []) x = some ((s', log), res) ∧
      ∀ e ∈ log, (∀ a d, e.1 = Call.send a d → a = 0x68 ∧ Platform_WriteData_Address a = 0xD0) ∧
        (∀ a n, e.1 = Call.receive a n → a = 0x68 ∧ Platform_ReadData_Address a = 0xD1)) ∧
    (∃ s' log res dt, HT1382_GetDateTime (tracing H) (s, []) dt0 = some ((s', log), res, dt) ∧
      ∀ e ∈ log, (∀ a d, e.1 = Call.send a d → a = 0x68 ∧ Platform_WriteData_Address a = 0xD0) ∧
        (∀ a n, e.1 = Call.receive a n → a = 0x68 ∧ Platform_ReadData_Address a = 0xD1)) ∧
    (∃ s' log res, HT1382_SetOutWave C (tracing H) (s, []) m = some ((s', log), res) ∧
      ∀ e ∈ log, (∀ a d, e.1 = Call.send a d → a = 0x68 ∧ Platform_WriteData_Address a = 0xD0) ∧
        (∀ a n, e.1 = Call.receive a n → a = 0x68 ∧ Platform_ReadData_Address a = 0xD1)) := by
  have key : ∀ log : List (Call × Int), AllAddressed log →
      ∀ e ∈ log, (∀ a d, e.1 = Call.send a d → a = 0x68 ∧ Platform_WriteData_Address a = 0xD0) ∧
        (∀ a n, e.1 = Call.receive a n → a = 0x68 ∧ Platform_ReadData_Address a = 0xD1) := by
    intro log hl e he
    have h := hl e he
    constructor
    · intro a d hd
      rw [hd] at h
      rw [AddressOk_send a d h]
      exact ⟨rfl, by decide⟩
    · intro a n hn
      rw [hn] at h
      rw [AddressOk_receive a n h]
      exact ⟨rfl, by decide⟩
  refine ⟨?_, ?_, ?_⟩
  · obtain ⟨s', log, res, h, _, ha⟩ := SetDateTime_tracing C hC H send hS s x
    exact ⟨s', log, res, h, key log ha⟩
  · obtain ⟨s', log, res, dt, h, _, ha⟩ := GetDateTime_tracing H send recv hS hR s dt0
    exact ⟨s', log, res, dt, h, key log ha⟩
  · obtain ⟨s', log, res, h, _, ha⟩ := SetOutWave_tracing C hC H send recv hS hR s m
    exact ⟨s', log, res, h, key log ha⟩

theorem C21_address_shift_in_port_witness :
    (∃ s' log res dt, HT1382_GetDateTime (tracing simHandler) (zeroStore, []) exampleDateTime =
        some ((s', log), res, dt) ∧
      ∀ e ∈ log, (∀ a d, e.1 = Call.send a d → a = 0x68 ∧ Platform_WriteData_Address a = 0xD0) ∧
        (∀ a n, e.1 = Call.receive a n → a = 0x68 ∧ Platform_ReadData_Address a = 0xD1)) ∧
    Platform_WriteData_Address 0x68 = 0xD0 ∧ Platform_ReadData_Address 0x68 = 0xD1 :=
  ⟨(C21_address_shift_in_port HT1382_SEND_BUFFER_SIZE (by decide) simHandler _ _ rfl rfl
      zeroStore exampleDateTime exampleDateTime 10).2.1,
    by decide, by decide⟩

/-- C21 as stated fails: the two calls of HT1382_GetDateTime are logged with
the address 0x68, not with 0xD0 for the send and 0xD1 for the receive. -/
theorem C21_counterexample :
    HT1382_GetDateTime (recording simHandler) (zeroStore, []) exampleDateTime =
      some ((⟨zeroStore.regs, 0⟩, [Call.send 0x68 [0x00], Call.receive 0x68 7]), .HT1382_OK,
        ⟨0, 0, 0, 0, 0, 0, 0⟩) ∧
    ¬ (∀ c ∈ [Call.send 0x68 [0x00], Call.receive 0x68 7],
      (∀ a d, c = Call.send a d → a = 0xD0) ∧ (∀ a n, c = Call.receive a n → a = 0xD1)) := by
  refine ⟨rfl, ?_⟩
  intro h
  have := (h (Call.send 0x68 [0x00]) (by simp)).1 0x68 [0x00] rfl
  exact absurd this (by decide)

/-! ## Termination and buffer bounds of the chunking loop -/

/-- With a send buffer of one byte no data byte fits: the loop never ends, no
amount of fuel gives a result when there is a byte to write and the sends
succeed. -/
theorem WriteRegs_loop_diverges_of_one {σ : Type} (H : HT1382_Handler σ)
    (send : σ → Nat → List Nat → Nat → σ × Int) (hS : H.Platform.Send = some send)
    (hok : ∀ s a d l, (send s a d l).2 = 0) :
    ∀ (fuel : Nat) (s : σ) (Buffer Data : List Nat) (n : Nat), 0 < n → n ≤ 255 →
      HT1382_WriteRegs_loop 1 H fuel s Buffer Data n = none := by
  intro fuel
  induction fuel with
  | zero => intro s Buffer Data n _ _; rfl
  | succ fuel ih =>
    intro s Buffer Data n h0 hn
    rw [HT1382_WriteRegs_loop]
    rw [if_neg (by omega)]
    simp only [hS, hok, lt_self_iff_false, if_false, Nat.sub_self, Nat.min_zero, Nat.zero_mod,
      Nat.sub_zero, Nat.mod_eq_of_lt (by omega : n < 256)]
    exact ih _ _ _ n h0 hn

theorem memcpy_length (Buffer Data : List Nat) (L C : Nat) (hB : Buffer.length = C)
    (hL : 1 + L ≤ C) (hD : L ≤ Data.length) : (memcpy Buffer 1 Data L).length = C := by
  simp only [memcpy, List.length_append, List.length_take, List.length_drop, hB]
  omega


theorem probing_Send {σ : Type} (H : HT1382_Handler σ)
    (send : σ → Nat → List Nat → Nat → σ × Int) (hS : H.Platform.Send = some send) :
    (probing H).Platform.Send = some (fun st Address Data Len =>
      (((send st.1 Address Data Len).1,
          st.2 ++ [SendArgs.mk Address Data Len (send st.1 Address Data Len).2]),
        (send st.1 Address Data Len).2)) := by
  simp [probing, hS]

/-- After the copy of `L` data bytes behind the address byte, the first `L + 1`
bytes of the buffer less the address byte are the `L` data bytes. -/
theorem memcpy_payload (Buffer Data : List Nat) (L : Nat) (hB : 1 ≤ Buffer.length)
    (hD : L ≤ Data.length) :
    ((memcpy Buffer 1 Data L).take (L + 1)).drop 1 = Data.take L := by
  cases Buffer with
  | nil => simp at hB
  | cons b bs =>
    have h1 : (Data.take L).length = L := by rw [List.length_take]; omega
    simp only [memcpy, List.take_succ_cons, List.take_zero, List.cons_append, List.nil_append,
      List.append_assoc, List.drop_succ_cons, List.drop_zero]
    rw [List.take_append_of_le_length (by omega), List.take_of_length_le (by omega)]

theorem announcedBytes_cons (e : SendArgs) (log : List SendArgs) :
    announcedBytes (e :: log) = (e.Len - 1) + announcedBytes log := by
  simp [announcedBytes]

/-- With a send buffer of at least two bytes the loop, run on `n` bytes with
more than `n` units of fuel, returns after at most `n` sends, whatever the
sends return.  Unless the length argument wraps (`C ≥ 256` and `n = 255`),
every send is passed a length between 2 and `C`; when the buffer has `C` bytes
and `Data` has `n`, the buffer passed to every send still has `C` bytes and the
data bytes of the sends are, in order, the leading bytes of `Data`. -/
theorem WriteRegs_loop_probing {σ : Type} (C : Nat) (hC : 2 ≤ C) (H : HT1382_Handler σ)
    (send : σ → Nat → List Nat → Nat → σ × Int) (hS : H.Platform.Send = some send) :
    ∀ (fuel : Nat) (s : σ) (tr : List SendArgs) (Buffer Data : List Nat) (n : Nat),
      n < fuel → n ≤ 255 →
      ∃ s' log r, HT1382_WriteRegs_loop C (probing H) fuel (s, tr) Buffer Data n =
          some ((s', tr ++ log), r) ∧ log.length ≤ n ∧
        ((C ≤ 255 ∨ n ≤ 254) →
          (∀ e ∈ log, e.Address = HT1382_ADDRESS ∧ 2 ≤ e.Len ∧ e.Len ≤ C) ∧
          log.length ≤ announcedBytes log ∧ announcedBytes log ≤ n ∧
          (r = 0 → announcedBytes log = n) ∧
          (Buffer.length = C → Data.length = n →
            (∀ e ∈ log, e.Data.length = C) ∧
            (log.map SendArgs.payload).flatten = Data.take (announcedBytes log))) := by
  intro fuel
  induction fuel with
  | zero => intro s tr Buffer Data n hf; omega
  | succ fuel ih =>
    intro s tr Buffer Data n hf hn
    rw [HT1382_WriteRegs_loop]
    by_cases h0 : n = 0
    · subst h0
      refine ⟨s, [], 0, by simp, by simp, ?_⟩
      intro _
      simp [announcedBytes]
    · rw [if_neg h0]
      simp only [probing_Send H send hS]
      generalize hL : min n (C - 1) = L
      have hL1 : 1 ≤ L := by omega
      have hLn : L ≤ n := by omega
      have hLC : L + 1 ≤ C := by omega
      clear hL
      rw [Nat.mod_eq_of_lt (by omega : L < 256), Nat.mod_eq_of_lt (by omega : n - L < 256)]
      have hBlen : Buffer.length = C → Data.length = n →
          (memcpy Buffer 1 Data L).length = C := fun hb hd =>
        memcpy_length Buffer Data L C hb (by omega) (by omega)
      have hBpay : Buffer.length = C → Data.length = n →
          ((memcpy Buffer 1 Data L).take (L + 1)).drop 1 = Data.take L := fun hb hd =>
        memcpy_payload Buffer Data L (by omega) (by omega)
      generalize memcpy Buffer 1 Data L = B at hBlen hBpay
      have hAeq : (C ≤ 255 ∨ n ≤ 254) → (L + 1) % 256 = L + 1 := fun hc =>
        Nat.mod_eq_of_lt (by omega)
      generalize (L + 1) % 256 = A at hAeq
      generalize send s HT1382_ADDRESS B A = rc
      by_cases hneg : rc.2 < 0
      · rw [if_pos hneg]
        refine ⟨rc.1, [SendArgs.mk HT1382_ADDRESS B A rc.2], -1, rfl,
          by simp only [List.length_singleton]; omega, ?_⟩
        intro hc
        have hA1 := hAeq hc
        subst hA1
        refine ⟨?_, ?_, ?_, ?_, ?_⟩
        · intro e he
          rw [List.mem_singleton] at he
          subst he
          exact ⟨rfl, by simp only; omega, by simp only; omega⟩
        · simp only [announcedBytes, List.map_cons, List.map_nil, List.sum_cons, List.sum_nil,
            List.length_singleton]
          omega
        · simp only [announcedBytes, List.map_cons, List.map_nil, List.sum_cons, List.sum_nil]
          omega
        · intro h
          exact absurd h (by decide)
        · intro hb hd
          constructor
          · intro e he
            rw [List.mem_singleton] at he
            subst he
            exact hBlen hb hd
          · simp only [announcedBytes, List.map_cons, List.map_nil, List.sum_cons, List.sum_nil,
              List.flatten_cons, List.flatten_nil, List.append_nil, SendArgs.payload,
              Nat.add_sub_cancel, Nat.add_zero]
            exact hBpay hb hd
      · rw [if_neg hneg]
        obtain ⟨s', log, r, hrun, hcount, hrest⟩ := ih rc.1
          (tr ++ [SendArgs.mk HT1382_ADDRESS B A rc.2])
          (B.set 0 ((B.getD 0 0 + L) % 256)) (Data.drop L)
          (n - L) (by omega) (by omega)
        refine ⟨s', SendArgs.mk HT1382_ADDRESS B A rc.2 :: log, r, ?_, ?_, ?_⟩
        · rw [hrun, List.append_assoc]
          rfl
        · simp only [List.length_cons]
          omega
        · intro hc
          have hA1 := hAeq hc
          subst hA1
          obtain ⟨hall, hlen, hle, hr0, hbuf⟩ := hrest (Or.inr (by omega))
          rw [announcedBytes_cons]
          simp only [Nat.add_sub_cancel]
          refine ⟨?_, ?_, ?_, ?_, ?_⟩
          · intro e he
            rcases List.mem_cons.mp he with h | h
            · subst h
              exact ⟨rfl, by simp only; omega, by simp only; omega⟩
            · exact hall e h
          · simp only [List.length_cons]
            omega
          · omega
          · intro h
            have := hr0 h
            omega
          · intro hb hd
            obtain ⟨hbl, hfl⟩ := hbuf (by rw [List.length_set]; exact hBlen hb hd)
              (by rw [List.length_drop, hd])
            constructor
            · intro e he
              rcases List.mem_cons.mp he with h | h
              · subst h
                exact hBlen hb hd
              · exact hbl e h
            · rw [List.map_cons, List.flatten_cons, hfl, List.take_add]
              simp only [SendArgs.payload]
              rw [hBpay hb hd]

/-- C27: for every send-buffer capacity C with 2 <= C <= 255 and every byte
count n in 0..255, HT1382_WriteRegs returns, and every send it issues, whatever
the sends return, goes to the device address with a length argument between 2
and C.  The buffer handed to each send still has its C bytes (a copy past the
end of the buffer would lengthen it), so the copy of the data bytes ends within
the buffer; the length argument is the number of data bytes of the send plus
one, not wrapped: each send carries between 1 and C - 1 data bytes, the data
bytes of the sends are in order the leading bytes of Data, and all n of them
when the result is 0. -/
theorem C27_send_lengths {σ : Type} (C : Nat) (hC : 2 ≤ C) (hC255 : C ≤ 255)
    (H : HT1382_Handler σ) (send : σ → Nat → List Nat → Nat → σ × Int)
    (hS : H.Platform.Send = some send)
    (s : σ) (S : Nat) (Data : List Nat) (n : Nat) (hlen : Data.length = n) (hn : n ≤ 255) :
    ∃ s' log r, HT1382_WriteRegs C (probing H) (s, []) S Data n = some ((s', log), r) ∧
      (∀ e ∈ log, e.Address = HT1382_ADDRESS ∧ e.Data.length = C ∧ 2 ≤ e.Len ∧ e.Len ≤ C ∧
        e.payload.length + 1 = e.Len) ∧
      (log.map SendArgs.payload).flatten = Data.take (announcedBytes log) ∧
      (r = 0 → (log.map SendArgs.payload).flatten = Data) := by
  obtain ⟨s', log, r, h, -, hrest⟩ := WriteRegs_loop_probing C hC H send hS (n + 1) s []
    ((List.replicate C 0).set 0 S) Data n (by omega) hn
  rw [List.nil_append] at h
  obtain ⟨hall, -, -, hr0, hbuf⟩ := hrest (Or.inl hC255)
  obtain ⟨hbl, hfl⟩ := hbuf (by simp) hlen
  refine ⟨s', log, r, h, ?_, hfl, ?_⟩
  · intro e he
    have h1 := hall e he
    have h2 := hbl e he
    refine ⟨h1.1, h2, h1.2.1, h1.2.2, ?_⟩
    simp only [SendArgs.payload, List.length_drop, List.length_take]
    omega
  · intro hr
    rw [hfl, hr0 hr, ← hlen, List.take_length]

theorem C27_send_lengths_witness :
    (∃ s' log r, HT1382_WriteRegs 3 (probing simHandler) (zeroStore, []) 0
        [1, 2, 3, 4, 5, 6, 7] 7 = some ((s', log), r) ∧
      (∀ e ∈ log, e.Address = HT1382_ADDRESS ∧ e.Data.length = 3 ∧ 2 ≤ e.Len ∧ e.Len ≤ 3 ∧
        e.payload.length + 1 = e.Len) ∧
      (log.map SendArgs.payload).flatten = [1, 2, 3, 4, 5, 6, 7].take (announcedBytes log) ∧
      (r = 0 → (log.map SendArgs.payload).flatten = [1, 2, 3, 4, 5, 6, 7])) ∧
    (HT1382_WriteRegs 3 (probing simHandler) (zeroStore, []) 0 [1, 2, 3, 4, 5, 6, 7] 7).map
      (fun v => (v.1.2.map fun e => (e.Address, e.Data, e.Len, e.code), v.2)) =
        some ([(0x68, [0, 1, 2], 3, 0), (0x68, [2, 3, 4], 3, 0), (0x68, [4, 5, 6], 3, 0),
          (0x68, [6, 7, 6], 2, 0)], 0) :=
  ⟨C27_send_lengths 3 (by decide) (by decide) simHandler RegStore.send rfl zeroStore 0
      [1, 2, 3, 4, 5, 6, 7] 7 rfl (by decide),
    rfl⟩

end HT1382
